import Mathlib

/-! ADS7846 touch controller driver (src/lib/ADS7846.cpp)

A shallow embedding of the driver: the calibration engine (`setCalibration`,
`writeCalibration`, `readCalibration`, `doCalibration`, `calibrate`), the sample
acquirer (`rd_data`) and the touch lifecycle handlers (`EXTI1_IRQHandler`,
`callbackPeriodicTouch`, `callbackLongTouchTimeout`, `wasTouched`).

Conventions
* `long`, `int` are the 32-bit signed integers of the STM32F3 target: values are
  `Int`, every arithmetic result is reduced with `wrap32` (two's complement).
* `uint32_t`, `uint8_t` values are `Nat`, reduced modulo `2^32` resp. `2^8`.
* A division by zero has no defined result; functions that may execute one
  return `Option`, with `none` standing for that fault.
* Function pointers are `Option Nat`: `none` is `NULL`, `some k` the k-th user routine.
  Invoking one appends a `CallbackCall` to the `calls` log of the state.
* Display drawing, LED and debug pins, chip select and the SPI prescaler have no
  influence on the modelled state and are left out.
-/

namespace ADS7846

/-! ## Machine integers -/

/-- Reduce an integer to the signed 32-bit range (two's complement wrap-around). -/
def wrap32 (x : Int) : Int := (x + 2147483648) % 4294967296 - 2147483648

/-- Signed 32-bit addition. -/
def add32 (x y : Int) : Int := wrap32 (x + y)

/-- Signed 32-bit subtraction. -/
def sub32 (x y : Int) : Int := wrap32 (x - y)

/-- Signed 32-bit multiplication. -/
def mul32 (x y : Int) : Int := wrap32 (x * y)

/-- Signed 32-bit division, truncating toward zero as in C; the divisor is checked by the caller. -/
def div32 (x y : Int) : Int := wrap32 (Int.tdiv x y)

/-- Conversion of a signed value to `uint32_t`. -/
def toU32 (x : Int) : Nat := (x % 4294967296).toNat

/-- Conversion of a `uint32_t` value to a signed 32-bit integer. -/
def toS32 (n : Nat) : Int := wrap32 (n : Int)

/-- The values a signed 32-bit variable can hold. -/
def fits32 (x : Int) : Prop := -2147483648 ≤ x ∧ x < 2147483648

instance (x : Int) : Decidable (fits32 x) := by
  unfold fits32; infer_instance

/-! ## Data types of ADS7846.h -/

/-- A calibration point `CAL_POINT { long x; long y; }`. -/
structure CAL_POINT where
  x : Int
  y : Int
  deriving DecidableEq, Repr

/-- The array of three calibration points that `setCalibration` receives by pointer. -/
structure CAL_POINTS where
  p0 : CAL_POINT
  p1 : CAL_POINT
  p2 : CAL_POINT
  deriving DecidableEq, Repr

/-- The calibration matrix `CAL_MATRIX { long a, b, c, d, e, f, div; }`. -/
structure CAL_MATRIX where
  a : Int
  b : Int
  c : Int
  d : Int
  e : Int
  f : Int
  div : Int
  deriving DecidableEq, Repr

/-- All seven fields of a matrix hold signed 32-bit values. -/
def CAL_MATRIX.fits (m : CAL_MATRIX) : Prop :=
  fits32 m.a ∧ fits32 m.b ∧ fits32 m.c ∧ fits32 m.d ∧ fits32 m.e ∧ fits32 m.f ∧ fits32 m.div

instance (m : CAL_MATRIX) : Decidable m.fits := by
  unfold CAL_MATRIX.fits; infer_instance

/-- A position: the type of `mTouchActualPosition` and its siblings (two `int` members). -/
structure Position where
  x : Int
  y : Int
  deriving DecidableEq, Repr

/-- Constants declared in ADS7846.h, HY32D.h and timing.h. These headers are not among the
sources, so the constants are parameters of every function that uses them. -/
structure Header where
  DISPLAY_WIDTH : Int
  DISPLAY_HEIGHT : Int
  MIN_REASONABLE_PRESSURE : Int
  ADS7846_READ_OVERSAMPLING_DEFAULT : Int
  CMD_Z1_POS : Nat
  CMD_Z2_POS : Nat
  CMD_X_POS : Nat
  CMD_Y_POS : Nat
  CAL_POINT1 : CAL_POINT
  CAL_POINT2 : CAL_POINT
  CAL_POINT3 : CAL_POINT
  DISABLE_TIMER_DELAY_VALUE : Int
  deriving DecidableEq, Repr

/-- The backup registers `RTC_BKP_DR0 .. RTC_BKP_DR7` of the RTC, each a 32-bit word. -/
structure BackupRegisters where
  DR0 : Nat
  DR1 : Nat
  DR2 : Nat
  DR3 : Nat
  DR4 : Nat
  DR5 : Nat
  DR6 : Nat
  DR7 : Nat
  deriving DecidableEq, Repr

/-- One invocation of a user routine through a registered function pointer. -/
inductive CallbackCall where
  | longTouch (cb : Nat) (x y : Int) (isLong : Bool)
  | endTouch (cb : Nat) (duration : Nat) (dx dy : Int)
  | periodicTouch (cb : Nat) (x y : Int)
  deriving DecidableEq, Repr

/-- The variables of the driver: the members of the `TouchPanel` object, the file-level
callback pointers and once-flags, and the state of the collaborators the driver acts on
(backup registers, delay callbacks of the timer, interrupt mask, SPI output, invoked callbacks). -/
structure State where
  tp_matrix : CAL_MATRIX
  mTouchActualPositionRaw : Position
  mTouchLastCalibratedPosition : Position
  mTouchActualPosition : Position
  mTouchFirstPosition : Position
  mTouchLastPosition : Position
  mPressure : Int
  ADS7846TouchActive : Bool
  ADS7846TouchStart : Bool
  ADS7846TouchStartMillis : Nat
  mPeriodicCallbackPeriodMillis : Int
  mLongTouchTimeoutMillis : Int
  mLongTouchCallback : Option Nat
  mLongTouchCallbackHappened : Bool
  mEndTouchCallbackHappened : Bool
  mPeriodicTouchCallback : Option Nat
  mEndTouchCallback : Option Nat
  backup : BackupRegisters
  backupAccess : Bool
  delayPeriodicTouch : Option Int
  delayLongTouchTimeout : Option Int
  delayEnableInterrupt : Option Int
  interruptEnabled : Bool
  spiSent : List Nat
  calls : List CallbackCall
  deriving DecidableEq, Repr

/-- The hard-coded matrix `tInitalMatrix`. -/
def tInitalMatrix : CAL_MATRIX :=
  { a := 320300, b := -1400, c := -52443300, d := -3500, e := 237700, f := -21783300,
    div := 1857905 }

/-- The tag `CALIBRATION_MAGIC_NUMBER`. -/
def CALIBRATION_MAGIC_NUMBER : Nat := 0x5A5A5A5A

/-- The device after reset, before `init`: statics are zero, pointers `NULL`, flags false;
the battery-backed registers keep the contents `regs`. -/
def resetState (regs : BackupRegisters) : State :=
  { tp_matrix := ⟨0, 0, 0, 0, 0, 0, 0⟩
    mTouchActualPositionRaw := ⟨0, 0⟩
    mTouchLastCalibratedPosition := ⟨0, 0⟩
    mTouchActualPosition := ⟨0, 0⟩
    mTouchFirstPosition := ⟨0, 0⟩
    mTouchLastPosition := ⟨0, 0⟩
    mPressure := 0
    ADS7846TouchActive := false
    ADS7846TouchStart := false
    ADS7846TouchStartMillis := 0
    mPeriodicCallbackPeriodMillis := 0
    mLongTouchTimeoutMillis := 0
    mLongTouchCallback := none
    mLongTouchCallbackHappened := false
    mEndTouchCallbackHappened := false
    mPeriodicTouchCallback := none
    mEndTouchCallback := none
    backup := regs
    backupAccess := false
    delayPeriodicTouch := none
    delayLongTouchTimeout := none
    delayEnableInterrupt := none
    interruptEnabled := true
    spiSent := []
    calls := [] }

/-! ## Calibration engine -/

/-- The method `ADS7846::init`: sets the listed members, leaves everything else. -/
def init (s : State) : State :=
  { s with
    tp_matrix := { s.tp_matrix with div := 0 }
    mTouchActualPositionRaw := ⟨0, 0⟩
    mTouchLastCalibratedPosition := ⟨0, 0⟩
    mTouchActualPosition := ⟨0, 0⟩
    mPressure := 0
    ADS7846TouchActive := false
    ADS7846TouchStart := false }

/-- The method `ADS7846::setCalibration`: the determinant is written to `tp_matrix.div`
first; when it is zero the call returns false at once, otherwise `a .. f` are computed. -/
def setCalibration (aTargetValues aRawValues : CAL_POINTS) (s : State) : Bool × State :=
  let t0 := aTargetValues.p0
  let t1 := aTargetValues.p1
  let t2 := aTargetValues.p2
  let r0 := aRawValues.p0
  let r1 := aRawValues.p1
  let r2 := aRawValues.p2
  let div := sub32 (mul32 (sub32 r0.x r2.x) (sub32 r1.y r2.y))
                   (mul32 (sub32 r1.x r2.x) (sub32 r0.y r2.y))
  let s1 := { s with tp_matrix := { s.tp_matrix with div := div } }
  if div = 0 then
    (false, s1)
  else
    let a := sub32 (mul32 (sub32 t0.x t2.x) (sub32 r1.y r2.y))
                   (mul32 (sub32 t1.x t2.x) (sub32 r0.y r2.y))
    let b := sub32 (mul32 (sub32 r0.x r2.x) (sub32 t1.x t2.x))
                   (mul32 (sub32 t0.x t2.x) (sub32 r1.x r2.x))
    let c := add32 (add32
                (mul32 (sub32 (mul32 r2.x t1.x) (mul32 r1.x t2.x)) r0.y)
                (mul32 (sub32 (mul32 r0.x t2.x) (mul32 r2.x t0.x)) r1.y))
                (mul32 (sub32 (mul32 r1.x t0.x) (mul32 r0.x t1.x)) r2.y)
    let d := sub32 (mul32 (sub32 t0.y t2.y) (sub32 r1.y r2.y))
                   (mul32 (sub32 t1.y t2.y) (sub32 r0.y r2.y))
    let e := sub32 (mul32 (sub32 r0.x r2.x) (sub32 t1.y t2.y))
                   (mul32 (sub32 t0.y t2.y) (sub32 r1.x r2.x))
    let f := add32 (add32
                (mul32 (sub32 (mul32 r2.x t1.y) (mul32 r1.x t2.y)) r0.y)
                (mul32 (sub32 (mul32 r0.x t2.y) (mul32 r2.x t0.y)) r1.y))
                (mul32 (sub32 (mul32 r1.x t0.y) (mul32 r0.x t1.y)) r2.y)
    (true, { s with tp_matrix := ⟨a, b, c, d, e, f, div⟩ })

/-- The library routine `RTC_WriteBackupRegister`: stores the 32-bit word `data` in register
`reg` (0 to 7) while write access to the backup domain is enabled. -/
def RTC_WriteBackupRegister (reg : Nat) (data : Nat) (s : State) : State :=
  if s.backupAccess then
    let v := data % 4294967296
    let b := s.backup
    match reg with
    | 0 => { s with backup := { b with DR0 := v } }
    | 1 => { s with backup := { b with DR1 := v } }
    | 2 => { s with backup := { b with DR2 := v } }
    | 3 => { s with backup := { b with DR3 := v } }
    | 4 => { s with backup := { b with DR4 := v } }
    | 5 => { s with backup := { b with DR5 := v } }
    | 6 => { s with backup := { b with DR6 := v } }
    | 7 => { s with backup := { b with DR7 := v } }
    | _ => s
  else s

/-- The library routine `RTC_ReadBackupRegister`. -/
def RTC_ReadBackupRegister (reg : Nat) (s : State) : Nat :=
  match reg with
  | 0 => s.backup.DR0
  | 1 => s.backup.DR1
  | 2 => s.backup.DR2
  | 3 => s.backup.DR3
  | 4 => s.backup.DR4
  | 5 => s.backup.DR5
  | 6 => s.backup.DR6
  | 7 => s.backup.DR7
  | _ => 0

/-- The library routine `PWR_BackupAccessCmd`. -/
def PWR_BackupAccessCmd (enable : Bool) (s : State) : State :=
  { s with backupAccess := enable }

/-- The method `ADS7846::writeCalibration`: a matrix with `div != 0` is written behind the
magic number, any other matrix is refused. -/
def writeCalibration (aMatrix : CAL_MATRIX) (s : State) : Bool × State :=
  if aMatrix.div ≠ 0 then
    let s := PWR_BackupAccessCmd true s
    let s := RTC_WriteBackupRegister 0 CALIBRATION_MAGIC_NUMBER s
    let s := RTC_WriteBackupRegister 1 (toU32 aMatrix.a) s
    let s := RTC_WriteBackupRegister 2 (toU32 aMatrix.b) s
    let s := RTC_WriteBackupRegister 3 (toU32 aMatrix.c) s
    let s := RTC_WriteBackupRegister 4 (toU32 aMatrix.d) s
    let s := RTC_WriteBackupRegister 5 (toU32 aMatrix.e) s
    let s := RTC_WriteBackupRegister 6 (toU32 aMatrix.f) s
    let s := RTC_WriteBackupRegister 7 (toU32 aMatrix.div) s
    let s := PWR_BackupAccessCmd false s
    (true, s)
  else
    (false, s)

/-- The method `ADS7846::readCalibration`, with the matrix behind the pointer passed in and
returned: it is overwritten only when register 0 holds the magic number. -/
def readCalibration (aMatrix : CAL_MATRIX) (s : State) : Bool × CAL_MATRIX :=
  let tMagic := RTC_ReadBackupRegister 0 s
  if tMagic = CALIBRATION_MAGIC_NUMBER then
    (true,
      { a := toS32 (RTC_ReadBackupRegister 1 s)
        b := toS32 (RTC_ReadBackupRegister 2 s)
        c := toS32 (RTC_ReadBackupRegister 3 s)
        d := toS32 (RTC_ReadBackupRegister 4 s)
        e := toS32 (RTC_ReadBackupRegister 5 s)
        f := toS32 (RTC_ReadBackupRegister 6 s)
        div := toS32 (RTC_ReadBackupRegister 7 s) })
  else
    (false, aMatrix)

/-- The call `readCalibration(&tp_matrix)`: the driver's own matrix is the target. -/
def readCalibrationTp (s : State) : Bool × State :=
  let r := readCalibration s.tp_matrix s
  (r.1, { s with tp_matrix := r.2 })

/-- The method `ADS7846::calibrate`: each axis is recomputed only when its raw value differs
from the raw value last transformed; the result is clamped to the display. The fault
`none` is a division executed with `tp_matrix.div == 0`. -/
def calibrate (cfg : Header) (s : State) : Option State :=
  let sx : Option State :=
    if s.mTouchActualPositionRaw.x ≠ s.mTouchLastCalibratedPosition.x then
      let x := s.mTouchActualPositionRaw.x
      let y := s.mTouchActualPositionRaw.y
      if s.tp_matrix.div = 0 then none
      else
        let x := div32 (add32 (add32 (mul32 s.tp_matrix.a x) (mul32 s.tp_matrix.b y))
                  s.tp_matrix.c) s.tp_matrix.div
        let x := if x < 0 then 0 else if x ≥ cfg.DISPLAY_WIDTH then cfg.DISPLAY_WIDTH - 1 else x
        some { s with
          mTouchLastCalibratedPosition :=
            { s.mTouchLastCalibratedPosition with x := s.mTouchActualPositionRaw.x }
          mTouchActualPosition := { s.mTouchActualPosition with x := x } }
    else some s
  sx.bind fun s =>
    if s.mTouchActualPositionRaw.y ≠ s.mTouchLastCalibratedPosition.y then
      let x := s.mTouchActualPositionRaw.x
      let y := s.mTouchActualPositionRaw.y
      if s.tp_matrix.div = 0 then none
      else
        let y := div32 (add32 (add32 (mul32 s.tp_matrix.d x) (mul32 s.tp_matrix.e y))
                  s.tp_matrix.f) s.tp_matrix.div
        let y := if y < 0 then 0 else if y ≥ cfg.DISPLAY_HEIGHT then cfg.DISPLAY_HEIGHT - 1 else y
        some { s with
          mTouchLastCalibratedPosition :=
            { s.mTouchLastCalibratedPosition with y := s.mTouchActualPositionRaw.y }
          mTouchActualPosition := { s.mTouchActualPosition with y := y } }
    else some s

/-- The final step of the calibration procedure (the end of `doCalibration`): the matrix is
derived from the collected raw points, then written to the backup registers; the result of
`setCalibration` is not looked at. -/
def doCalibrationStore (cfg : Header) (tRawPoints : CAL_POINTS) (s : State) : State :=
  let tReferencePoints : CAL_POINTS := ⟨cfg.CAL_POINT1, cfg.CAL_POINT2, cfg.CAL_POINT3⟩
  let s := (setCalibration tReferencePoints tRawPoints s).2
  (writeCalibration s.tp_matrix s).2

/-! ## Timer collaborator -/

/-- Modelled from the spec: timing.c is absent. The timer keeps one pending delay per
callback; `changeDelayCallback` replaces it, and the sentinel `DISABLE_TIMER_DELAY_VALUE`
disables the callback. The result is the new pending delay of the callback. -/
def changeDelayCallback (cfg : Header) (aDelay : Int) : Option Int :=
  if aDelay = cfg.DISABLE_TIMER_DELAY_VALUE then none else some aDelay

/-- Modelled from the spec: timing.c is absent. `registerDelayCallback` schedules the
callback once after the given delay. -/
def registerDelayCallback (cfg : Header) (aDelay : Int) : Option Int :=
  changeDelayCallback cfg aDelay

/-! ## Sample acquirer -/

/-- The constant `TOUCH_DELAY_AFTER_READ_MILLIS`. -/
def TOUCH_DELAY_AFTER_READ_MILLIS : Int := 5

/-- The constant `TOUCH_SWIPE_RESOLUTION_MILLIS`. -/
def TOUCH_SWIPE_RESOLUTION_MILLIS : Int := 20

/-- The command bit `CMD_START`. -/
def CMD_START : Nat := 0x80

/-- The command bit `CMD_12BIT`. -/
def CMD_12BIT : Nat := 0x00

/-- The command bit `CMD_8BIT`. -/
def CMD_8BIT : Nat := 0x08

/-- The command bit `CMD_DIFF`. -/
def CMD_DIFF : Nat := 0x00

/-- The command bit `CMD_SINGLE`. -/
def CMD_SINGLE : Nat := 0x04

/-- The mask `CHANNEL_MASK`. -/
def CHANNEL_MASK : Nat := 0x70

/-- The SPI bus during one call: `resp k` is the byte the chip returns in the k-th exchange
of the call, `count` the number of exchanges done, `sent` the bytes shifted out. -/
structure Spi where
  resp : Nat → Nat
  count : Nat
  sent : List Nat

/-- One exchange `SPI1_sendReceiveFast(out)` (or `SPI1_sendReceive`): a byte goes out, a byte
comes back. -/
def SPI1_sendReceiveFast (out : Nat) (bus : Spi) : Nat × Spi :=
  (bus.resp bus.count % 256, { bus with count := bus.count + 1, sent := bus.sent ++ [out] })

/-- The result of the oversampling loop of `rd_data`. -/
structure Oversampled where
  tXValue : Nat
  tYValue : Nat
  j : Int
  bus : Spi

/-- The oversampling loop of `rd_data`, `i` iterations left: an X reading of 4000 or more, or
a Y reading of 100 or less, leaves the loop; otherwise both accumulators grow and `j` counts
two. -/
def rd_dataLoop (cfg : Header) : Nat → Nat → Nat → Int → Spi → Oversampled
  | 0, tXValue, tYValue, j, bus => ⟨tXValue, tYValue, j, bus⟩
  | i + 1, tXValue, tYValue, j, bus =>
    let r := SPI1_sendReceiveFast (CMD_START ||| CMD_12BIT ||| CMD_DIFF ||| cfg.CMD_X_POS) bus
    let ra := SPI1_sendReceiveFast 0 r.2
    let rb := SPI1_sendReceiveFast 0 ra.2
    let tX := (ra.1 <<< 5) ||| (rb.1 >>> 3)
    if tX ≥ 4000 then ⟨tXValue, tYValue, j, rb.2⟩
    else
      let r := SPI1_sendReceiveFast (CMD_START ||| CMD_12BIT ||| CMD_DIFF ||| cfg.CMD_Y_POS) rb.2
      let ra := SPI1_sendReceiveFast 0 r.2
      let rb := SPI1_sendReceiveFast 0 ra.2
      let tY := (ra.1 <<< 5) ||| (rb.1 >>> 3)
      if tY ≤ 100 then ⟨tXValue, tYValue, j, rb.2⟩
      else
        rd_dataLoop cfg i ((tXValue + (4048 - tX)) % 4294967296) ((tYValue + tY) % 4294967296)
          (add32 j 2) rb.2

/-- The pressure reading of `rd_data`: `a + (uint8_t)(127 - b)` from the Z1 and Z2 channels. -/
def rd_dataPressure (cfg : Header) (bus : Spi) : Int × Spi :=
  let r := SPI1_sendReceiveFast (CMD_START ||| CMD_8BIT ||| CMD_DIFF ||| cfg.CMD_Z1_POS) bus
  let ra := SPI1_sendReceiveFast 0 r.2
  let r := SPI1_sendReceiveFast (CMD_START ||| CMD_8BIT ||| CMD_DIFF ||| cfg.CMD_Z2_POS) ra.2
  let rb := SPI1_sendReceiveFast 0 r.2
  let b := (127 + 256 - rb.1) % 256
  ((ra.1 : Int) + (b : Int), rb.2)

/-- The method `ADS7846::rd_data(int aOversampling)`; `resp` are the bytes the chip returns
during the call. The fault `none` is the division `tXValue /= j` with `j == 0`, or a fault
of `calibrate`. -/
def rd_data (cfg : Header) (aOversampling : Int) (resp : Nat → Nat) (s : State) : Option State :=
  let tDelayValue := mul32 (add32 (Int.tdiv aOversampling 16) 1) TOUCH_DELAY_AFTER_READ_MILLIS
  let s := { s with delayEnableInterrupt := changeDelayCallback cfg tDelayValue
                    interruptEnabled := false }
  let p := rd_dataPressure cfg ⟨resp, 0, []⟩
  let tPressure := p.1
  let s := { s with mPressure := 0, ADS7846TouchActive := false }
  if tPressure ≥ cfg.MIN_REASONABLE_PRESSURE then
    let l := rd_dataLoop cfg (aOversampling % 256).toNat 0 0 0 p.2
    if l.j = mul32 aOversampling 2 then
      if l.j = 0 then none
      else
        let tXValue := l.tXValue / toU32 l.j
        let tYValue := l.tYValue / toU32 l.j
        let p2 := rd_dataPressure cfg l.bus
        let s := { s with spiSent := s.spiSent ++ p2.2.sent }
        if p2.1 > sub32 tPressure (tPressure >>> 3) ∧ tXValue ≥ 10 ∧ tYValue ≥ 10 then
          let s := { s with mTouchActualPositionRaw := ⟨toS32 tXValue, toS32 tYValue⟩ }
          (calibrate cfg s).map fun s =>
            { s with mPressure := tPressure, ADS7846TouchActive := true }
        else some s
    else some { s with spiSent := s.spiSent ++ l.bus.sent }
  else some { s with spiSent := s.spiSent ++ p.2.sent }

/-- The method `ADS7846::rd_data(void)`. -/
def rd_dataDefault (cfg : Header) (resp : Nat → Nat) (s : State) : Option State :=
  rd_data cfg cfg.ADS7846_READ_OVERSAMPLING_DEFAULT resp s

/-! ## Touch lifecycle -/

/-- The method `ADS7846::wasTouched`. -/
def wasTouched (s : State) : Bool × State :=
  if s.ADS7846TouchStart then
    (true, { s with ADS7846TouchStart := false })
  else
    (false, s)

/-- The release part shared by `EXTI1_IRQHandler` and `callbackPeriodicTouch`: each of the
long-touch (as short touch) and end-touch callbacks is invoked when it is registered and its
once-flag is unset; `now` is the value of `getMillisSinceBoot()`. -/
def touchReleased (now : Nat) (s : State) : State :=
  let s :=
    match s.mLongTouchCallback with
    | some cb =>
      if !s.mLongTouchCallbackHappened then
        { s with
          mLongTouchCallbackHappened := true
          calls := s.calls ++
            [CallbackCall.longTouch cb s.mTouchFirstPosition.x s.mTouchFirstPosition.y false] }
      else s
    | none => s
  match s.mEndTouchCallback with
  | some cb =>
    if !s.mEndTouchCallbackHappened then
      { s with
        mEndTouchCallbackHappened := true
        calls := s.calls ++
          [CallbackCall.endTouch cb
            ((now % 4294967296 + 4294967296 - s.ADS7846TouchStartMillis % 4294967296) % 4294967296)
            (sub32 s.mTouchFirstPosition.x s.mTouchLastPosition.x)
            (sub32 s.mTouchFirstPosition.y s.mTouchLastPosition.y)] }
    else s
  | none => s

/-- The handler `EXTI1_IRQHandler`, after the debounce delay: `tLevel` is the level of the
interrupt line (low, false, is pressed), `resp` the chip responses to `rd_data`, `now` the
value of `getMillisSinceBoot()`. -/
def EXTI1_IRQHandler (cfg : Header) (tLevel : Bool) (resp : Nat → Nat) (now : Nat) (s : State) :
    Option State :=
  if !tLevel then
    (rd_data cfg cfg.ADS7846_READ_OVERSAMPLING_DEFAULT resp s).map fun s =>
      if s.ADS7846TouchActive then
        let s := { s with ADS7846TouchStart := true }
        let s :=
          if s.mEndTouchCallback ≠ none then
            { s with
              mEndTouchCallbackHappened := false
              mPeriodicTouchCallback := none
              delayPeriodicTouch := changeDelayCallback cfg TOUCH_SWIPE_RESOLUTION_MILLIS
              mPeriodicCallbackPeriodMillis := TOUCH_SWIPE_RESOLUTION_MILLIS }
          else s
        let s := { s with
          ADS7846TouchStartMillis := now % 4294967296
          mTouchFirstPosition := s.mTouchActualPosition }
        if s.mLongTouchCallback ≠ none then
          { s with
            mLongTouchCallbackHappened := false
            delayLongTouchTimeout := changeDelayCallback cfg s.mLongTouchTimeoutMillis }
        else s
      else s
  else
    some (touchReleased now s)

/-- The routine `callbackLongTouchTimeout`; the fault `none` is the failed
`assert_param(mLongTouchCallback != NULL)`. -/
def callbackLongTouchTimeout (s : State) : Option State :=
  match s.mLongTouchCallback with
  | none => none
  | some cb =>
    if !s.mLongTouchCallbackHappened then
      some { s with
        mLongTouchCallbackHappened := true
        calls := s.calls ++
          [CallbackCall.longTouch cb s.mTouchFirstPosition.x s.mTouchFirstPosition.y true] }
    else some s

/-- The method `ADS7846::registerLongTouchCallback`. -/
def registerLongTouchCallback (cfg : Header) (aLongTouchCallback : Option Nat)
    (aLongTouchTimeoutMillis : Nat) (s : State) : State :=
  let s :=
    if aLongTouchCallback = none then
      { s with delayLongTouchTimeout := changeDelayCallback cfg cfg.DISABLE_TIMER_DELAY_VALUE }
    else s
  { s with
    mLongTouchCallback := aLongTouchCallback
    mLongTouchTimeoutMillis := (aLongTouchTimeoutMillis % 4294967296 : Nat) }

/-- The routine `callbackPeriodicTouch`. -/
def callbackPeriodicTouch (cfg : Header) (resp : Nat → Nat) (now : Nat) (s : State) :
    Option State :=
  (rd_dataDefault cfg resp s).map fun s =>
    if s.ADS7846TouchActive then
      let s :=
        match s.mPeriodicTouchCallback with
        | some cb =>
          { s with calls := s.calls ++
              [CallbackCall.periodicTouch cb s.mTouchActualPosition.x s.mTouchActualPosition.y] }
        | none => { s with mTouchLastPosition := s.mTouchActualPosition }
      { s with delayPeriodicTouch := registerDelayCallback cfg s.mPeriodicCallbackPeriodMillis }
    else
      touchReleased now { s with mPeriodicTouchCallback := none }

/-- The method `ADS7846::registerPeriodicTouchCallback`. -/
def registerPeriodicTouchCallback (cfg : Header) (aPeriodicTouchCallback : Option Nat)
    (aCallbackPeriodMillis : Nat) (s : State) : State :=
  { s with
    mPeriodicTouchCallback := aPeriodicTouchCallback
    delayPeriodicTouch := changeDelayCallback cfg (aCallbackPeriodMillis % 4294967296 : Nat)
    mPeriodicCallbackPeriodMillis := (aCallbackPeriodMillis % 4294967296 : Nat) }

/-- The method `ADS7846::registerEndTouchCallback`. -/
def registerEndTouchCallback (aTouchEndCallback : Option Nat) (s : State) : State :=
  { s with mEndTouchCallback := aTouchEndCallback }

/-- The method `ADS7846::setCallbackPeriod`. -/
def setCallbackPeriod (aCallbackPeriod : Nat) (s : State) : State :=
  { s with mPeriodicCallbackPeriodMillis := (aCallbackPeriod % 4294967296 : Nat) }

/-! ## Calibration procedure -/

/-- One round of the loop of `doCalibration`: the wait ends with the call of `wasTouched`
that finds the flag set and clears it; then `rd_data(4 * ADS7846_READ_OVERSAMPLING_DEFAULT)`
is read, the raw position is saved and `wasTouched` is called once more. -/
def doCalibrationPoint (cfg : Header) (resp : Nat → Nat) (s : State) :
    Option (CAL_POINT × State) :=
  let s := { s with ADS7846TouchStart := false }
  (rd_data cfg (mul32 4 cfg.ADS7846_READ_OVERSAMPLING_DEFAULT) resp s).map fun s =>
    (⟨s.mTouchActualPositionRaw.x, s.mTouchActualPositionRaw.y⟩, (wasTouched s).2)

/-- The method `ADS7846::doCalibration`; `resp i` are the chip responses while point `i` is
read. With `aCheckRTC` the matrix is loaded from the backup registers, and when they hold
none, `tInitalMatrix` is written and read back. -/
def doCalibration (cfg : Header) (aCheckRTC : Bool) (resp : Nat → Nat → Nat) (s : State) :
    Option State :=
  if aCheckRTC then
    let r := readCalibrationTp s
    if !r.1 then
      let s := (writeCalibration tInitalMatrix r.2).2
      some (readCalibrationTp s).2
    else some r.2
  else
    (doCalibrationPoint cfg (resp 0) s).bind fun r0 =>
    (doCalibrationPoint cfg (resp 1) r0.2).bind fun r1 =>
    (doCalibrationPoint cfg (resp 2) r1.2).bind fun r2 =>
    some (doCalibrationStore cfg ⟨r0.1, r1.1, r2.1⟩ r2.2)

/-! ## Runs of the driver -/

/-- The asynchronous entries of the driver: an edge of the interrupt line, a tick of the
periodic delay callback, the expiry of the long-touch delay. -/
inductive Event where
  | edge (tLevel : Bool) (resp : Nat → Nat) (now : Nat)
  | periodicTick (resp : Nat → Nat) (now : Nat)
  | longTouchTimeout

/-- The handler that serves an event. -/
def step (cfg : Header) (e : Event) (s : State) : Option State :=
  match e with
  | .edge tLevel resp now => EXTI1_IRQHandler cfg tLevel resp now s
  | .periodicTick resp now => callbackPeriodicTouch cfg resp now s
  | .longTouchTimeout => callbackLongTouchTimeout s

/-- The handlers run one after the other; a fault ends the run. -/
def run (cfg : Header) : List Event → State → Option State
  | [], s => some s
  | e :: es, s => (step cfg e s).bind (run cfg es)

/-- Whether some event of the run satisfies `p` in the state in which it is handled. -/
def anyAlong (cfg : Header) (p : State → Event → Bool) : List Event → State → Bool
  | [], _ => false
  | e :: es, s =>
    p s e ||
      match step cfg e s with
      | some s1 => anyAlong cfg p es s1
      | none => false

/-- A validated press: a falling edge whose sample `rd_data` accepts. -/
def validatedPress (cfg : Header) (s : State) : Event → Bool
  | .edge false resp now =>
    match EXTI1_IRQHandler cfg false resp now s with
    | some s1 => s1.ADS7846TouchActive
    | none => false
  | _ => false

/-- A release detection: a rising edge, or a periodic tick whose sample is not active. -/
def detectsRelease (cfg : Header) (s : State) : Event → Bool
  | .edge true _ _ => true
  | .periodicTick resp _ =>
    match rd_dataDefault cfg resp s with
    | some s1 => !s1.ADS7846TouchActive
    | none => false
  | _ => false

/-- The number of invocations of the long-touch callback in a log. -/
def countLongTouch : List CallbackCall → Nat
  | [] => 0
  | .longTouch _ _ _ _ :: l => countLongTouch l + 1
  | _ :: l => countLongTouch l

/-- The number of invocations of the end-touch callback in a log. -/
def countEndTouch : List CallbackCall → Nat
  | [] => 0
  | .endTouch _ _ _ _ :: l => countEndTouch l + 1
  | _ :: l => countEndTouch l

/-- A position inside the display. -/
def inDisplay (cfg : Header) (p : Position) : Prop :=
  0 ≤ p.x ∧ p.x < cfg.DISPLAY_WIDTH ∧ 0 ≤ p.y ∧ p.y < cfg.DISPLAY_HEIGHT

instance (cfg : Header) (p : Position) : Decidable (inDisplay cfg p) := by
  unfold inDisplay; infer_instance

/-- A sequence of raw samples, each with the matrix in force, is calibrated from state `s`. -/
def calibrateSamples (cfg : Header) : List (CAL_MATRIX × Position) → State → Option State
  | [], s => some s
  | (m, raw) :: l, s =>
    (calibrate cfg { s with tp_matrix := m, mTouchActualPositionRaw := raw }).bind
      (calibrateSamples cfg l)

/-- The expressions of `setCalibration` evaluated in unbounded integer arithmetic. -/
def setCalibrationExact (t r : CAL_POINTS) : CAL_MATRIX :=
  { a := (t.p0.x - t.p2.x) * (r.p1.y - r.p2.y) - (t.p1.x - t.p2.x) * (r.p0.y - r.p2.y)
    b := (r.p0.x - r.p2.x) * (t.p1.x - t.p2.x) - (t.p0.x - t.p2.x) * (r.p1.x - r.p2.x)
    c := (r.p2.x * t.p1.x - r.p1.x * t.p2.x) * r.p0.y
          + (r.p0.x * t.p2.x - r.p2.x * t.p0.x) * r.p1.y
          + (r.p1.x * t.p0.x - r.p0.x * t.p1.x) * r.p2.y
    d := (t.p0.y - t.p2.y) * (r.p1.y - r.p2.y) - (t.p1.y - t.p2.y) * (r.p0.y - r.p2.y)
    e := (r.p0.x - r.p2.x) * (t.p1.y - t.p2.y) - (t.p0.y - t.p2.y) * (r.p1.x - r.p2.x)
    f := (r.p2.x * t.p1.y - r.p1.x * t.p2.y) * r.p0.y
          + (r.p0.x * t.p2.y - r.p2.x * t.p0.y) * r.p1.y
          + (r.p1.x * t.p0.y - r.p0.x * t.p1.y) * r.p2.y
    div := (r.p0.x - r.p2.x) * (r.p1.y - r.p2.y) - (r.p1.x - r.p2.x) * (r.p0.y - r.p2.y) }

/-- The matrix `m` sends the raw point `r` to the target point `t` without rounding: both
affine forms equal `div` times the target coordinate, so the truncating division is exact. -/
def MapsExactly (m : CAL_MATRIX) (t r : CAL_POINT) : Prop :=
  m.a * r.x + m.b * r.y + m.c = m.div * t.x ∧
  m.d * r.x + m.e * r.y + m.f = m.div * t.y ∧
  Int.tdiv (m.a * r.x + m.b * r.y + m.c) m.div = t.x ∧
  Int.tdiv (m.d * r.x + m.e * r.y + m.f) m.div = t.y

instance (m : CAL_MATRIX) (t r : CAL_POINT) : Decidable (MapsExactly m t r) := by
  unfold MapsExactly; infer_instance

/-- The invariant of a touch session that started with `c0` long-touch and `e0` end-touch
invocations in the log: both callbacks are registered, and each has been invoked once more
exactly when its once-flag is set. -/
def SessionInv (c0 e0 : Nat) (s : State) : Prop :=
  s.mLongTouchCallback ≠ none ∧ s.mEndTouchCallback ≠ none ∧
  countLongTouch s.calls = c0 + (if s.mLongTouchCallbackHappened then 1 else 0) ∧
  countEndTouch s.calls = e0 + (if s.mEndTouchCallbackHappened then 1 else 0)

/-- Whether the handler of the event sets `mPeriodicTouchCallback` to `NULL`: a validated
press taken with an end-touch callback registered, or a periodic tick whose sample is not
active. -/
def clearsPeriodic (cfg : Header) (s : State) : Event → Bool
  | .edge false resp now =>
    validatedPress cfg s (.edge false resp now) && s.mEndTouchCallback.isSome
  | .periodicTick resp now => detectsRelease cfg s (.periodicTick resp now)
  | _ => false

/-- The argument of `sqrtf` in `ADS7846::getSwipeAmount`: the sum of the squares of the two
`int` differences between the first and the last position. The square root itself is taken
in floating point and is not modelled. -/
def getSwipeAmountSquared (s : State) : Int :=
  let tDeltaX := sub32 s.mTouchFirstPosition.x s.mTouchLastPosition.x
  let tDeltaY := sub32 s.mTouchFirstPosition.y s.mTouchLastPosition.y
  add32 (mul32 tDeltaX tDeltaX) (mul32 tDeltaY tDeltaY)

/-- The clamp of `calibrate` to `[0, w)`. -/
def clampTo (w v : Int) : Int := if v < 0 then 0 else if v ≥ w then w - 1 else v

/-- The affine transform as the specification words it, without memoisation: per axis the
quotient `(a*rx + b*ry + c) / div` resp. `(d*rx + e*ry + f) / div`, clamped to the display,
in the 32-bit arithmetic of the code. -/
def calibrateUnmemoised (cfg : Header) (m : CAL_MATRIX) (raw : Position) : Position :=
  { x := clampTo cfg.DISPLAY_WIDTH
      (div32 (add32 (add32 (mul32 m.a raw.x) (mul32 m.b raw.y)) m.c) m.div)
    y := clampTo cfg.DISPLAY_HEIGHT
      (div32 (add32 (add32 (mul32 m.d raw.x) (mul32 m.e raw.y)) m.f) m.div) }

/-- The oversampling loop of `rd_data` with unbounded accumulators and counter, to compare
with `rd_dataLoop`: where the two agree, no accumulator has overflowed. -/
def rd_dataLoopExact (cfg : Header) : Nat → Nat → Nat → Int → Spi → Oversampled
  | 0, tXValue, tYValue, j, bus => ⟨tXValue, tYValue, j, bus⟩
  | i + 1, tXValue, tYValue, j, bus =>
    let r := SPI1_sendReceiveFast (CMD_START ||| CMD_12BIT ||| CMD_DIFF ||| cfg.CMD_X_POS) bus
    let ra := SPI1_sendReceiveFast 0 r.2
    let rb := SPI1_sendReceiveFast 0 ra.2
    let tX := (ra.1 <<< 5) ||| (rb.1 >>> 3)
    if tX ≥ 4000 then ⟨tXValue, tYValue, j, rb.2⟩
    else
      let r := SPI1_sendReceiveFast (CMD_START ||| CMD_12BIT ||| CMD_DIFF ||| cfg.CMD_Y_POS) rb.2
      let ra := SPI1_sendReceiveFast 0 r.2
      let rb := SPI1_sendReceiveFast 0 ra.2
      let tY := (ra.1 <<< 5) ||| (rb.1 >>> 3)
      if tY ≤ 100 then ⟨tXValue, tYValue, j, rb.2⟩
      else rd_dataLoopExact cfg i (tXValue + (4048 - tX)) (tYValue + tY) (j + 2) rb.2

/-- The first pressure proxy that `rd_data` reads from the responses `resp`. -/
def rd_dataFirstPressure (cfg : Header) (resp : Nat → Nat) : Int :=
  (rd_dataPressure cfg ⟨resp, 0, []⟩).1

/-- The result of the oversampling loop that `rd_data(aOversampling)` runs on the responses
`resp` after the first pressure reading. -/
def rd_dataOversampled (cfg : Header) (aOversampling : Int) (resp : Nat → Nat) : Oversampled :=
  rd_dataLoop cfg (aOversampling % 256).toNat 0 0 0 (rd_dataPressure cfg ⟨resp, 0, []⟩).2

/-- The second pressure proxy that `rd_data(aOversampling)` reads after the loop. -/
def rd_dataSecondPressure (cfg : Header) (aOversampling : Int) (resp : Nat → Nat) : Int :=
  (rd_dataPressure cfg (rd_dataOversampled cfg aOversampling resp).bus).1

/-- The bytes one reading of `readChannel` shifts out: the command byte, then one zero per
response byte. -/
def readChannelBlock (use12Bit : Bool) (tMode channel : Nat) : List Nat :=
  if use12Bit then [CMD_START ||| CMD_12BIT ||| tMode ||| channel, 0, 0]
  else [CMD_START ||| CMD_8BIT ||| tMode ||| channel, 0]

/-- The loop of `readChannel`, `i` readings left: in 12-bit mode a reading is
`(high << 5) | (low >> 3)`, in 8-bit mode the response byte; it is added to the `uint16_t`
accumulator `tRetValue`. -/
def readChannelLoop (use12Bit : Bool) (tMode channel : Nat) : Nat → Nat → Spi → Nat × Spi
  | 0, tRetValue, bus => (tRetValue, bus)
  | i + 1, tRetValue, bus =>
    if use12Bit then
      let r := SPI1_sendReceiveFast (CMD_START ||| CMD_12BIT ||| tMode ||| channel) bus
      let rh := SPI1_sendReceiveFast 0 r.2
      let rl := SPI1_sendReceiveFast 0 rh.2
      readChannelLoop use12Bit tMode channel i
        ((tRetValue + ((rh.1 <<< 5) ||| (rl.1 >>> 3))) % 65536) rl.2
    else
      let r := SPI1_sendReceiveFast (CMD_START ||| CMD_8BIT ||| tMode ||| channel) bus
      let rv := SPI1_sendReceiveFast 0 r.2
      readChannelLoop use12Bit tMode channel i ((tRetValue + rv.1) % 65536) rv.2

/-- The method `ADS7846::readChannel`; `resp` are the bytes the chip returns during the
call. The loop counter is a `uint8_t`, the result a `uint16_t`. The fault `none` is the
division by `numberOfReadingsToIntegrate == 0`. -/
def readChannel (cfg : Header) (channel : Nat) (use12Bit useDiffMode : Bool)
    (numberOfReadingsToIntegrate : Int) (resp : Nat → Nat) (s : State) : Option (Nat × State) :=
  let channel := (channel <<< 4) % 256
  let channel := channel &&& CHANNEL_MASK
  let s := { s with delayEnableInterrupt := changeDelayCallback cfg TOUCH_DELAY_AFTER_READ_MILLIS
                    interruptEnabled := false }
  let tMode := if useDiffMode then CMD_DIFF else CMD_SINGLE
  let l := readChannelLoop use12Bit tMode channel (numberOfReadingsToIntegrate % 256).toNat 0
    ⟨resp, 0, []⟩
  let s := { s with spiSent := s.spiSent ++ l.2.sent }
  if numberOfReadingsToIntegrate = 0 then none
  else some ((Int.tdiv (l.1 : Int) numberOfReadingsToIntegrate % 65536).toNat, s)

/-- The `k`-th reading obtained from the chip, counted from 0, as the specification words it:
`(high << 5) | (low >> 3)` in 12-bit mode, where the exchanges of a reading are command,
high byte, low byte; the single response byte in 8-bit mode, where they are command, byte. -/
def readChannelReading (use12Bit : Bool) (resp : Nat → Nat) (k : Nat) : Nat :=
  if use12Bit then ((resp (3 * k + 1) % 256) <<< 5) ||| ((resp (3 * k + 2) % 256) >>> 3)
  else resp (2 * k + 1) % 256

/-! ## Runs with registrations -/

/-- What happens to the driver: the application calls a registration method, or an
asynchronous event is served by its handler. -/
inductive Action where
  | event (e : Event)
  | registerLongTouch (aLongTouchCallback : Option Nat) (aLongTouchTimeoutMillis : Nat)
  | registerPeriodicTouch (aPeriodicTouchCallback : Option Nat) (aCallbackPeriodMillis : Nat)
  | registerEndTouch (aTouchEndCallback : Option Nat)
  | setPeriod (aCallbackPeriod : Nat)

/-- The effect of one action; only a handler can fault. -/
def act (cfg : Header) (a : Action) (s : State) : Option State :=
  match a with
  | .event e => step cfg e s
  | .registerLongTouch cb t => some (registerLongTouchCallback cfg cb t s)
  | .registerPeriodicTouch cb t => some (registerPeriodicTouchCallback cfg cb t s)
  | .registerEndTouch cb => some (registerEndTouchCallback cb s)
  | .setPeriod t => some (setCallbackPeriod t s)

/-- The actions take effect one after the other; a fault ends the run. -/
def runActions (cfg : Header) : List Action → State → Option State
  | [], s => some s
  | a :: l, s => (act cfg a s).bind (runActions cfg l)

/-- Whether the action is a validated press in the state in which it takes effect. -/
def isValidatedPress (cfg : Header) (s : State) : Action → Bool
  | .event e => validatedPress cfg s e
  | _ => false

/-- The number of validated presses of a run. -/
def countValidatedPresses (cfg : Header) : List Action → State → Nat
  | [], _ => 0
  | a :: l, s =>
    (if isValidatedPress cfg s a then 1 else 0) +
      match act cfg a s with
      | some s1 => countValidatedPresses cfg l s1
      | none => 0

/-- The long-touch invocations in the log, plus one while the long-touch once-flag is unset:
the invocations that can have happened before the next validated press. -/
def longTouchReach (s : State) : Nat :=
  countLongTouch s.calls + (if s.mLongTouchCallbackHappened then 0 else 1)

/-- The end-touch invocations in the log, plus one while the end-touch once-flag is unset. -/
def endTouchReach (s : State) : Nat :=
  countEndTouch s.calls + (if s.mEndTouchCallbackHappened then 0 else 1)

/-! ## Concrete data -/

/-- Header constants of a 320 x 240 display, used where a concrete configuration is needed. -/
def cfg320 : Header :=
  { DISPLAY_WIDTH := 320
    DISPLAY_HEIGHT := 240
    MIN_REASONABLE_PRESSURE := 9
    ADS7846_READ_OVERSAMPLING_DEFAULT := 4
    CMD_Z1_POS := 0x30
    CMD_Z2_POS := 0x40
    CMD_X_POS := 0x50
    CMD_Y_POS := 0x10
    CAL_POINT1 := ⟨20, 20⟩
    CAL_POINT2 := ⟨300, 120⟩
    CAL_POINT3 := ⟨160, 220⟩
    DISABLE_TIMER_DELAY_VALUE := -1 }

/-- Backup registers that were never written. -/
def blankRegisters : BackupRegisters := ⟨0, 0, 0, 0, 0, 0, 0, 0⟩

/-- The target points of the calibration scenario. -/
def scenarioTargets : CAL_POINTS := ⟨⟨10, 10⟩, ⟨300, 10⟩, ⟨10, 300⟩⟩

/-- The raw points of the calibration scenario. -/
def scenarioRaws : CAL_POINTS := ⟨⟨100, 100⟩, ⟨3900, 100⟩, ⟨100, 3900⟩⟩

/-- Target points inside the display whose coefficient `c` leaves the 32-bit range. -/
def overflowTargets : CAL_POINTS := ⟨⟨319, 0⟩, ⟨319, 0⟩, ⟨0, 0⟩⟩

/-- Raw points of 11 bits whose coefficient `c` leaves the 32-bit range. -/
def overflowRaws : CAL_POINTS := ⟨⟨0, 2047⟩, ⟨2047, 0⟩, ⟨2047, 2047⟩⟩

/-- A driver state holding the default matrix. -/
def defaultState : State :=
  { init (resetState blankRegisters) with tp_matrix := tInitalMatrix }

/-- The default state with a long-touch callback (routine 1, timeout 800 ms) and an end-touch
callback (routine 2) registered. -/
def registeredState : State :=
  registerEndTouchCallback (some 2) (registerLongTouchCallback cfg320 (some 1) 800 defaultState)

/-- Chip responses of a firm touch: every exchange returns 50, which gives pressure 127 and
the raw position (1221, 803). -/
def touchResp : Nat → Nat := fun _ => 50

/-- Chip responses of a firm touch at another place: every exchange returns 60. -/
def touchResp2 : Nat → Nat := fun _ => 60

/-- Chip responses without touch: Z1 reads 0 and Z2 reads 127, which gives pressure 0. -/
def noTouchResp : Nat → Nat := fun k => if k = 3 then 127 else 0

/-- The state after a press edge at time 0 with a firm touch, taken in `registeredState`. -/
def pressedState : State :=
  (EXTI1_IRQHandler cfg320 false touchResp 0 registeredState).getD registeredState

/-- A session after the press: an active tick, the long-touch timeout, a tick that finds the
touch gone, then the rising edge. -/
def sessionEvents : List Event :=
  [Event.periodicTick touchResp 20, Event.longTouchTimeout, Event.periodicTick noTouchResp 240,
   Event.edge true noTouchResp 250]

/-- Backup registers with the magic number in front of a matrix whose `div` word is zero. -/
def zeroDivRegisters : BackupRegisters := ⟨0x5A5A5A5A, 320300, 0, 0, 0, 237700, 0, 0⟩

/-- Backup registers holding a full matrix behind a tag that is not the magic number. -/
def untaggedRegisters : BackupRegisters :=
  ⟨0x5A5A5A5B, 320300, 4294965896, 4242523996, 4294963796, 237700, 4273183996, 1857905⟩

/-- Two firm presses one after the other. -/
def twoPresses : List Event := [Event.edge false touchResp 0, Event.edge false touchResp2 300]

/-- The state after `twoPresses`, from the default state. -/
def afterTwoPresses : State := (run cfg320 twoPresses defaultState).getD defaultState

/-- A falling edge without touch, then a rising edge. -/
def falseAlarm : List Event := [Event.edge false noTouchResp 0, Event.edge true noTouchResp 300]

/-- The state after `falseAlarm`, from the default state. -/
def afterFalseAlarm : State := (run cfg320 falseAlarm defaultState).getD defaultState

/-- The state after `init` and `doCalibration(true)` on blank backup registers. -/
def bootState : State :=
  (doCalibration cfg320 true (fun _ => touchResp) (init (resetState blankRegisters))).getD
    (resetState blankRegisters)

/-- The state after `init` and `doCalibration(true)` on `zeroDivRegisters`. -/
def bootStateZeroDiv : State :=
  (doCalibration cfg320 true (fun _ => touchResp) (init (resetState zeroDivRegisters))).getD
    (resetState blankRegisters)

/-- The state after the calibration procedure `doCalibration(false)` run from `bootState`
with the same firm touch for all three points. -/
def sameSpotState : State :=
  (doCalibration cfg320 false (fun _ => touchResp) bootState).getD (resetState blankRegisters)

/-- The default state with a periodic callback (routine 5, period 50 ms) registered. -/
def periodicState : State := registerPeriodicTouchCallback cfg320 (some 5) 50 defaultState

/-- A state reached with both once-flags set and no callback registered: from
`registeredState` a firm press and a rising edge, then both callbacks are deregistered. -/
def unregisteredState : State :=
  registerEndTouchCallback none (registerLongTouchCallback cfg320 none 0
    ((run cfg320 [Event.edge false touchResp 0, Event.edge true touchResp 100]
      registeredState).getD registeredState))

/-- The state after a further firm press at time 500, taken in `unregisteredState`. -/
def pressedAgainState : State :=
  (EXTI1_IRQHandler cfg320 false touchResp2 500 unregisteredState).getD unregisteredState

/-- The state of the swipe scenario: end-touch callback 2 registered, no periodic callback,
a touch started at time 0 with first position (10,10) and last position (40,10). -/
def swipeState : State :=
  { registerEndTouchCallback (some 2) defaultState with
    ADS7846TouchStart := true
    ADS7846TouchStartMillis := 0
    mTouchFirstPosition := ⟨10, 10⟩
    mTouchLastPosition := ⟨40, 10⟩
    mTouchActualPosition := ⟨40, 10⟩ }

/-- Chip responses of a firm touch with the same raw X as `touchResp` and raw Y 2000: the
high byte of every Y reading is 125 and its low byte 0, every other exchange returns 50. -/
def touchRespY : Nat → Nat :=
  fun k => if 4 ≤ k ∧ k < 28 ∧ k % 6 = 2 then 125 else if 4 ≤ k ∧ k < 28 ∧ k % 6 = 3 then 0 else 50

/-- Two sessions: a press, an active tick at another place and the release; then a second
press that is released before any tick. -/
def twoSessions : List Event :=
  [Event.edge false touchResp 0, Event.periodicTick touchRespY 20, Event.edge true touchResp 100,
   Event.edge false touchResp 1000, Event.edge true touchResp 1050]

/-- Chip responses for `rd_data(1)` of a touch whose pressure drops from 16 to 14 during the
reading: Z1 reads 16, then 14, Z2 reads 127 both times, every other exchange returns 50. -/
def fadingResp : Nat → Nat :=
  fun k => if k = 1 then 16 else if k = 11 then 14 else if k = 3 ∨ k = 13 then 127 else 50

/-- Chip responses of a full-scale 12-bit reading: high byte 127, low byte 255. -/
def fullScaleResp : Nat → Nat := fun k => if k % 3 = 1 then 127 else 255

/-- Chip responses that are 100 in every exchange. -/
def hundredResp : Nat → Nat := fun _ => 100

/-- After boot both callbacks are registered; then the line falls without a touch that
`rd_data` accepts, and rises again 300 ms after boot. -/
def lightTouch : List Action :=
  [Action.registerLongTouch (some 1) 800, Action.registerEndTouch (some 2),
   Action.event (Event.edge false noTouchResp 0), Action.event (Event.edge true noTouchResp 300)]

/-- Three raw points on one line. -/
def collinearRaws : CAL_POINTS := ⟨⟨100, 100⟩, ⟨200, 200⟩, ⟨300, 300⟩⟩

end ADS7846

/-! # Properties -/

namespace ADS7846

/-! ## 32-bit arithmetic -/

theorem wrap32_of_fits {x : Int} (h : fits32 x) : wrap32 x = x := by
  unfold fits32 at h
  unfold wrap32
  omega

theorem wrap32_fits (x : Int) : fits32 (wrap32 x) := by
  unfold fits32 wrap32
  omega

theorem wrap32_add_mul (x k : Int) : wrap32 (x + 4294967296 * k) = wrap32 x := by
  unfold wrap32
  omega

theorem wrap32_eq_add_mul (x : Int) : ∃ k : Int, wrap32 x = x + 4294967296 * k := by
  refine ⟨-((x + 2147483648) / 4294967296), ?_⟩
  unfold wrap32
  omega

theorem wrap32_congr {x y : Int} (h : ∃ k : Int, x = y + 4294967296 * k) :
    wrap32 x = wrap32 y := by
  obtain ⟨k, rfl⟩ := h
  exact wrap32_add_mul y k

theorem add32_exact (x y : Int) : ∀ x1 y1 : Int, wrap32 x1 = wrap32 x → wrap32 y1 = wrap32 y →
    wrap32 (x1 + y1) = wrap32 (x + y) := by
  intro x1 y1 hx hy
  obtain ⟨k1, h1⟩ := wrap32_eq_add_mul x1
  obtain ⟨k2, h2⟩ := wrap32_eq_add_mul x
  obtain ⟨k3, h3⟩ := wrap32_eq_add_mul y1
  obtain ⟨k4, h4⟩ := wrap32_eq_add_mul y
  apply wrap32_congr
  exact ⟨k2 - k1 + (k4 - k3), by linarith⟩

theorem sub32_exact (x y : Int) : ∀ x1 y1 : Int, wrap32 x1 = wrap32 x → wrap32 y1 = wrap32 y →
    wrap32 (x1 - y1) = wrap32 (x - y) := by
  intro x1 y1 hx hy
  obtain ⟨k1, h1⟩ := wrap32_eq_add_mul x1
  obtain ⟨k2, h2⟩ := wrap32_eq_add_mul x
  obtain ⟨k3, h3⟩ := wrap32_eq_add_mul y1
  obtain ⟨k4, h4⟩ := wrap32_eq_add_mul y
  apply wrap32_congr
  exact ⟨k2 - k1 - (k4 - k3), by linarith⟩

theorem mul32_exact (x y : Int) : ∀ x1 y1 : Int, wrap32 x1 = wrap32 x → wrap32 y1 = wrap32 y →
    wrap32 (x1 * y1) = wrap32 (x * y) := by
  intro x1 y1 hx hy
  obtain ⟨k1, h1⟩ := wrap32_eq_add_mul x1
  obtain ⟨k2, h2⟩ := wrap32_eq_add_mul x
  obtain ⟨k3, h3⟩ := wrap32_eq_add_mul y1
  obtain ⟨k4, h4⟩ := wrap32_eq_add_mul y
  have ex : x1 = x + 4294967296 * (k2 - k1) := by linarith
  have ey : y1 = y + 4294967296 * (k4 - k3) := by linarith
  apply wrap32_congr
  refine ⟨x * (k4 - k3) + (k2 - k1) * y + 4294967296 * (k2 - k1) * (k4 - k3), ?_⟩
  rw [ex, ey]
  ring

theorem wrap32_wrap32 (x : Int) : wrap32 (wrap32 x) = wrap32 x :=
  wrap32_of_fits (wrap32_fits x)

/-- A difference of two products, computed in 32 bits, is the wrapped exact value. -/
theorem sub_mul_sub32 (p q u v w z a b : Int) :
    sub32 (mul32 (sub32 p q) (sub32 u v)) (mul32 (sub32 w z) (sub32 a b))
      = wrap32 ((p - q) * (u - v) - (w - z) * (a - b)) := by
  unfold sub32 mul32
  apply sub32_exact
  · rw [wrap32_wrap32]
    apply mul32_exact <;> exact wrap32_wrap32 _
  · rw [wrap32_wrap32]
    apply mul32_exact <;> exact wrap32_wrap32 _

/-- The three-term sum of `setCalibration`, computed in 32 bits, is the wrapped exact value. -/
theorem sum3_32 (p1 q1 p2 q2 y0 p3 q3 p4 q4 y1 p5 q5 p6 q6 y2 : Int) :
    add32 (add32 (mul32 (sub32 (mul32 p1 q1) (mul32 p2 q2)) y0)
                 (mul32 (sub32 (mul32 p3 q3) (mul32 p4 q4)) y1))
          (mul32 (sub32 (mul32 p5 q5) (mul32 p6 q6)) y2)
      = wrap32 ((p1 * q1 - p2 * q2) * y0 + (p3 * q3 - p4 * q4) * y1 + (p5 * q5 - p6 * q6) * y2) := by
  have term : ∀ p q r t y : Int,
      wrap32 (mul32 (sub32 (mul32 p q) (mul32 r t)) y) = wrap32 ((p * q - r * t) * y) := by
    intro p q r t y
    unfold sub32 mul32
    rw [wrap32_wrap32]
    apply mul32_exact
    · rw [wrap32_wrap32]
      apply sub32_exact <;> exact wrap32_wrap32 _
    · rfl
  unfold add32
  apply add32_exact
  · rw [wrap32_wrap32]
    apply add32_exact <;> exact term _ _ _ _ _
  · exact term _ _ _ _ _

/-- What `setCalibration` stores: the wrapped exact determinant, and, when that is not zero,
the wrapped exact coefficients. -/
theorem setCalibration_eq (t r : CAL_POINTS) (s : State) :
    setCalibration t r s =
      if wrap32 (setCalibrationExact t r).div = 0 then
        (false, { s with tp_matrix := { s.tp_matrix with div := 0 } })
      else
        (true, { s with tp_matrix :=
          ⟨wrap32 (setCalibrationExact t r).a, wrap32 (setCalibrationExact t r).b,
           wrap32 (setCalibrationExact t r).c, wrap32 (setCalibrationExact t r).d,
           wrap32 (setCalibrationExact t r).e, wrap32 (setCalibrationExact t r).f,
           wrap32 (setCalibrationExact t r).div⟩ }) := by
  unfold setCalibration setCalibrationExact
  simp only [sub_mul_sub32, sum3_32]
  split_ifs with h
  · rw [h]
  · rfl

/-! ## Deriving the matrix -/

/-- C1 (as stated, refuted): target points inside a 320 x 240 display and raw points of 11 bits
with a non-zero determinant for which `setCalibration` returns true but stores a wrapped
coefficient `c`, so that the stored matrix does not send the first raw point to its target. -/
theorem setCalibration_wraps_counterexample :
    (overflowRaws.p0.x - overflowRaws.p2.x) * (overflowRaws.p1.y - overflowRaws.p2.y)
      - (overflowRaws.p1.x - overflowRaws.p2.x) * (overflowRaws.p0.y - overflowRaws.p2.y) ≠ 0 ∧
    (setCalibration overflowTargets overflowRaws defaultState).1 = true ∧
    (setCalibration overflowTargets overflowRaws defaultState).2.tp_matrix.c = -1621613954 ∧
    ¬ MapsExactly (setCalibration overflowTargets overflowRaws defaultState).2.tp_matrix
        overflowTargets.p0 overflowRaws.p0 := by
  decide

/-- C1 (amended): when the determinant and the six coefficients of `setCalibration`, taken in
exact integer arithmetic, fit the signed 32-bit fields and the determinant is not zero, the
call returns true, stores exactly these values, and the stored matrix sends each of the
three raw points to its target point with no rounding. -/
theorem setCalibration_maps_points (t r : CAL_POINTS) (s : State)
    (hfit : (setCalibrationExact t r).fits)
    (hdiv : (r.p0.x - r.p2.x) * (r.p1.y - r.p2.y) - (r.p1.x - r.p2.x) * (r.p0.y - r.p2.y) ≠ 0) :
    (setCalibration t r s).1 = true ∧
    (setCalibration t r s).2.tp_matrix = setCalibrationExact t r ∧
    (setCalibration t r s).2.tp_matrix.div
      = (r.p0.x - r.p2.x) * (r.p1.y - r.p2.y) - (r.p1.x - r.p2.x) * (r.p0.y - r.p2.y) ∧
    MapsExactly (setCalibration t r s).2.tp_matrix t.p0 r.p0 ∧
    MapsExactly (setCalibration t r s).2.tp_matrix t.p1 r.p1 ∧
    MapsExactly (setCalibration t r s).2.tp_matrix t.p2 r.p2 := by
  obtain ⟨ha, hb, hc, hd, he, hf, hv⟩ := hfit
  have hdiv2 : (setCalibrationExact t r).div ≠ 0 := hdiv
  have hm : setCalibration t r s = (true, { s with tp_matrix := setCalibrationExact t r }) := by
    rw [setCalibration_eq, wrap32_of_fits ha, wrap32_of_fits hb, wrap32_of_fits hc,
      wrap32_of_fits hd, wrap32_of_fits he, wrap32_of_fits hf, wrap32_of_fits hv, if_neg hdiv2]
  rw [hm]
  have key : ∀ (n q v : Int), v ≠ 0 → n = v * q → Int.tdiv n v = q := by
    intro n q v hv0 hn
    rw [hn]
    exact Int.mul_tdiv_cancel_left q hv0
  refine ⟨rfl, rfl, rfl, ?_, ?_, ?_⟩ <;>
  · refine ⟨?_, ?_, ?_, ?_⟩
    · simp only [setCalibrationExact]; ring
    · simp only [setCalibrationExact]; ring
    · apply key _ _ _ hdiv2
      simp only [setCalibrationExact]; ring
    · apply key _ _ _ hdiv2
      simp only [setCalibrationExact]; ring

/-- C1 (witness): the scenario of the specification, targets (10,10), (300,10), (10,300) with
raws (100,100), (3900,100), (100,3900); the derived matrix sends a raw sample (100,100)
through `calibrate` to the display position (10,10). -/
theorem setCalibration_maps_points_witness :
    (setCalibrationExact scenarioTargets scenarioRaws).fits ∧
    ((setCalibration scenarioTargets scenarioRaws defaultState).1 = true ∧
      (setCalibration scenarioTargets scenarioRaws defaultState).2.tp_matrix
        = setCalibrationExact scenarioTargets scenarioRaws ∧
      (setCalibration scenarioTargets scenarioRaws defaultState).2.tp_matrix.div
        = (scenarioRaws.p0.x - scenarioRaws.p2.x) * (scenarioRaws.p1.y - scenarioRaws.p2.y)
          - (scenarioRaws.p1.x - scenarioRaws.p2.x) * (scenarioRaws.p0.y - scenarioRaws.p2.y) ∧
      MapsExactly (setCalibration scenarioTargets scenarioRaws defaultState).2.tp_matrix
        scenarioTargets.p0 scenarioRaws.p0 ∧
      MapsExactly (setCalibration scenarioTargets scenarioRaws defaultState).2.tp_matrix
        scenarioTargets.p1 scenarioRaws.p1 ∧
      MapsExactly (setCalibration scenarioTargets scenarioRaws defaultState).2.tp_matrix
        scenarioTargets.p2 scenarioRaws.p2) ∧
    (calibrate cfg320
        { (setCalibration scenarioTargets scenarioRaws defaultState).2 with
          mTouchActualPositionRaw := ⟨100, 100⟩ }).map (fun s => s.mTouchActualPosition)
      = some ⟨10, 10⟩ :=
  ⟨by decide,
   setCalibration_maps_points scenarioTargets scenarioRaws defaultState (by decide) (by decide),
   by decide⟩

/-- C2 (as stated, refuted): a state holding the default matrix, `div = 1857905`; after
`setCalibration` with three raw points on one line the call has returned false and the
field `div` is 0, not what it was before. -/
theorem setCalibration_div_overwritten_counterexample :
    (collinearRaws.p0.x - collinearRaws.p2.x) * (collinearRaws.p1.y - collinearRaws.p2.y)
      - (collinearRaws.p1.x - collinearRaws.p2.x) * (collinearRaws.p0.y - collinearRaws.p2.y) = 0 ∧
    defaultState.tp_matrix.div = 1857905 ∧
    (setCalibration scenarioTargets collinearRaws defaultState).1 = false ∧
    (setCalibration scenarioTargets collinearRaws defaultState).2.tp_matrix.div = 0 ∧
    (setCalibration scenarioTargets collinearRaws defaultState).2.tp_matrix
      ≠ defaultState.tp_matrix := by
  decide

/-- C2 (amended): when the determinant of the raw points is zero, `setCalibration` returns
false for every target triple, leaves the six fields `a .. f` of `tp_matrix` and every other
variable as they were, and leaves `div` equal to 0. -/
theorem setCalibration_collinear (t r : CAL_POINTS) (s : State)
    (hdet : (r.p0.x - r.p2.x) * (r.p1.y - r.p2.y) - (r.p1.x - r.p2.x) * (r.p0.y - r.p2.y) = 0) :
    setCalibration t r s = (false, { s with tp_matrix := { s.tp_matrix with div := 0 } }) ∧
    (setCalibration t r s).2.tp_matrix.a = s.tp_matrix.a ∧
    (setCalibration t r s).2.tp_matrix.b = s.tp_matrix.b ∧
    (setCalibration t r s).2.tp_matrix.c = s.tp_matrix.c ∧
    (setCalibration t r s).2.tp_matrix.d = s.tp_matrix.d ∧
    (setCalibration t r s).2.tp_matrix.e = s.tp_matrix.e ∧
    (setCalibration t r s).2.tp_matrix.f = s.tp_matrix.f ∧
    (setCalibration t r s).2.tp_matrix.div = 0 := by
  have h0 : wrap32 (setCalibrationExact t r).div = 0 := by
    have : (setCalibrationExact t r).div = 0 := hdet
    rw [this]
    rfl
  have hm : setCalibration t r s
      = (false, { s with tp_matrix := { s.tp_matrix with div := 0 } }) := by
    rw [setCalibration_eq, if_pos h0]
  rw [hm]
  exact ⟨rfl, rfl, rfl, rfl, rfl, rfl, rfl, rfl⟩

/-- C2 (witness): three raw points on the diagonal, from the state holding the default matrix. -/
theorem setCalibration_collinear_witness :
    setCalibration scenarioTargets collinearRaws defaultState
      = (false, { defaultState with tp_matrix := { defaultState.tp_matrix with div := 0 } }) ∧
    (setCalibration scenarioTargets collinearRaws defaultState).2.tp_matrix.a = 320300 ∧
    (setCalibration scenarioTargets collinearRaws defaultState).2.tp_matrix.div = 0 :=
  have h := setCalibration_collinear scenarioTargets collinearRaws defaultState (by decide)
  ⟨h.1, h.2.1, h.2.2.2.2.2.2.2⟩

/-! ## Applying the matrix -/

/-- The clamp of `calibrate` lands in `[0, w)` for every value, provided `w` is positive. -/
theorem clamp_in_range (v w : Int) (hw : 0 < w) :
    0 ≤ (if v < 0 then 0 else if v ≥ w then w - 1 else v) ∧
    (if v < 0 then 0 else if v ≥ w then w - 1 else v) < w := by
  split_ifs <;> omega

/-- With a non-zero `div`, `calibrate` returns: it is the state with each axis either kept
or replaced by the clamped quotient, the matrix and the raw sample untouched. -/
theorem calibrate_some (cfg : Header) (s : State) (hdiv : s.tp_matrix.div ≠ 0) :
    ∃ s1, calibrate cfg s = some s1 ∧ s1.tp_matrix = s.tp_matrix ∧
      s1.mTouchActualPositionRaw = s.mTouchActualPositionRaw ∧
      (s1.mTouchActualPosition.x = s.mTouchActualPosition.x ∨
        s1.mTouchActualPosition.x =
          (let v := div32 (add32 (add32 (mul32 s.tp_matrix.a s.mTouchActualPositionRaw.x)
                (mul32 s.tp_matrix.b s.mTouchActualPositionRaw.y)) s.tp_matrix.c) s.tp_matrix.div
           if v < 0 then 0 else if v ≥ cfg.DISPLAY_WIDTH then cfg.DISPLAY_WIDTH - 1 else v)) ∧
      (s1.mTouchActualPosition.y = s.mTouchActualPosition.y ∨
        s1.mTouchActualPosition.y =
          (let v := div32 (add32 (add32 (mul32 s.tp_matrix.d s.mTouchActualPositionRaw.x)
                (mul32 s.tp_matrix.e s.mTouchActualPositionRaw.y)) s.tp_matrix.f) s.tp_matrix.div
           if v < 0 then 0 else if v ≥ cfg.DISPLAY_HEIGHT then cfg.DISPLAY_HEIGHT - 1 else v)) := by
  unfold calibrate
  simp only [hdiv, if_false, ne_eq, ite_not]
  by_cases hx : s.mTouchActualPositionRaw.x = s.mTouchLastCalibratedPosition.x
  · rw [if_pos hx]
    simp only [Option.some_bind]
    by_cases hy : s.mTouchActualPositionRaw.y = s.mTouchLastCalibratedPosition.y
    · rw [if_pos hy]
      exact ⟨_, rfl, rfl, rfl, Or.inl rfl, Or.inl rfl⟩
    · rw [if_neg hy]
      simp only [hdiv, if_false]
      exact ⟨_, rfl, rfl, rfl, Or.inl rfl, Or.inr rfl⟩
  · rw [if_neg hx]
    simp only [Option.some_bind]
    by_cases hy : s.mTouchActualPositionRaw.y = s.mTouchLastCalibratedPosition.y
    · rw [if_pos hy]
      exact ⟨_, rfl, rfl, rfl, Or.inr rfl, Or.inl rfl⟩
    · rw [if_neg hy]
      simp only [hdiv, if_false]
      exact ⟨_, rfl, rfl, rfl, Or.inr rfl, Or.inr rfl⟩

/-- C3: for a display of positive width and height, `calibrate` called in a state with
`div != 0` and the display position inside the display returns with the position inside
`[0, DISPLAY_WIDTH) x [0, DISPLAY_HEIGHT)`, whatever the raw sample; so does every sequence
of raw samples calibrated with valid matrices from the state left by `init`. -/
theorem calibrate_in_display (cfg : Header) (hW : 0 < cfg.DISPLAY_WIDTH)
    (hH : 0 < cfg.DISPLAY_HEIGHT) :
    (∀ s : State, s.tp_matrix.div ≠ 0 → inDisplay cfg s.mTouchActualPosition →
      ∃ s1, calibrate cfg s = some s1 ∧ inDisplay cfg s1.mTouchActualPosition) ∧
    (∀ (l : List (CAL_MATRIX × Position)) (s0 : State), (∀ p ∈ l, p.1.div ≠ 0) →
      ∃ s1, calibrateSamples cfg l (init s0) = some s1 ∧
        inDisplay cfg s1.mTouchActualPosition) := by
  have one : ∀ s : State, s.tp_matrix.div ≠ 0 → inDisplay cfg s.mTouchActualPosition →
      ∃ s1, calibrate cfg s = some s1 ∧ inDisplay cfg s1.mTouchActualPosition := by
    intro s hdiv hpos
    obtain ⟨s1, h1, -, -, hx, hy⟩ := calibrate_some cfg s hdiv
    refine ⟨s1, h1, ?_⟩
    obtain ⟨p1, p2, p3, p4⟩ := hpos
    have cx := clamp_in_range (div32 (add32 (add32 (mul32 s.tp_matrix.a
      s.mTouchActualPositionRaw.x) (mul32 s.tp_matrix.b s.mTouchActualPositionRaw.y))
      s.tp_matrix.c) s.tp_matrix.div) cfg.DISPLAY_WIDTH hW
    have cy := clamp_in_range (div32 (add32 (add32 (mul32 s.tp_matrix.d
      s.mTouchActualPositionRaw.x) (mul32 s.tp_matrix.e s.mTouchActualPositionRaw.y))
      s.tp_matrix.f) s.tp_matrix.div) cfg.DISPLAY_HEIGHT hH
    unfold inDisplay
    rcases hx with hx | hx <;> rcases hy with hy | hy <;> rw [hx, hy] <;>
      exact ⟨by first | exact p1 | exact cx.1, by first | exact p2 | exact cx.2,
             by first | exact p3 | exact cy.1, by first | exact p4 | exact cy.2⟩
  refine ⟨one, ?_⟩
  have many : ∀ (l : List (CAL_MATRIX × Position)) (s : State), (∀ p ∈ l, p.1.div ≠ 0) →
      inDisplay cfg s.mTouchActualPosition →
      ∃ s1, calibrateSamples cfg l s = some s1 ∧ inDisplay cfg s1.mTouchActualPosition := by
    intro l
    induction l with
    | nil => intro s _ hpos; exact ⟨s, rfl, hpos⟩
    | cons p l ih =>
      intro s hl hpos
      obtain ⟨m, raw⟩ := p
      have hm : m.div ≠ 0 := hl (m, raw) (List.mem_cons_self _ _)
      obtain ⟨s1, h1, hp1⟩ :=
        one { s with tp_matrix := m, mTouchActualPositionRaw := raw } hm hpos
      obtain ⟨s2, h2, hp2⟩ := ih s1 (fun q hq => hl q (List.mem_cons_of_mem _ hq)) hp1
      exact ⟨s2, by simp [calibrateSamples, h1, h2], hp2⟩
  intro l s0 hl
  exact many l (init s0) hl ⟨le_refl _, hW, le_refl _, hH⟩

/-- C3 (witness): a 320 x 240 display, the default matrix, the extreme raw samples
(4095, 4095), (0, 0) and (-2147483648, 2147483647). -/
theorem calibrate_in_display_witness :
    (∃ s1, calibrate cfg320 { defaultState with mTouchActualPositionRaw := ⟨4095, 4095⟩ } = some s1 ∧
      inDisplay cfg320 s1.mTouchActualPosition) ∧
    (∃ s1, calibrateSamples cfg320
        [(tInitalMatrix, ⟨4095, 4095⟩), (tInitalMatrix, ⟨0, 0⟩),
         (tInitalMatrix, ⟨-2147483648, 2147483647⟩)] (init (resetState blankRegisters)) = some s1 ∧
      inDisplay cfg320 s1.mTouchActualPosition) :=
  ⟨(calibrate_in_display cfg320 (by decide) (by decide)).1 _ (by decide) (by decide),
   (calibrate_in_display cfg320 (by decide) (by decide)).2 _ _ (by decide)⟩

/-! ## Persisting the matrix -/

/-- A signed 32-bit value survives the conversion to a register word and back. -/
theorem toS32_toU32 (x : Int) (h : fits32 x) : toS32 (toU32 x % 4294967296) = x := by
  unfold fits32 at h
  unfold toS32 toU32 wrap32
  omega

/-- The registers after `writeCalibration` of a matrix with `div != 0`. -/
theorem writeCalibration_valid (m : CAL_MATRIX) (s : State) (hdiv : m.div ≠ 0) :
    writeCalibration m s =
      (true, { s with
        backupAccess := false
        backup := ⟨CALIBRATION_MAGIC_NUMBER % 4294967296, toU32 m.a % 4294967296,
          toU32 m.b % 4294967296, toU32 m.c % 4294967296, toU32 m.d % 4294967296,
          toU32 m.e % 4294967296, toU32 m.f % 4294967296, toU32 m.div % 4294967296⟩ }) := by
  simp [writeCalibration, hdiv, PWR_BackupAccessCmd, RTC_WriteBackupRegister]

/-- A register word produced by `toU32` is below `2^32`. -/
theorem toU32_mod (x : Int) : toU32 x % 4294967296 = toU32 x := by
  unfold toU32
  omega

/-- C4: for every matrix with `div != 0` and signed 32-bit fields and every state of the
backup registers, `writeCalibration` returns true, leaves the magic number in register 0 and
`a .. div` in registers 1 to 7, and a following `readCalibration` returns true with a matrix
equal to the written one in all seven fields. -/
theorem write_then_read (m : CAL_MATRIX) (s : State) (hdiv : m.div ≠ 0) (hfit : m.fits) :
    (writeCalibration m s).1 = true ∧
    (writeCalibration m s).2.backup
      = ⟨0x5A5A5A5A, toU32 m.a, toU32 m.b, toU32 m.c, toU32 m.d, toU32 m.e, toU32 m.f,
          toU32 m.div⟩ ∧
    (∀ m0 : CAL_MATRIX, readCalibration m0 (writeCalibration m s).2 = (true, m)) ∧
    (∀ m0 : CAL_MATRIX,
      (readCalibration m0 (writeCalibration m s).2).2.a = m.a ∧
      (readCalibration m0 (writeCalibration m s).2).2.b = m.b ∧
      (readCalibration m0 (writeCalibration m s).2).2.c = m.c ∧
      (readCalibration m0 (writeCalibration m s).2).2.d = m.d ∧
      (readCalibration m0 (writeCalibration m s).2).2.e = m.e ∧
      (readCalibration m0 (writeCalibration m s).2).2.f = m.f ∧
      (readCalibration m0 (writeCalibration m s).2).2.div = m.div) := by
  obtain ⟨ha, hb, hc, hd, he, hf, hv⟩ := hfit
  have hr : ∀ m0 : CAL_MATRIX, readCalibration m0 (writeCalibration m s).2 = (true, m) := by
    intro m0
    rw [writeCalibration_valid m s hdiv]
    simp only [readCalibration, RTC_ReadBackupRegister]
    rw [if_pos (by decide)]
    simp only [toS32_toU32 _ ha, toS32_toU32 _ hb, toS32_toU32 _ hc, toS32_toU32 _ hd,
      toS32_toU32 _ he, toS32_toU32 _ hf, toS32_toU32 _ hv]
  refine ⟨?_, ?_, hr, ?_⟩
  · rw [writeCalibration_valid m s hdiv]
  · rw [writeCalibration_valid m s hdiv]
    simp only [toU32_mod]
    rfl
  · intro m0
    rw [hr m0]
    exact ⟨rfl, rfl, rfl, rfl, rfl, rfl, rfl⟩

/-- C4 (witness): the default matrix, with its negative coefficients, written over blank
registers and read back. -/
theorem write_then_read_witness :
    (writeCalibration tInitalMatrix defaultState).1 = true ∧
    (writeCalibration tInitalMatrix defaultState).2.backup
      = ⟨1515870810, 320300, 4294965896, 4242523996, 4294963796, 237700, 4273183996, 1857905⟩ ∧
    readCalibration ⟨0, 0, 0, 0, 0, 0, 0⟩ (writeCalibration tInitalMatrix defaultState).2
      = (true, tInitalMatrix) :=
  have h := write_then_read tInitalMatrix defaultState (by decide) (by decide)
  ⟨h.1, h.2.1, h.2.2.1 _⟩

/-! ## Frame of the sample acquirer -/

/-- The shape of each axis of `calibrate`: a guarded, fallible update. -/
theorem ite_some_cases {α : Type} {c d : Prop} [Decidable c] [Decidable d] {t s r : α}
    (h : (if c then (if d then none else some t) else some s) = some r) : r = t ∨ r = s := by
  by_cases hc : c
  · rw [if_pos hc] at h
    by_cases hd : d
    · rw [if_pos hd] at h
      exact absurd h (by simp)
    · rw [if_neg hd] at h
      exact Or.inl (Option.some.inj h).symm
  · rw [if_neg hc] at h
    exact Or.inr (Option.some.inj h).symm

/-- A run of `calibrate` changes nothing but the last calibrated raw position and the display
position. -/
theorem calibrate_frame (cfg : Header) (s s1 : State) (h : calibrate cfg s = some s1) :
    s1 = { s with
      mTouchLastCalibratedPosition := s1.mTouchLastCalibratedPosition
      mTouchActualPosition := s1.mTouchActualPosition } := by
  unfold calibrate at h
  simp only [Option.bind_eq_some] at h
  obtain ⟨sx, hsx, hsy⟩ := h
  have fx : sx = { s with
      mTouchLastCalibratedPosition := sx.mTouchLastCalibratedPosition
      mTouchActualPosition := sx.mTouchActualPosition } := by
    rcases ite_some_cases hsx with e | e <;> rw [e]
  have fy : s1 = { sx with
      mTouchLastCalibratedPosition := s1.mTouchLastCalibratedPosition
      mTouchActualPosition := s1.mTouchActualPosition } := by
    rcases ite_some_cases hsy with e | e <;> rw [e]
  rw [fy, fx]

/-- A run of `rd_data` changes nothing but the interrupt mask and its delay callback, the SPI
output, the pressure, the active flag and the three positions raw, last calibrated and
display. -/
theorem rd_data_frame (cfg : Header) (n : Int) (resp : Nat → Nat) (s s1 : State)
    (h : rd_data cfg n resp s = some s1) :
    s1 = { s with
      delayEnableInterrupt := s1.delayEnableInterrupt
      interruptEnabled := s1.interruptEnabled
      spiSent := s1.spiSent
      mPressure := s1.mPressure
      ADS7846TouchActive := s1.ADS7846TouchActive
      mTouchActualPositionRaw := s1.mTouchActualPositionRaw
      mTouchLastCalibratedPosition := s1.mTouchLastCalibratedPosition
      mTouchActualPosition := s1.mTouchActualPosition } := by
  unfold rd_data at h
  simp only [] at h
  split_ifs at h
  · simp only [Option.map_eq_some'] at h
    obtain ⟨sc, hc, rfl⟩ := h
    have := calibrate_frame cfg _ sc hc
    rw [this]
  · simp only [Option.some.injEq] at h
    rw [← h]
  · simp only [Option.some.injEq] at h
    rw [← h]
  · simp only [Option.some.injEq] at h
    rw [← h]

/-- With a non-zero `div` and an oversampling count whose double is not zero, `rd_data`
returns. -/
theorem rd_data_total (cfg : Header) (n : Int) (resp : Nat → Nat) (s : State)
    (hdiv : s.tp_matrix.div ≠ 0) (hn : mul32 n 2 ≠ 0) :
    ∃ s1, rd_data cfg n resp s = some s1 := by
  have key : ∀ S : State, S.tp_matrix.div ≠ 0 → (calibrate cfg S).isSome = true := by
    intro S hS
    obtain ⟨sc, hc, -⟩ := calibrate_some cfg S hS
    rw [hc]
    rfl
  unfold rd_data
  simp only []
  split_ifs with h1 h2 h3 h4
  · exact absurd (h2 ▸ h3) hn
  · apply Option.isSome_iff_exists.mp
    rw [Option.isSome_map']
    exact key _ hdiv
  · exact ⟨_, rfl⟩
  · exact ⟨_, rfl⟩
  · exact ⟨_, rfl⟩

/-- When `rd_data` leaves the touch active, the double of the oversampling count is not zero. -/
theorem rd_data_active_count (cfg : Header) (n : Int) (resp : Nat → Nat) (s s1 : State)
    (h : rd_data cfg n resp s = some s1) (ha : s1.ADS7846TouchActive = true) :
    mul32 n 2 ≠ 0 := by
  unfold rd_data at h
  simp only [] at h
  split_ifs at h with h1 h2 h3 h4
  · intro h0
    exact h3 (h2.trans h0)
  · simp only [Option.some.injEq] at h
    rw [← h] at ha
    simp at ha
  · simp only [Option.some.injEq] at h
    rw [← h] at ha
    simp at ha
  · simp only [Option.some.injEq] at h
    rw [← h] at ha
    simp at ha

/-- What `rd_data` keeps: the matrix, the callback registry, the once-flags, the log of
invoked callbacks, the start flag, the session positions and the pending delays. -/
theorem rd_data_keeps (cfg : Header) (n : Int) (resp : Nat → Nat) (s s1 : State)
    (h : rd_data cfg n resp s = some s1) :
    s1.tp_matrix = s.tp_matrix ∧ s1.calls = s.calls ∧
    s1.mLongTouchCallback = s.mLongTouchCallback ∧
    s1.mEndTouchCallback = s.mEndTouchCallback ∧
    s1.mPeriodicTouchCallback = s.mPeriodicTouchCallback ∧
    s1.mLongTouchCallbackHappened = s.mLongTouchCallbackHappened ∧
    s1.mEndTouchCallbackHappened = s.mEndTouchCallbackHappened ∧
    s1.ADS7846TouchStart = s.ADS7846TouchStart ∧
    s1.mTouchFirstPosition = s.mTouchFirstPosition ∧
    s1.mTouchLastPosition = s.mTouchLastPosition ∧
    s1.ADS7846TouchStartMillis = s.ADS7846TouchStartMillis ∧
    s1.backup = s.backup ∧
    s1.delayPeriodicTouch = s.delayPeriodicTouch ∧
    s1.delayLongTouchTimeout = s.delayLongTouchTimeout := by
  have f := rd_data_frame cfg n resp s s1 h
  refine ⟨?_, ?_, ?_, ?_, ?_, ?_, ?_, ?_, ?_, ?_, ?_, ?_, ?_, ?_⟩ <;> rw [f]

/-! ## Touch sessions -/

theorem countLongTouch_append (l1 l2 : List CallbackCall) :
    countLongTouch (l1 ++ l2) = countLongTouch l1 + countLongTouch l2 := by
  induction l1 with
  | nil => simp [countLongTouch]
  | cons c l ih =>
    cases c <;> simp [countLongTouch, ih]
    omega

theorem countEndTouch_append (l1 l2 : List CallbackCall) :
    countEndTouch (l1 ++ l2) = countEndTouch l1 + countEndTouch l2 := by
  induction l1 with
  | nil => simp [countEndTouch]
  | cons c l ih =>
    cases c <;> simp [countEndTouch, ih]
    omega

/-- The release part sets both once-flags and keeps the session invariant. -/
theorem touchReleased_session (c0 e0 now : Nat) (s : State) (hI : SessionInv c0 e0 s) :
    SessionInv c0 e0 (touchReleased now s) ∧
    (touchReleased now s).mLongTouchCallbackHappened = true ∧
    (touchReleased now s).mEndTouchCallbackHappened = true := by
  obtain ⟨hL, hE, hc, he⟩ := hI
  obtain ⟨cbL, hL1⟩ := Option.ne_none_iff_exists'.mp hL
  obtain ⟨cbE, hE1⟩ := Option.ne_none_iff_exists'.mp hE
  unfold SessionInv touchReleased
  simp only [hL1, hE1]
  cases hl : s.mLongTouchCallbackHappened <;> cases hh : s.mEndTouchCallbackHappened <;>
    simp [hl, hh, hE1, hL1, countLongTouch_append, countEndTouch_append, countLongTouch,
      countEndTouch] at hc he ⊢ <;> simp [hc, he]

/-- The press branch of the edge handler, applied to the state `rd_data` left, keeps the
active flag. -/
theorem press_active (cfg : Header) (resp : Nat → Nat) (now : Nat) (s s1 : State)
    (h : EXTI1_IRQHandler cfg false resp now s = some s1) :
    ∃ r, rd_data cfg cfg.ADS7846_READ_OVERSAMPLING_DEFAULT resp s = some r ∧
      s1.ADS7846TouchActive = r.ADS7846TouchActive ∧
      (r.ADS7846TouchActive = false → s1 = r) ∧
      (r.ADS7846TouchActive = true → s1.ADS7846TouchStart = true) ∧
      s1.tp_matrix = r.tp_matrix := by
  unfold EXTI1_IRQHandler at h
  simp only [Bool.not_false, if_true, Option.map_eq_some'] at h
  obtain ⟨r, hr, rfl⟩ := h
  refine ⟨r, hr, ?_, ?_, ?_, ?_⟩
  · split_ifs <;> rfl
  · intro ha
    simp [ha]
  · intro ha
    simp only [ha, if_true]
    split_ifs <;> rfl
  · split_ifs <;> rfl

/-- The two outcomes of a long-touch timeout that returns. -/
theorem callbackLongTouchTimeout_cases (s s1 : State)
    (h : callbackLongTouchTimeout s = some s1) :
    (s.mLongTouchCallbackHappened = true ∧ s1 = s) ∨
    (s.mLongTouchCallbackHappened = false ∧ ∃ cb, s.mLongTouchCallback = some cb ∧
      s1 = { s with
        mLongTouchCallbackHappened := true
        calls := s.calls ++
          [CallbackCall.longTouch cb s.mTouchFirstPosition.x s.mTouchFirstPosition.y true] }) := by
  unfold callbackLongTouchTimeout at h
  split at h
  · exact absurd h (by simp)
  · rename_i cb hcb
    by_cases hl : s.mLongTouchCallbackHappened = true
    · left
      simp only [hl, Bool.not_true, Bool.false_eq_true, if_false, Option.some.injEq] at h
      exact ⟨hl, h.symm⟩
    · right
      have hl2 : s.mLongTouchCallbackHappened = false := by simpa using hl
      rw [hl2] at h
      simp only [Bool.not_false, if_true, Option.some.injEq] at h
      exact ⟨hl2, cb, hcb, h.symm⟩

/-- One event of a session that is not a validated press keeps the session invariant, never
resets a once-flag, and sets both once-flags when it detects the release. -/
theorem session_step (cfg : Header) (c0 e0 : Nat) (e : Event) (s s1 : State)
    (hI : SessionInv c0 e0 s) (hnv : validatedPress cfg s e = false)
    (hs : step cfg e s = some s1) :
    SessionInv c0 e0 s1 ∧
    (s.mLongTouchCallbackHappened = true → s1.mLongTouchCallbackHappened = true) ∧
    (s.mEndTouchCallbackHappened = true → s1.mEndTouchCallbackHappened = true) ∧
    (detectsRelease cfg s e = true →
      s1.mLongTouchCallbackHappened = true ∧ s1.mEndTouchCallbackHappened = true) := by
  cases e with
  | edge tLevel resp now =>
    cases tLevel with
    | false =>
      simp only [step] at hs
      simp only [validatedPress, hs] at hnv
      obtain ⟨r, hr, ha, hsame, -, -⟩ := press_active cfg resp now s s1 hs
      have hra : r.ADS7846TouchActive = false := by rw [← ha]; exact hnv
      have e1 : s1 = r := hsame hra
      obtain ⟨-, k2, k3, k4, -, k6, k7, -⟩ := rd_data_keeps cfg _ resp s r hr
      subst e1
      refine ⟨?_, ?_, ?_, ?_⟩
      · unfold SessionInv at hI ⊢
        rw [k2, k3, k4, k6, k7]
        exact hI
      · rw [k6]; exact id
      · rw [k7]; exact id
      · intro hd
        simp [detectsRelease] at hd
    | true =>
      simp only [step, EXTI1_IRQHandler, Bool.not_true, Bool.false_eq_true, if_false,
        Option.some.injEq] at hs
      subst hs
      obtain ⟨h1, h2, h3⟩ := touchReleased_session c0 e0 now s hI
      exact ⟨h1, fun _ => h2, fun _ => h3, fun _ => ⟨h2, h3⟩⟩
  | periodicTick resp now =>
    simp only [step, callbackPeriodicTouch, rd_dataDefault, Option.map_eq_some'] at hs
    obtain ⟨r, hr, hs⟩ := hs
    obtain ⟨-, k2, k3, k4, -, k6, k7, -⟩ := rd_data_keeps cfg _ resp s r hr
    have hIr : SessionInv c0 e0 r := by
      unfold SessionInv at hI ⊢
      rw [k2, k3, k4, k6, k7]
      exact hI
    by_cases ha : r.ADS7846TouchActive = true
    · rw [if_pos ha] at hs
      subst hs
      refine ⟨?_, ?_, ?_, ?_⟩
      · unfold SessionInv at hIr ⊢
        cases hp : r.mPeriodicTouchCallback <;>
          simpa [hp, countLongTouch_append, countEndTouch_append, countLongTouch,
            countEndTouch] using hIr
      · rw [← k6]
        cases hp : r.mPeriodicTouchCallback <;> simp [hp]
      · rw [← k7]
        cases hp : r.mPeriodicTouchCallback <;> simp [hp]
      · intro hd
        simp [detectsRelease, rd_dataDefault, hr, ha] at hd
    · rw [if_neg ha] at hs
      subst hs
      have hIr2 : SessionInv c0 e0 { r with mPeriodicTouchCallback := none } := hIr
      obtain ⟨h1, h2, h3⟩ := touchReleased_session c0 e0 now _ hIr2
      exact ⟨h1, fun _ => h2, fun _ => h3, fun _ => ⟨h2, h3⟩⟩
  | longTouchTimeout =>
    obtain ⟨hL, hE, hc, he⟩ := hI
    simp only [step] at hs
    rcases callbackLongTouchTimeout_cases s s1 hs with ⟨_, rfl⟩ | ⟨hl, cb, -, rfl⟩
    · exact ⟨⟨hL, hE, hc, he⟩, fun h => h, fun h => h, fun hd => by simp [detectsRelease] at hd⟩
    · refine ⟨⟨hL, hE, ?_, ?_⟩, fun _ => rfl, fun h => h, fun hd => by simp [detectsRelease] at hd⟩
      · simp [hl, countLongTouch_append, countLongTouch] at hc ⊢
        exact hc
      · simp [countEndTouch_append, countEndTouch] at he ⊢
        exact he

/-- The release part changes nothing but the once-flags and the log of invoked callbacks. -/
theorem touchReleased_frame (now : Nat) (s : State) :
    touchReleased now s = { s with
      mLongTouchCallbackHappened := (touchReleased now s).mLongTouchCallbackHappened
      mEndTouchCallbackHappened := (touchReleased now s).mEndTouchCallbackHappened
      calls := (touchReleased now s).calls } := by
  cases s with
  | mk m raw lc act fst lst pr ac st sm pp lt lcb lh eh pcb ecb bk ba dp dl de ie sp cl =>
    cases lcb <;> cases ecb <;> cases lh <;> cases eh <;> rfl

/-- No handler changes the calibration matrix. -/
theorem step_matrix (cfg : Header) (e : Event) (s s1 : State) (hs : step cfg e s = some s1) :
    s1.tp_matrix = s.tp_matrix := by
  cases e with
  | edge tLevel resp now =>
    cases tLevel with
    | false =>
      obtain ⟨r, hr, -, -, -, hm⟩ := press_active cfg resp now s s1 hs
      rw [hm]
      exact (rd_data_keeps cfg _ resp s r hr).1
    | true =>
      simp only [step, EXTI1_IRQHandler, Bool.not_true, Bool.false_eq_true, if_false,
        Option.some.injEq] at hs
      rw [← hs, touchReleased_frame]
  | periodicTick resp now =>
    simp only [step, callbackPeriodicTouch, rd_dataDefault, Option.map_eq_some'] at hs
    obtain ⟨r, hr, hs⟩ := hs
    rw [← (rd_data_keeps cfg _ resp s r hr).1, ← hs]
    split_ifs
    · cases r.mPeriodicTouchCallback <;> rfl
    · rw [touchReleased_frame]
  | longTouchTimeout =>
    rcases callbackLongTouchTimeout_cases s s1 hs with ⟨_, rfl⟩ | ⟨-, cb, -, rfl⟩ <;> rfl

/-- With a non-zero `div`, an oversampling count whose double is not zero and a long-touch
callback registered, every handler returns. -/
theorem step_total (cfg : Header) (e : Event) (s : State) (hdiv : s.tp_matrix.div ≠ 0)
    (hn : mul32 cfg.ADS7846_READ_OVERSAMPLING_DEFAULT 2 ≠ 0)
    (hL : e = Event.longTouchTimeout → s.mLongTouchCallback ≠ none) :
    ∃ s1, step cfg e s = some s1 := by
  apply Option.isSome_iff_exists.mp
  cases e with
  | edge tLevel resp now =>
    cases tLevel with
    | false =>
      obtain ⟨r, hr⟩ := rd_data_total cfg _ resp s hdiv hn
      simp only [step, EXTI1_IRQHandler, Bool.not_false, if_true, Option.isSome_map', hr,
        Option.isSome_some]
    | true =>
      simp only [step, EXTI1_IRQHandler, Bool.not_true, Bool.false_eq_true, if_false,
        Option.isSome_some]
  | periodicTick resp now =>
    obtain ⟨r, hr⟩ := rd_data_total cfg _ resp s hdiv hn
    simp only [step, callbackPeriodicTouch, rd_dataDefault, Option.isSome_map', hr,
      Option.isSome_some]
  | longTouchTimeout =>
    obtain ⟨cb, hcb⟩ := Option.ne_none_iff_exists'.mp (hL rfl)
    simp only [step, callbackLongTouchTimeout, hcb]
    split_ifs <;> rfl

/-- The session invariant along a run without validated press. -/
theorem session_run (cfg : Header) (c0 e0 : Nat) (evs : List Event) :
    ∀ s s2 : State, SessionInv c0 e0 s → anyAlong cfg (validatedPress cfg) evs s = false →
      run cfg evs s = some s2 →
      SessionInv c0 e0 s2 ∧
      (s.mLongTouchCallbackHappened = true → s2.mLongTouchCallbackHappened = true) ∧
      (s.mEndTouchCallbackHappened = true → s2.mEndTouchCallbackHappened = true) ∧
      (anyAlong cfg (detectsRelease cfg) evs s = true →
        s2.mLongTouchCallbackHappened = true ∧ s2.mEndTouchCallbackHappened = true) := by
  induction evs with
  | nil =>
    intro s s2 hI _ hr
    simp only [run, Option.some.injEq] at hr
    subst hr
    exact ⟨hI, id, id, fun h => by simp [anyAlong] at h⟩
  | cons e es ih =>
    intro s s2 hI hnv hr
    simp only [run, Option.bind_eq_some] at hr
    obtain ⟨s1, h1, h2⟩ := hr
    simp only [anyAlong, h1, Bool.or_eq_false_iff] at hnv
    obtain ⟨i1, i2, i3, i4⟩ := session_step cfg c0 e0 e s s1 hI hnv.1 h1
    obtain ⟨j1, j2, j3, j4⟩ := ih s1 s2 i1 hnv.2 h2
    refine ⟨j1, fun h => j2 (i2 h), fun h => j3 (i3 h), ?_⟩
    intro hd
    simp only [anyAlong, h1, Bool.or_eq_true] at hd
    rcases hd with hd | hd
    · exact ⟨j2 (i4 hd).1, j3 (i4 hd).2⟩
    · exact j4 hd

/-- A run without validated press returns when `div` is not zero, the double of the default
oversampling count is not zero and the long-touch callback is registered. -/
theorem session_total (cfg : Header) (c0 e0 : Nat) (evs : List Event)
    (hn : mul32 cfg.ADS7846_READ_OVERSAMPLING_DEFAULT 2 ≠ 0) :
    ∀ s : State, SessionInv c0 e0 s → s.tp_matrix.div ≠ 0 →
      anyAlong cfg (validatedPress cfg) evs s = false → ∃ s2, run cfg evs s = some s2 := by
  induction evs with
  | nil => intro s _ _ _; exact ⟨s, rfl⟩
  | cons e es ih =>
    intro s hI hdiv hnv
    obtain ⟨s1, h1⟩ := step_total cfg e s hdiv hn (fun _ => hI.1)
    simp only [anyAlong, h1, Bool.or_eq_false_iff] at hnv
    obtain ⟨i1, -⟩ := session_step cfg c0 e0 e s s1 hI hnv.1 h1
    have hd1 : s1.tp_matrix.div ≠ 0 := by rw [step_matrix cfg e s s1 h1]; exact hdiv
    obtain ⟨s2, h2⟩ := ih s1 i1 hd1 hnv.2
    exact ⟨s2, by simp only [run, h1, Option.some_bind, h2]⟩

/-- A validated press taken with both callbacks registered starts a session: the once-flags
are reset, and nothing is invoked by the press. -/
theorem press_starts_session (cfg : Header) (resp : Nat → Nat) (now : Nat) (s s1 : State)
    (hL : s.mLongTouchCallback ≠ none) (hE : s.mEndTouchCallback ≠ none)
    (hpress : EXTI1_IRQHandler cfg false resp now s = some s1)
    (hvalid : s1.ADS7846TouchActive = true) :
    SessionInv (countLongTouch s.calls) (countEndTouch s.calls) s1 ∧
    s1.mLongTouchCallbackHappened = false ∧ s1.mEndTouchCallbackHappened = false ∧
    mul32 cfg.ADS7846_READ_OVERSAMPLING_DEFAULT 2 ≠ 0 := by
  unfold EXTI1_IRQHandler at hpress
  simp only [Bool.not_false, if_true, Option.map_eq_some'] at hpress
  obtain ⟨r, hr, rfl⟩ := hpress
  obtain ⟨-, k2, k3, k4, -, k6, k7, -⟩ := rd_data_keeps cfg _ resp s r hr
  have hra : r.ADS7846TouchActive = true := by
    by_contra hc
    rw [if_neg hc] at hvalid
    exact hc hvalid
  have hrL : r.mLongTouchCallback ≠ none := by rw [k3]; exact hL
  have hrE : r.mEndTouchCallback ≠ none := by rw [k4]; exact hE
  refine ⟨?_, ?_, ?_, rd_data_active_count cfg _ resp s r hr hra⟩
  · unfold SessionInv
    simp [hra, hrL, hrE, k2]
  · simp [hra, hrL, hrE]
  · simp [hra, hrL, hrE]

/-- C5: a validated press edge taken with a long-touch and an end-touch callback registered,
followed by any sequence of edges, periodic ticks and long-touch timeouts that contains no
further validated press and at least one release detection (a rising edge, or a tick whose
sample is not active): when the handlers have run, the long-touch callback has been invoked
exactly once and the end-touch callback exactly once since the press; and with a matrix
whose `div` is not zero the handlers do all run. -/
theorem callbacks_once_per_session (cfg : Header) (resp : Nat → Nat) (now : Nat) (s s1 : State)
    (hL : s.mLongTouchCallback ≠ none) (hE : s.mEndTouchCallback ≠ none)
    (hpress : EXTI1_IRQHandler cfg false resp now s = some s1)
    (hvalid : s1.ADS7846TouchActive = true)
    (evs : List Event)
    (hsession : anyAlong cfg (validatedPress cfg) evs s1 = false)
    (hrelease : anyAlong cfg (detectsRelease cfg) evs s1 = true) :
    (∀ s2, run cfg evs s1 = some s2 →
      countLongTouch s2.calls = countLongTouch s.calls + 1 ∧
      countEndTouch s2.calls = countEndTouch s.calls + 1) ∧
    (s.tp_matrix.div ≠ 0 → ∃ s2, run cfg evs s1 = some s2 ∧
      countLongTouch s2.calls = countLongTouch s.calls + 1 ∧
      countEndTouch s2.calls = countEndTouch s.calls + 1) := by
  obtain ⟨hI, -, -, hn⟩ := press_starts_session cfg resp now s s1 hL hE hpress hvalid
  have part : ∀ s2, run cfg evs s1 = some s2 →
      countLongTouch s2.calls = countLongTouch s.calls + 1 ∧
      countEndTouch s2.calls = countEndTouch s.calls + 1 := by
    intro s2 hr
    obtain ⟨⟨-, -, hc, he⟩, -, -, hrel⟩ := session_run cfg _ _ evs s1 s2 hI hsession hr
    obtain ⟨f1, f2⟩ := hrel hrelease
    rw [f1] at hc
    rw [f2] at he
    exact ⟨hc, he⟩
  refine ⟨part, fun hdiv => ?_⟩
  have hd1 : s1.tp_matrix.div ≠ 0 := by
    rw [step_matrix cfg (Event.edge false resp now) s s1 hpress]
    exact hdiv
  obtain ⟨s2, h2⟩ := session_total cfg _ _ evs hn s1 hI hd1 hsession
  exact ⟨s2, h2, part s2 h2⟩

set_option maxRecDepth 100000 in
/-- C5 (witness): callbacks 1 and 2 registered, a firm press at time 0, then an active tick,
the long-touch timeout, a tick without touch and the rising edge: one long-touch and one
end-touch invocation. -/
theorem callbacks_once_per_session_witness :
    ∃ s2, run cfg320 sessionEvents pressedState = some s2 ∧
      countLongTouch s2.calls = countLongTouch registeredState.calls + 1 ∧
      countEndTouch s2.calls = countEndTouch registeredState.calls + 1 :=
  (callbacks_once_per_session cfg320 touchResp 0 registeredState pressedState
    (by decide) (by decide) (by decide) (by decide) sessionEvents (by decide) (by decide)).2
    (by decide)

/-! ## Polling the start of a touch -/

/-- An oversampling count that the 8-bit loop counter can hold has a double that is not zero. -/
theorem mul32_two_ne_zero (n : Int) (h : 1 ≤ n ∧ n ≤ 255) : mul32 n 2 ≠ 0 := by
  unfold mul32 wrap32
  omega

/-- After a handler, the start flag is set if it was set before or the event was a validated
press. -/
theorem step_touchStart (cfg : Header) (e : Event) (s s1 : State)
    (hs : step cfg e s = some s1) :
    s1.ADS7846TouchStart = (s.ADS7846TouchStart || validatedPress cfg s e) := by
  cases e with
  | edge tLevel resp now =>
    cases tLevel with
    | false =>
      simp only [step] at hs
      simp only [validatedPress, hs]
      obtain ⟨r, hr, ha, hsame, hset, -⟩ := press_active cfg resp now s s1 hs
      have k := (rd_data_keeps cfg _ resp s r hr).2.2.2.2.2.2.2.1
      cases hra : r.ADS7846TouchActive with
      | false =>
        rw [ha, hra, Bool.or_false, hsame hra, k]
      | true =>
        rw [ha, hra, Bool.or_true, hset hra]
    | true =>
      simp only [step, EXTI1_IRQHandler, Bool.not_true, Bool.false_eq_true, if_false,
        Option.some.injEq] at hs
      rw [← hs, touchReleased_frame]
      simp [validatedPress]
  | periodicTick resp now =>
    simp only [step, callbackPeriodicTouch, rd_dataDefault, Option.map_eq_some'] at hs
    obtain ⟨r, hr, hs⟩ := hs
    have k := (rd_data_keeps cfg _ resp s r hr).2.2.2.2.2.2.2.1
    simp only [validatedPress, Bool.or_false]
    rw [← k, ← hs]
    split_ifs
    · cases r.mPeriodicTouchCallback <;> rfl
    · rw [touchReleased_frame]
  | longTouchTimeout =>
    simp only [validatedPress, Bool.or_false]
    rcases callbackLongTouchTimeout_cases s s1 hs with ⟨_, rfl⟩ | ⟨-, cb, -, rfl⟩ <;> rfl

/-- After a run of handlers, the start flag is set if it was set before or the run held a
validated press. -/
theorem run_touchStart (cfg : Header) (evs : List Event) :
    ∀ s s1 : State, run cfg evs s = some s1 →
      s1.ADS7846TouchStart = (s.ADS7846TouchStart || anyAlong cfg (validatedPress cfg) evs s) := by
  induction evs with
  | nil =>
    intro s s1 hr
    simp only [run, Option.some.injEq] at hr
    subst hr
    simp [anyAlong]
  | cons e es ih =>
    intro s s2 hr
    simp only [run, Option.bind_eq_some] at hr
    obtain ⟨s1, h1, h2⟩ := hr
    rw [ih s1 s2 h2, step_touchStart cfg e s s1 h1]
    simp only [anyAlong, h1, Bool.or_assoc]

/-- A run of edges returns when `div` is not zero and the default oversampling count is
between 1 and 255. -/
theorem run_edges_total (cfg : Header) (hn : 1 ≤ cfg.ADS7846_READ_OVERSAMPLING_DEFAULT ∧
    cfg.ADS7846_READ_OVERSAMPLING_DEFAULT ≤ 255) (evs : List Event) :
    ∀ s : State, s.tp_matrix.div ≠ 0 →
      (∀ e ∈ evs, ∃ tLevel resp now, e = Event.edge tLevel resp now) →
      ∃ s1, run cfg evs s = some s1 := by
  induction evs with
  | nil => intro s _ _; exact ⟨s, rfl⟩
  | cons e es ih =>
    intro s hdiv hev
    obtain ⟨tLevel, resp, now, he⟩ := hev e (List.mem_cons_self _ _)
    obtain ⟨s1, h1⟩ := step_total cfg e s hdiv (mul32_two_ne_zero _ hn)
      (fun h => by rw [he] at h; cases h)
    have hd1 : s1.tp_matrix.div ≠ 0 := by rw [step_matrix cfg e s s1 h1]; exact hdiv
    obtain ⟨s2, h2⟩ := ih s1 hd1 (fun e1 h => hev e1 (List.mem_cons_of_mem _ h))
    exact ⟨s2, by simp only [run, h1, Option.some_bind, h2]⟩

/-- C6: `wasTouched` returns false right after `init` and right after any call of itself,
which changes nothing but the start flag; and after any run of edges, ticks and timeouts
that began with the flag clear (after `init` or after a call of `wasTouched`) it returns
true if and only if the run held at least one validated press. With a valid matrix and a
default oversampling count between 1 and 255 every run of edges does return. -/
theorem wasTouched_iff_validated_press (cfg : Header) :
    (∀ s0 : State, (wasTouched (init s0)).1 = false) ∧
    (∀ s : State, (wasTouched s).2 = { s with ADS7846TouchStart := false } ∧
      (wasTouched (wasTouched s).2).1 = false) ∧
    (∀ (evs : List Event) (s s1 : State), s.ADS7846TouchStart = false →
      run cfg evs s = some s1 →
      ((wasTouched s1).1 = true ↔ anyAlong cfg (validatedPress cfg) evs s = true)) ∧
    (∀ (evs : List Event) (s : State),
      1 ≤ cfg.ADS7846_READ_OVERSAMPLING_DEFAULT ∧ cfg.ADS7846_READ_OVERSAMPLING_DEFAULT ≤ 255 →
      s.tp_matrix.div ≠ 0 →
      (∀ e ∈ evs, ∃ tLevel resp now, e = Event.edge tLevel resp now) →
      ∃ s1, run cfg evs s = some s1) := by
  have poll : ∀ s : State, (wasTouched s).1 = s.ADS7846TouchStart := by
    intro s
    unfold wasTouched
    cases h : s.ADS7846TouchStart <;> simp
  have cleared : ∀ s : State, (wasTouched s).2 = { s with ADS7846TouchStart := false } := by
    intro s
    unfold wasTouched
    cases h : s.ADS7846TouchStart
    · simp only [Bool.false_eq_true, if_false]
      rw [← h]
    · simp only [if_true]
  refine ⟨fun s0 => ?_, fun s => ⟨cleared s, ?_⟩, ?_, ?_⟩
  · rw [poll]
    rfl
  · rw [poll, cleared]
  · intro evs s s1 h0 hr
    rw [poll, run_touchStart cfg evs s s1 hr, h0, Bool.false_or]
  · intro evs s hn hdiv hev
    exact run_edges_total cfg hn evs s hdiv hev

set_option maxRecDepth 100000 in
/-- C6 (witness): from the default state, two firm presses without a poll in between make
the next `wasTouched` return true and the one after it false; a falling edge without touch
followed by a rising edge holds no validated press, and `wasTouched` is not true then. -/
theorem wasTouched_iff_validated_press_witness :
    (run cfg320 twoPresses defaultState = some afterTwoPresses ∧
      (wasTouched afterTwoPresses).1 = true ∧
      (wasTouched (wasTouched afterTwoPresses).2).1 = false) ∧
    (run cfg320 falseAlarm defaultState = some afterFalseAlarm ∧
      ¬ (wasTouched afterFalseAlarm).1 = true) :=
  ⟨⟨by decide,
    ((wasTouched_iff_validated_press cfg320).2.2.1 twoPresses defaultState afterTwoPresses
      (by decide) (by decide)).2 (by decide),
    ((wasTouched_iff_validated_press cfg320).2.1 afterTwoPresses).2⟩,
   ⟨by decide,
    fun hw => absurd
      (((wasTouched_iff_validated_press cfg320).2.2.1 falseAlarm defaultState afterFalseAlarm
        (by decide) (by decide)).1 hw) (by decide)⟩⟩

/-! ## Validity of the applied matrix -/

set_option maxRecDepth 100000 in
/-- C7 (failing inputs): three runs that start with `init` and `doCalibration(true)` and end
in `rd_data` with a firm touch, whose call of `calibrate` divides by `tp_matrix.div == 0`.
First: blank registers give the default matrix, `setCalibration` with three raw points on one
line returns false and leaves `div == 0`. Second: the calibration procedure
`doCalibration(false)` with the same touch for all three points does the same. Third:
registers that hold the magic number and a zero `div` word are loaded unchecked. -/
theorem calibrate_divides_by_zero :
    (doCalibration cfg320 true (fun _ => touchResp) (init (resetState blankRegisters))
        = some bootState ∧
      bootState.tp_matrix = tInitalMatrix ∧
      (rd_data cfg320 4 touchResp bootState).isSome = true ∧
      (setCalibration scenarioTargets collinearRaws bootState).1 = false ∧
      (setCalibration scenarioTargets collinearRaws bootState).2.tp_matrix.div = 0 ∧
      calibrate cfg320 { (setCalibration scenarioTargets collinearRaws bootState).2 with
        mTouchActualPositionRaw := ⟨1221, 803⟩ } = none ∧
      rd_data cfg320 4 touchResp (setCalibration scenarioTargets collinearRaws bootState).2
        = none) ∧
    (doCalibration cfg320 false (fun _ => touchResp) bootState = some sameSpotState ∧
      sameSpotState.tp_matrix.div = 0 ∧
      rd_data cfg320 4 touchResp2 sameSpotState = none) ∧
    (doCalibration cfg320 true (fun _ => touchResp) (init (resetState zeroDivRegisters))
        = some bootStateZeroDiv ∧
      bootStateZeroDiv.tp_matrix.div = 0 ∧
      rd_data cfg320 4 touchResp bootStateZeroDiv = none) := by
  decide

/-! ## Nothing is persisted for collinear points -/

/-- C8: for raw points whose determinant is zero, `setCalibration` on the reference points
returns false, the following `writeCalibration(tp_matrix)` returns false, and the final step
of the calibration procedure leaves all eight backup registers as they were; more generally
`writeCalibration` of any matrix with `div == 0` returns false and changes nothing. -/
theorem collinear_persists_nothing (cfg : Header) (tRawPoints : CAL_POINTS) (s : State)
    (hdet : (tRawPoints.p0.x - tRawPoints.p2.x) * (tRawPoints.p1.y - tRawPoints.p2.y)
      - (tRawPoints.p1.x - tRawPoints.p2.x) * (tRawPoints.p0.y - tRawPoints.p2.y) = 0) :
    (setCalibration ⟨cfg.CAL_POINT1, cfg.CAL_POINT2, cfg.CAL_POINT3⟩ tRawPoints s).1 = false ∧
    (writeCalibration
      (setCalibration ⟨cfg.CAL_POINT1, cfg.CAL_POINT2, cfg.CAL_POINT3⟩ tRawPoints s).2.tp_matrix
      (setCalibration ⟨cfg.CAL_POINT1, cfg.CAL_POINT2, cfg.CAL_POINT3⟩ tRawPoints s).2).1
        = false ∧
    (doCalibrationStore cfg tRawPoints s).backup = s.backup ∧
    (∀ (m : CAL_MATRIX) (s0 : State), m.div = 0 → writeCalibration m s0 = (false, s0)) := by
  have hw : ∀ (m : CAL_MATRIX) (s0 : State), m.div = 0 → writeCalibration m s0 = (false, s0) := by
    intro m s0 h0
    unfold writeCalibration
    rw [if_neg (by simp [h0])]
  have h0 : wrap32 (setCalibrationExact ⟨cfg.CAL_POINT1, cfg.CAL_POINT2, cfg.CAL_POINT3⟩
      tRawPoints).div = 0 := by
    have : (setCalibrationExact ⟨cfg.CAL_POINT1, cfg.CAL_POINT2, cfg.CAL_POINT3⟩
      tRawPoints).div = 0 := hdet
    rw [this]
    rfl
  have hm : setCalibration ⟨cfg.CAL_POINT1, cfg.CAL_POINT2, cfg.CAL_POINT3⟩ tRawPoints s
      = (false, { s with tp_matrix := { s.tp_matrix with div := 0 } }) := by
    rw [setCalibration_eq, if_pos h0]
  refine ⟨?_, ?_, ?_, hw⟩
  · rw [hm]
  · rw [hm, hw _ _ rfl]
  · unfold doCalibrationStore
    simp only [hm]
    rw [hw _ _ rfl]

/-- C8 (witness): the reference points of `cfg320`, three raw points on the diagonal, and
backup registers that hold a calibration. -/
theorem collinear_persists_nothing_witness :
    (doCalibrationStore cfg320 collinearRaws bootState).backup = bootState.backup ∧
    bootState.backup.DR0 = 0x5A5A5A5A ∧
    writeCalibration ⟨1, 2, 3, 4, 5, 6, 0⟩ bootState = (false, bootState) :=
  have h := collinear_persists_nothing cfg320 collinearRaws bootState (by decide)
  ⟨h.2.2.1, by decide, h.2.2.2 _ _ rfl⟩

/-! ## Loading the matrix -/

/-- C9: when backup register 0 does not hold the magic number `0x5A5A5A5A`, `readCalibration`
returns false and the matrix of the caller is unchanged; called on `tp_matrix`, the whole
state is unchanged. -/
theorem readCalibration_absent (m : CAL_MATRIX) (s : State)
    (h : s.backup.DR0 ≠ 0x5A5A5A5A) :
    readCalibration m s = (false, m) ∧ readCalibrationTp s = (false, s) := by
  have hr : ∀ m0 : CAL_MATRIX, readCalibration m0 s = (false, m0) := by
    intro m0
    unfold readCalibration
    simp only [RTC_ReadBackupRegister, CALIBRATION_MAGIC_NUMBER]
    rw [if_neg h]
  refine ⟨hr m, ?_⟩
  unfold readCalibrationTp
  rw [hr]

/-- C9 (witness): registers that are all zero, and registers that hold a full matrix behind a
tag that differs from the magic number in one bit. -/
theorem readCalibration_absent_witness :
    readCalibration tInitalMatrix (resetState blankRegisters) = (false, tInitalMatrix) ∧
    readCalibration ⟨1, 2, 3, 4, 5, 6, 7⟩ (resetState untaggedRegisters)
      = (false, ⟨1, 2, 3, 4, 5, 6, 7⟩) :=
  ⟨(readCalibration_absent tInitalMatrix (resetState blankRegisters) (by decide)).1,
   (readCalibration_absent ⟨1, 2, 3, 4, 5, 6, 7⟩ (resetState untaggedRegisters) (by decide)).1⟩

/-- C10: `doCalibration(true)` always returns. When backup register 0 does not hold the magic
number, it leaves `tp_matrix` equal to the hard-coded default
{320300, -1400, -52443300, -3500, 237700, -21783300, 1857905}, whose `div` is not zero, and
the registers holding the magic number followed by that matrix, so that it is found by the
next `readCalibration`. When register 0 holds the magic number, it leaves `tp_matrix` equal
to the matrix stored in registers 1 to 7 and the registers unchanged. -/
theorem doCalibration_checkRTC (cfg : Header) (resp : Nat → Nat → Nat) (s : State) :
    (s.backup.DR0 ≠ 0x5A5A5A5A →
      ∃ s1, doCalibration cfg true resp s = some s1 ∧
        s1.tp_matrix = ⟨320300, -1400, -52443300, -3500, 237700, -21783300, 1857905⟩ ∧
        s1.tp_matrix = tInitalMatrix ∧
        s1.tp_matrix.div ≠ 0 ∧
        s1.backup = ⟨0x5A5A5A5A, toU32 320300, toU32 (-1400), toU32 (-52443300), toU32 (-3500),
          toU32 237700, toU32 (-21783300), toU32 1857905⟩ ∧
        (∀ m0 : CAL_MATRIX, readCalibration m0 s1 = (true, tInitalMatrix))) ∧
    (s.backup.DR0 = 0x5A5A5A5A →
      ∃ s1, doCalibration cfg true resp s = some s1 ∧
        s1.tp_matrix = ⟨toS32 s.backup.DR1, toS32 s.backup.DR2, toS32 s.backup.DR3,
          toS32 s.backup.DR4, toS32 s.backup.DR5, toS32 s.backup.DR6, toS32 s.backup.DR7⟩ ∧
        s1.backup = s.backup) := by
  constructor
  · intro h
    have hr : readCalibrationTp s = (false, s) := by
      unfold readCalibrationTp readCalibration
      simp only [RTC_ReadBackupRegister, CALIBRATION_MAGIC_NUMBER]
      rw [if_neg h]
    have hw := writeCalibration_valid tInitalMatrix s (by decide)
    have hd : doCalibration cfg true resp s
        = some (readCalibrationTp (writeCalibration tInitalMatrix s).2).2 := by
      simp only [doCalibration, if_true, hr, Bool.not_false]
    have hm : ∀ m0 : CAL_MATRIX,
        readCalibration m0 (writeCalibration tInitalMatrix s).2 = (true, tInitalMatrix) := by
      intro m0
      rw [hw]
      simp only [readCalibration, RTC_ReadBackupRegister]
      rw [if_pos (by decide)]
      decide
    have hs1 : (readCalibrationTp (writeCalibration tInitalMatrix s).2).2
        = { (writeCalibration tInitalMatrix s).2 with tp_matrix := tInitalMatrix } := by
      simp only [readCalibrationTp, hm]
    refine ⟨_, hd, ?_, ?_, ?_, ?_, ?_⟩
    · rw [hs1]
      rfl
    · rw [hs1]
    · rw [hs1]
      exact (by decide : tInitalMatrix.div ≠ 0)
    · rw [hs1]
      have hb : (writeCalibration tInitalMatrix s).2.backup
          = ⟨CALIBRATION_MAGIC_NUMBER % 4294967296, toU32 tInitalMatrix.a % 4294967296,
            toU32 tInitalMatrix.b % 4294967296, toU32 tInitalMatrix.c % 4294967296,
            toU32 tInitalMatrix.d % 4294967296, toU32 tInitalMatrix.e % 4294967296,
            toU32 tInitalMatrix.f % 4294967296, toU32 tInitalMatrix.div % 4294967296⟩ := by
        rw [hw]
      exact hb.trans (by decide)
    · intro m0
      rw [hs1]
      exact hm m0
  · intro h
    have hr : readCalibrationTp s = (true, { s with tp_matrix :=
        ⟨toS32 s.backup.DR1, toS32 s.backup.DR2, toS32 s.backup.DR3,
          toS32 s.backup.DR4, toS32 s.backup.DR5, toS32 s.backup.DR6, toS32 s.backup.DR7⟩ }) := by
      unfold readCalibrationTp readCalibration
      simp only [RTC_ReadBackupRegister, CALIBRATION_MAGIC_NUMBER]
      rw [if_pos h]
    have hd : doCalibration cfg true resp s = some (readCalibrationTp s).2 := by
      simp only [doCalibration, if_true, hr, Bool.not_true, Bool.false_eq_true, if_false]
    refine ⟨(readCalibrationTp s).2, hd, ?_, rfl⟩
    rw [hr]

/-- C10 (witness): blank registers, and registers that hold the matrix of the calibration
scenario behind the magic number. -/
theorem doCalibration_checkRTC_witness :
    (∃ s1, doCalibration cfg320 true (fun _ => touchResp) (init (resetState blankRegisters))
        = some s1 ∧
      s1.tp_matrix = ⟨320300, -1400, -52443300, -3500, 237700, -21783300, 1857905⟩ ∧
      s1.backup
        = ⟨1515870810, 320300, 4294965896, 4242523996, 4294963796, 237700, 4273183996,
            1857905⟩) ∧
    (∃ s1, doCalibration cfg320 true (fun _ => touchResp)
        (init (resetState ⟨0x5A5A5A5A, 1102000, 0, 34200000, 0, 1102000, 34200000, 14440000⟩))
        = some s1 ∧
      s1.tp_matrix = ⟨1102000, 0, 34200000, 0, 1102000, 34200000, 14440000⟩) :=
  ⟨by
    obtain ⟨s1, h1, h2, -, -, h5, -⟩ := (doCalibration_checkRTC cfg320 (fun _ => touchResp)
      (init (resetState blankRegisters))).1 (by decide)
    exact ⟨s1, h1, h2, by rw [h5]; decide⟩,
   by
    obtain ⟨s1, h1, h2, -⟩ := (doCalibration_checkRTC cfg320 (fun _ => touchResp)
      (init (resetState ⟨0x5A5A5A5A, 1102000, 0, 34200000, 0, 1102000, 34200000, 14440000⟩))).2
      (by decide)
    exact ⟨s1, h1, by rw [h2]; decide⟩⟩

/-! ## The pressure gate -/

/-- The pressure reading on a fresh bus, in terms of the response bytes: the second exchange
returns `a`, the fourth `b`. -/
theorem rd_dataPressure_first (cfg : Header) (resp : Nat → Nat) :
    (rd_dataPressure cfg ⟨resp, 0, []⟩).1
      = ((resp 1 % 256 : Nat) : Int) + (((127 + 256 - resp 3 % 256) % 256 : Nat) : Int) ∧
    (rd_dataPressure cfg ⟨resp, 0, []⟩).2.sent
      = [CMD_START ||| CMD_8BIT ||| CMD_DIFF ||| cfg.CMD_Z1_POS, 0,
         CMD_START ||| CMD_8BIT ||| CMD_DIFF ||| cfg.CMD_Z2_POS, 0] := by
  constructor <;> rfl

/-- C11: when the first pressure proxy `a + (uint8_t)(127 - b)` is below
`MIN_REASONABLE_PRESSURE`, `rd_data` returns after the four exchanges of the pressure
reading, with no exchange for the X or Y channel, the touch not active, `mPressure` 0 and the
raw, last calibrated and display positions unchanged; and a falling edge handled with such a
sample leaves the start flag, the first position, the start time and both once-flags
unchanged and the periodic and long-touch delay callbacks as they were. -/
theorem rd_data_below_pressure (cfg : Header) (n : Int) (resp : Nat → Nat) (s : State)
    (hp : ((resp 1 % 256 : Nat) : Int) + (((127 + 256 - resp 3 % 256) % 256 : Nat) : Int)
      < cfg.MIN_REASONABLE_PRESSURE) :
    (∃ s1, rd_data cfg n resp s = some s1 ∧
      s1.spiSent = s.spiSent ++ [CMD_START ||| CMD_8BIT ||| CMD_DIFF ||| cfg.CMD_Z1_POS, 0,
         CMD_START ||| CMD_8BIT ||| CMD_DIFF ||| cfg.CMD_Z2_POS, 0] ∧
      s1.ADS7846TouchActive = false ∧ s1.mPressure = 0 ∧
      s1.mTouchActualPositionRaw = s.mTouchActualPositionRaw ∧
      s1.mTouchLastCalibratedPosition = s.mTouchLastCalibratedPosition ∧
      s1.mTouchActualPosition = s.mTouchActualPosition) ∧
    (∀ now : Nat, ∃ s1, EXTI1_IRQHandler cfg false resp now s = some s1 ∧
      s1.ADS7846TouchActive = false ∧
      s1.ADS7846TouchStart = s.ADS7846TouchStart ∧
      s1.mTouchFirstPosition = s.mTouchFirstPosition ∧
      s1.ADS7846TouchStartMillis = s.ADS7846TouchStartMillis ∧
      s1.mLongTouchCallbackHappened = s.mLongTouchCallbackHappened ∧
      s1.mEndTouchCallbackHappened = s.mEndTouchCallbackHappened ∧
      s1.delayPeriodicTouch = s.delayPeriodicTouch ∧
      s1.delayLongTouchTimeout = s.delayLongTouchTimeout ∧
      s1.calls = s.calls) := by
  have hp1 : ¬ (rd_dataPressure cfg ⟨resp, 0, []⟩).1 ≥ cfg.MIN_REASONABLE_PRESSURE := by
    rw [(rd_dataPressure_first cfg resp).1]
    exact not_le.mpr hp
  have hr : ∀ m : Int, ∃ s1, rd_data cfg m resp s = some s1 ∧
      s1.spiSent = s.spiSent ++ (rd_dataPressure cfg ⟨resp, 0, []⟩).2.sent ∧
      s1.ADS7846TouchActive = false ∧ s1.mPressure = 0 ∧
      s1.mTouchActualPositionRaw = s.mTouchActualPositionRaw ∧
      s1.mTouchLastCalibratedPosition = s.mTouchLastCalibratedPosition ∧
      s1.mTouchActualPosition = s.mTouchActualPosition := by
    intro m
    unfold rd_data
    simp only []
    rw [if_neg hp1]
    exact ⟨_, rfl, rfl, rfl, rfl, rfl, rfl, rfl⟩
  constructor
  · obtain ⟨s1, h1, h2, h3⟩ := hr n
    exact ⟨s1, h1, by rw [h2, (rd_dataPressure_first cfg resp).2], h3⟩
  · intro now
    obtain ⟨r, h1, -, h3, -⟩ := hr cfg.ADS7846_READ_OVERSAMPLING_DEFAULT
    obtain ⟨-, k2, -, -, -, k6, k7, k8, k9, -, k11, -, k13, k14⟩ := rd_data_keeps cfg _ resp s r h1
    refine ⟨r, ?_, h3, k8, k9, k11, k6, k7, k13, k14, k2⟩
    unfold EXTI1_IRQHandler
    simp only [Bool.not_false, if_true, h1, Option.map_some', h3, Bool.false_eq_true, if_false]

/-- C11 (witness): Z1 reads 0 and Z2 reads 127, pressure 0 below the threshold 9, in the
state left by a press with callbacks registered. -/
theorem rd_data_below_pressure_witness :
    (∃ s1, rd_data cfg320 4 noTouchResp registeredState = some s1 ∧
      s1.spiSent = registeredState.spiSent ++ [0x80 ||| 0x08 ||| 0x00 ||| 0x30, 0,
         0x80 ||| 0x08 ||| 0x00 ||| 0x40, 0] ∧
      s1.ADS7846TouchActive = false ∧ s1.mPressure = 0) ∧
    (∃ s1, EXTI1_IRQHandler cfg320 false noTouchResp 77 registeredState = some s1 ∧
      s1.ADS7846TouchStart = false ∧ s1.delayPeriodicTouch = none ∧
      s1.delayLongTouchTimeout = none) := by
  have h := rd_data_below_pressure cfg320 4 noTouchResp registeredState (by decide)
  obtain ⟨s1, h1, h2, h3, h4, -⟩ := h.1
  obtain ⟨s2, g1, -, g3, -, -, -, -, g8, g9, -⟩ := h.2 77
  exact ⟨⟨s1, h1, h2, h3, h4⟩, ⟨s2, g1, g3, g8, g9⟩⟩

/-! ## The callback registry -/

set_option maxRecDepth 100000 in
/-- C14 (as stated, refuted): after a press with a long-touch callback registered the
long-touch delay of 800 ms is pending; registering another, non-null callback leaves it
pending. -/
theorem registerLongTouchCallback_keeps_timer_counterexample :
    pressedState.delayLongTouchTimeout = some 800 ∧
    (registerLongTouchCallback cfg320 (some 3) 500 pressedState).delayLongTouchTimeout
      = some 800 ∧
    (registerLongTouchCallback cfg320 (some 3) 500 pressedState).mLongTouchCallback = some 3 := by
  decide

/-- C14 (amended): for every timer state, `registerLongTouchCallback` leaves the registered
callback and timeout equal to its arguments; called with the null callback it cancels the
pending long-touch delay, called with a non-null callback it leaves the pending long-touch
delay as it was. -/
theorem registerLongTouchCallback_timer (cfg : Header) (cb : Option Nat) (t : Nat)
    (ht : t < 4294967296) (s : State) :
    (registerLongTouchCallback cfg cb t s).mLongTouchCallback = cb ∧
    (registerLongTouchCallback cfg cb t s).mLongTouchTimeoutMillis = (t : Int) ∧
    (cb = none → (registerLongTouchCallback cfg cb t s).delayLongTouchTimeout = none) ∧
    (cb ≠ none →
      (registerLongTouchCallback cfg cb t s).delayLongTouchTimeout = s.delayLongTouchTimeout) := by
  refine ⟨rfl, ?_, ?_, ?_⟩
  · show ((t % 4294967296 : Nat) : Int) = (t : Int)
    rw [Nat.mod_eq_of_lt ht]
  · intro h
    subst h
    simp [registerLongTouchCallback, changeDelayCallback]
  · intro h
    simp [registerLongTouchCallback, h]

set_option maxRecDepth 100000 in
/-- C14 (witness): in the state with the long-touch delay pending, the null callback cancels
it and routine 3 does not. -/
theorem registerLongTouchCallback_timer_witness :
    (registerLongTouchCallback cfg320 none 0 pressedState).delayLongTouchTimeout = none ∧
    (registerLongTouchCallback cfg320 (some 3) 500 pressedState).delayLongTouchTimeout
      = some 800 ∧
    (registerLongTouchCallback cfg320 (some 3) 500 pressedState).mLongTouchTimeoutMillis = 500 :=
  ⟨(registerLongTouchCallback_timer cfg320 none 0 (by decide) pressedState).2.2.1 rfl,
   ((registerLongTouchCallback_timer cfg320 (some 3) 500 (by decide) pressedState).2.2.2
      (by decide)).trans (by decide),
   (registerLongTouchCallback_timer cfg320 (some 3) 500 (by decide) pressedState).2.1⟩

/-- The fields of the state a falling edge leaves, in terms of the state `r` that `rd_data`
left. -/
theorem press_fields (cfg : Header) (resp : Nat → Nat) (now : Nat) (s s1 : State)
    (h : EXTI1_IRQHandler cfg false resp now s = some s1) :
    ∃ r, rd_data cfg cfg.ADS7846_READ_OVERSAMPLING_DEFAULT resp s = some r ∧
      s1.ADS7846TouchActive = r.ADS7846TouchActive ∧
      s1.mLongTouchCallback = r.mLongTouchCallback ∧
      s1.mEndTouchCallback = r.mEndTouchCallback ∧
      s1.mPeriodicTouchCallback =
        (if r.ADS7846TouchActive = true ∧ r.mEndTouchCallback ≠ none then none
         else r.mPeriodicTouchCallback) ∧
      s1.mEndTouchCallbackHappened =
        (if r.ADS7846TouchActive = true ∧ r.mEndTouchCallback ≠ none then false
         else r.mEndTouchCallbackHappened) ∧
      s1.mLongTouchCallbackHappened =
        (if r.ADS7846TouchActive = true ∧ r.mLongTouchCallback ≠ none then false
         else r.mLongTouchCallbackHappened) ∧
      (r.ADS7846TouchActive = true →
        s1.ADS7846TouchStart = true ∧ s1.mTouchFirstPosition = r.mTouchActualPosition ∧
        s1.ADS7846TouchStartMillis = now % 4294967296) ∧
      s1.mTouchActualPosition = r.mTouchActualPosition ∧
      s1.mTouchLastPosition = r.mTouchLastPosition ∧
      s1.calls = r.calls := by
  unfold EXTI1_IRQHandler at h
  simp only [Bool.not_false, if_true, Option.map_eq_some'] at h
  obtain ⟨r, hr, rfl⟩ := h
  refine ⟨r, hr, ?_⟩
  cases r with
  | mk m raw lc act fst lst pr ac st sm pp lt lcb lh eh pcb ecb bk ba dp dl de ie sp cl =>
    cases ac <;> cases lcb <;> cases ecb <;> simp

/-- The state a periodic tick leaves, in terms of the state `r` that `rd_data` left. -/
theorem tick_cases (cfg : Header) (resp : Nat → Nat) (now : Nat) (s s1 : State)
    (h : callbackPeriodicTouch cfg resp now s = some s1) :
    ∃ r, rd_data cfg cfg.ADS7846_READ_OVERSAMPLING_DEFAULT resp s = some r ∧
      ((r.ADS7846TouchActive = true ∧
          s1.mLongTouchCallback = r.mLongTouchCallback ∧
          s1.mEndTouchCallback = r.mEndTouchCallback ∧
          s1.mPeriodicTouchCallback = r.mPeriodicTouchCallback ∧
          s1.mTouchFirstPosition = r.mTouchFirstPosition ∧
          s1.mTouchLastPosition =
            (if r.mPeriodicTouchCallback = none then r.mTouchActualPosition
             else r.mTouchLastPosition) ∧
          countLongTouch s1.calls = countLongTouch r.calls ∧
          countEndTouch s1.calls = countEndTouch r.calls) ∨
       (r.ADS7846TouchActive = false ∧
          s1 = touchReleased now { r with mPeriodicTouchCallback := none })) := by
  unfold callbackPeriodicTouch rd_dataDefault at h
  simp only [Option.map_eq_some'] at h
  obtain ⟨r, hr, rfl⟩ := h
  refine ⟨r, hr, ?_⟩
  by_cases ha : r.ADS7846TouchActive = true
  · left
    rw [if_pos ha]
    refine ⟨ha, ?_⟩
    cases hp : r.mPeriodicTouchCallback <;>
      simp [countLongTouch_append, countEndTouch_append, countLongTouch, countEndTouch]
  · right
    rw [if_neg ha]
    exact ⟨by simpa using ha, rfl⟩

/-- C17 (amended): every handler that returns (edge, periodic tick, long-touch timeout)
leaves the registered long-touch callback and end-touch callback as they were; it leaves the
periodic callback as it was except in two cases, in which it sets it to `NULL`: a validated
press taken with an end-touch callback registered, and a periodic tick whose sample is not
active. -/
theorem handlers_keep_registry (cfg : Header) (e : Event) (s s1 : State)
    (hs : step cfg e s = some s1) :
    s1.mLongTouchCallback = s.mLongTouchCallback ∧
    s1.mEndTouchCallback = s.mEndTouchCallback ∧
    s1.mPeriodicTouchCallback =
      (if clearsPeriodic cfg s e = true then none else s.mPeriodicTouchCallback) := by
  cases e with
  | edge tLevel resp now =>
    cases tLevel with
    | false =>
      simp only [step] at hs
      obtain ⟨r, hr, f1, f2, f3, f4, -⟩ := press_fields cfg resp now s s1 hs
      obtain ⟨-, -, k3, k4, k5, -⟩ := rd_data_keeps cfg _ resp s r hr
      refine ⟨f2.trans k3, f3.trans k4, ?_⟩
      rw [f4]
      simp only [clearsPeriodic, validatedPress, hs, f1, k4, k5, Bool.and_eq_true,
        Option.isSome_iff_ne_none]
    | true =>
      simp only [step, EXTI1_IRQHandler, Bool.not_true, Bool.false_eq_true, if_false,
        Option.some.injEq] at hs
      rw [← hs, touchReleased_frame]
      simp [clearsPeriodic]
  | periodicTick resp now =>
    simp only [step] at hs
    obtain ⟨r, hr, hc⟩ := tick_cases cfg resp now s s1 hs
    obtain ⟨-, -, k3, k4, k5, -⟩ := rd_data_keeps cfg _ resp s r hr
    rcases hc with ⟨ha, g1, g2, g3, -⟩ | ⟨ha, rfl⟩
    · refine ⟨g1.trans k3, g2.trans k4, ?_⟩
      simp [clearsPeriodic, detectsRelease, rd_dataDefault, hr, ha, g3, k5]
    · rw [touchReleased_frame]
      refine ⟨k3, k4, ?_⟩
      simp [clearsPeriodic, detectsRelease, rd_dataDefault, hr, ha]
  | longTouchTimeout =>
    simp only [step] at hs
    rcases callbackLongTouchTimeout_cases s s1 hs with ⟨_, rfl⟩ | ⟨-, cb, -, rfl⟩ <;>
      simp [clearsPeriodic]

set_option maxRecDepth 100000 in
/-- C17 (as stated, refuted): with the periodic callback 5 registered, a periodic tick that
finds no touch returns with the periodic callback `NULL`; and with the end-touch callback
registered as well, so does a validated press. -/
theorem handler_clears_periodic_counterexample :
    periodicState.mPeriodicTouchCallback = some 5 ∧
    (callbackPeriodicTouch cfg320 noTouchResp 40 periodicState).map
      (fun s => s.mPeriodicTouchCallback) = some none ∧
    (EXTI1_IRQHandler cfg320 false touchResp 0
      (registerEndTouchCallback (some 2) periodicState)).map
      (fun s => (s.ADS7846TouchActive, s.mPeriodicTouchCallback)) = some (true, none) := by
  decide

set_option maxRecDepth 100000 in
/-- C17 (witness): a periodic tick with a firm touch in the state with the periodic callback
5 registered keeps the registry. -/
theorem handlers_keep_registry_witness :
    ∃ s1, step cfg320 (Event.periodicTick touchResp 40) periodicState = some s1 ∧
      s1.mLongTouchCallback = none ∧ s1.mEndTouchCallback = none ∧
      s1.mPeriodicTouchCallback = some 5 :=
  ⟨(step cfg320 (Event.periodicTick touchResp 40) periodicState).getD periodicState,
   by decide,
   (handlers_keep_registry cfg320 (Event.periodicTick touchResp 40) periodicState _
      (by decide)).1,
   (handlers_keep_registry cfg320 (Event.periodicTick touchResp 40) periodicState _
      (by decide)).2.1,
   ((handlers_keep_registry cfg320 (Event.periodicTick touchResp 40) periodicState _
      (by decide)).2.2).trans (by decide)⟩

/-! ## The start of a session -/

set_option maxRecDepth 100000 in
/-- C18 (as stated, refuted): in a state reached with both once-flags set and both callbacks
deregistered, a validated press leaves both once-flags set. -/
theorem press_keeps_flags_counterexample :
    unregisteredState.mLongTouchCallback = none ∧ unregisteredState.mEndTouchCallback = none ∧
    unregisteredState.mLongTouchCallbackHappened = true ∧
    unregisteredState.mEndTouchCallbackHappened = true ∧
    EXTI1_IRQHandler cfg320 false touchResp2 500 unregisteredState = some pressedAgainState ∧
    pressedAgainState.ADS7846TouchActive = true ∧
    pressedAgainState.ADS7846TouchStart = true ∧
    pressedAgainState.mLongTouchCallbackHappened = true ∧
    pressedAgainState.mEndTouchCallbackHappened = true := by
  decide

/-- C18 (amended): after the edge handler has processed a press whose sample is active,
`ADS7846TouchStart` is true, the first position equals the just-calibrated position and the
start time equals the current time; `mLongTouchCallbackHappened` is false when a long-touch
callback is registered and unchanged when none is, and `mEndTouchCallbackHappened` is false
when an end-touch callback is registered and unchanged when none is. -/
theorem press_resets_flags (cfg : Header) (resp : Nat → Nat) (now : Nat) (s s1 : State)
    (h : EXTI1_IRQHandler cfg false resp now s = some s1)
    (ha : s1.ADS7846TouchActive = true) :
    s1.ADS7846TouchStart = true ∧
    s1.mTouchFirstPosition = s1.mTouchActualPosition ∧
    s1.ADS7846TouchStartMillis = now % 4294967296 ∧
    (s.mLongTouchCallback ≠ none → s1.mLongTouchCallbackHappened = false) ∧
    (s.mLongTouchCallback = none →
      s1.mLongTouchCallbackHappened = s.mLongTouchCallbackHappened) ∧
    (s.mEndTouchCallback ≠ none → s1.mEndTouchCallbackHappened = false) ∧
    (s.mEndTouchCallback = none →
      s1.mEndTouchCallbackHappened = s.mEndTouchCallbackHappened) := by
  obtain ⟨r, hr, f1, -, -, -, f5, f6, f7, f8, -⟩ := press_fields cfg resp now s s1 h
  obtain ⟨-, -, k3, k4, -, k6, k7, -⟩ := rd_data_keeps cfg _ resp s r hr
  have hra : r.ADS7846TouchActive = true := by rw [← f1]; exact ha
  obtain ⟨g1, g2, g3⟩ := f7 hra
  refine ⟨g1, by rw [g2, f8], g3, ?_, ?_, ?_, ?_⟩
  · intro hL
    rw [f6, if_pos ⟨hra, by rw [k3]; exact hL⟩]
  · intro hL
    rw [f6, if_neg (fun hc => hc.2 (by rw [k3]; exact hL)), k6]
  · intro hE
    rw [f5, if_pos ⟨hra, by rw [k4]; exact hE⟩]
  · intro hE
    rw [f5, if_neg (fun hc => hc.2 (by rw [k4]; exact hE)), k7]

set_option maxRecDepth 100000 in
/-- C18 (witness): the press at time 0 with both callbacks registered, and the press at
time 500 with none registered. -/
theorem press_resets_flags_witness :
    (pressedState.ADS7846TouchStart = true ∧
      pressedState.mTouchFirstPosition = pressedState.mTouchActualPosition ∧
      pressedState.ADS7846TouchStartMillis = 0 ∧
      pressedState.mLongTouchCallbackHappened = false ∧
      pressedState.mEndTouchCallbackHappened = false) ∧
    (pressedAgainState.ADS7846TouchStartMillis = 500 ∧
      pressedAgainState.mLongTouchCallbackHappened
        = unregisteredState.mLongTouchCallbackHappened) :=
  have h1 := press_resets_flags cfg320 touchResp 0 registeredState pressedState
    (by decide) (by decide)
  have h2 := press_resets_flags cfg320 touchResp2 500 unregisteredState pressedAgainState
    (by decide) (by decide)
  ⟨⟨h1.1, h1.2.1, h1.2.2.1, h1.2.2.2.1 (by decide), h1.2.2.2.2.2.1 (by decide)⟩,
   ⟨h2.2.2.1, h2.2.2.2.2.1 (by decide)⟩⟩

/-! ## The end of a touch -/

/-- The end-touch part of the release: when the callback is registered and its once-flag
unset, the log grows by calls that are not end-touch calls and then by the one end-touch call;
otherwise no end-touch call is added. -/
theorem touchReleased_end (now : Nat) (t : State) :
    (∀ cb, t.mEndTouchCallback = some cb → t.mEndTouchCallbackHappened = false →
      ∃ pre, countEndTouch pre = 0 ∧
        (touchReleased now t).calls = t.calls ++ pre ++
          [CallbackCall.endTouch cb
            ((now % 4294967296 + 4294967296 - t.ADS7846TouchStartMillis % 4294967296)
              % 4294967296)
            (sub32 t.mTouchFirstPosition.x t.mTouchLastPosition.x)
            (sub32 t.mTouchFirstPosition.y t.mTouchLastPosition.y)]) ∧
    (¬ (t.mEndTouchCallback ≠ none ∧ t.mEndTouchCallbackHappened = false) →
      countEndTouch (touchReleased now t).calls = countEndTouch t.calls) := by
  cases t with
  | mk m raw lc act fst lst pr ac st sm pp lt lcb lh eh pcb ecb bk ba dp dl de ie sp cl =>
    constructor
    · intro cb hcb hfl
      simp only at hcb hfl
      subst hcb
      subst hfl
      cases lcb <;> cases lh <;>
        first
        | (refine ⟨[_], ?_, rfl⟩; rfl)
        | exact ⟨[], rfl, by simp [touchReleased]⟩
    · intro hno
      cases lcb <;> cases ecb <;> cases lh <;> cases eh <;>
        simp [touchReleased, countEndTouch_append, countEndTouch] at hno ⊢

/-- C13: when a rising edge or a periodic tick is handled in a state whose first and last
position lie inside a display of at most 32768 pixels per side and whose start time is not
after the current time: if the end-touch callback is registered, its once-flag unset and the
event detects the release, the callback is invoked once, last in the log, with the duration
`now - ADS7846TouchStartMillis` and the displacement `(first.x - last.x, first.y - last.y)`;
in every other case no end-touch invocation is added. The value of which `getSwipeAmount`
takes the square root is `dx*dx + dy*dy` for the same displacement. -/
theorem endTouch_arguments (cfg : Header) (e : Event) (s s1 : State) (resp : Nat → Nat)
    (now : Nat)
    (he : e = Event.edge true resp now ∨ e = Event.periodicTick resp now)
    (hs : step cfg e s = some s1)
    (hsize : cfg.DISPLAY_WIDTH ≤ 32768 ∧ cfg.DISPLAY_HEIGHT ≤ 32768)
    (hfirst : inDisplay cfg s.mTouchFirstPosition)
    (hlast : inDisplay cfg s.mTouchLastPosition)
    (hnow : s.ADS7846TouchStartMillis ≤ now ∧ now < 4294967296) :
    (∀ cb, s.mEndTouchCallback = some cb → s.mEndTouchCallbackHappened = false →
      detectsRelease cfg s e = true →
      ∃ pre, countEndTouch pre = 0 ∧
        s1.calls = s.calls ++ pre ++
          [CallbackCall.endTouch cb (now - s.ADS7846TouchStartMillis)
            (s.mTouchFirstPosition.x - s.mTouchLastPosition.x)
            (s.mTouchFirstPosition.y - s.mTouchLastPosition.y)]) ∧
    (¬ (s.mEndTouchCallback ≠ none ∧ s.mEndTouchCallbackHappened = false ∧
        detectsRelease cfg s e = true) →
      countEndTouch s1.calls = countEndTouch s.calls) ∧
    getSwipeAmountSquared s
      = (s.mTouchFirstPosition.x - s.mTouchLastPosition.x)
          * (s.mTouchFirstPosition.x - s.mTouchLastPosition.x)
        + (s.mTouchFirstPosition.y - s.mTouchLastPosition.y)
          * (s.mTouchFirstPosition.y - s.mTouchLastPosition.y) := by
  obtain ⟨a1, a2, a3, a4⟩ := hfirst
  obtain ⟨b1, b2, b3, b4⟩ := hlast
  have hd : (now % 4294967296 + 4294967296 - s.ADS7846TouchStartMillis % 4294967296)
      % 4294967296 = now - s.ADS7846TouchStartMillis := by omega
  have hx : sub32 s.mTouchFirstPosition.x s.mTouchLastPosition.x
      = s.mTouchFirstPosition.x - s.mTouchLastPosition.x := by
    apply wrap32_of_fits
    unfold fits32
    omega
  have hy : sub32 s.mTouchFirstPosition.y s.mTouchLastPosition.y
      = s.mTouchFirstPosition.y - s.mTouchLastPosition.y := by
    apply wrap32_of_fits
    unfold fits32
    omega
  have hsq : ∀ u v : Int, -32768 < u → u < 32768 → -32768 < v → v < 32768 →
      add32 (mul32 u u) (mul32 v v) = u * u + v * v := by
    intro u v u1 u2 v1 v2
    have hu : 0 ≤ u * u ∧ u * u ≤ 32767 * 32767 := by
      constructor
      · nlinarith
      · nlinarith [mul_nonneg (by omega : (0 : Int) ≤ 32767 - u) (by omega : (0 : Int) ≤ 32767 + u)]
    have hv : 0 ≤ v * v ∧ v * v ≤ 32767 * 32767 := by
      constructor
      · nlinarith
      · nlinarith [mul_nonneg (by omega : (0 : Int) ≤ 32767 - v) (by omega : (0 : Int) ≤ 32767 + v)]
    have e1 : mul32 u u = u * u := by
      apply wrap32_of_fits
      unfold fits32
      omega
    have e2 : mul32 v v = v * v := by
      apply wrap32_of_fits
      unfold fits32
      omega
    rw [e1, e2]
    apply wrap32_of_fits
    unfold fits32
    omega
  have swipe : getSwipeAmountSquared s
      = (s.mTouchFirstPosition.x - s.mTouchLastPosition.x)
          * (s.mTouchFirstPosition.x - s.mTouchLastPosition.x)
        + (s.mTouchFirstPosition.y - s.mTouchLastPosition.y)
          * (s.mTouchFirstPosition.y - s.mTouchLastPosition.y) := by
    unfold getSwipeAmountSquared
    simp only [hx, hy]
    exact hsq _ _ (by omega) (by omega) (by omega) (by omega)
  refine ⟨?_, ?_, swipe⟩
  · intro cb hcb hfl hrel
    rcases he with rfl | rfl
    · simp only [step, EXTI1_IRQHandler, Bool.not_true, Bool.false_eq_true, if_false,
        Option.some.injEq] at hs
      subst hs
      obtain ⟨pre, p1, p2⟩ := (touchReleased_end now s).1 cb hcb hfl
      exact ⟨pre, p1, by rw [p2, hd, hx, hy]⟩
    · simp only [step] at hs
      obtain ⟨r, hr, hc⟩ := tick_cases cfg resp now s s1 hs
      obtain ⟨-, k2, -, k4, -, -, k7, -, k9, k10, k11, -⟩ := rd_data_keeps cfg _ resp s r hr
      rcases hc with ⟨ha, -⟩ | ⟨ha, rfl⟩
      · simp [detectsRelease, rd_dataDefault, hr, ha] at hrel
      · obtain ⟨pre, p1, p2⟩ := (touchReleased_end now { r with mPeriodicTouchCallback := none }).1
          cb (k4.trans hcb) (k7.trans hfl)
        refine ⟨pre, p1, ?_⟩
        rw [p2]
        simp only [k2, k9, k10, k11, hd, hx, hy]
  · intro hno
    rcases he with rfl | rfl
    · simp only [step, EXTI1_IRQHandler, Bool.not_true, Bool.false_eq_true, if_false,
        Option.some.injEq] at hs
      subst hs
      apply (touchReleased_end now s).2
      intro hc
      exact hno ⟨hc.1, hc.2, rfl⟩
    · simp only [step] at hs
      obtain ⟨r, hr, hc⟩ := tick_cases cfg resp now s s1 hs
      obtain ⟨-, k2, -, k4, -, -, k7, -⟩ := rd_data_keeps cfg _ resp s r hr
      rcases hc with ⟨ha, -, -, -, -, -, -, g7⟩ | ⟨ha, rfl⟩
      · rw [g7, k2]
      · have h2 := (touchReleased_end now { r with mPeriodicTouchCallback := none }).2
        rw [h2, k2]
        intro hc
        apply hno
        refine ⟨by rw [← k4]; exact hc.1, by rw [← k7]; exact hc.2, ?_⟩
        simp [detectsRelease, rd_dataDefault, hr, ha]

set_option maxRecDepth 100000 in
/-- C13 (witness): the touch started at time 0 with first position (10,10) and last position
(40,10), no periodic callback, released by the rising edge at time 250: the end-touch
callback is invoked once, with (250, -30, 0); the squared swipe amount is 900, the square
of 30. -/
theorem endTouch_arguments_witness :
    (step cfg320 (Event.edge true noTouchResp 250) swipeState).map (fun s => s.calls)
      = some [CallbackCall.endTouch 2 250 (-30) 0] ∧
    (∃ pre, countEndTouch pre = 0 ∧
      (touchReleased 250 swipeState).calls = swipeState.calls ++ pre ++
        [CallbackCall.endTouch 2 (250 - 0) (10 - 40) (10 - 10)]) ∧
    getSwipeAmountSquared swipeState = (10 - 40) * (10 - 40) + (10 - 10) * (10 - 10) ∧
    getSwipeAmountSquared swipeState = 30 * 30 :=
  have h := endTouch_arguments cfg320 (Event.edge true noTouchResp 250) swipeState
    (touchReleased 250 swipeState) noTouchResp 250 (Or.inl rfl) (by decide) (by decide)
    (by decide) (by decide) (by decide)
  ⟨by decide, h.1 2 (by decide) (by decide) (by decide), h.2.2, by decide⟩

set_option maxRecDepth 100000 in
/-- C19 (failing input): with callbacks 1 and 2 registered and no periodic callback, a first
session (press at display position (181,88), an active tick at (181,239), release at time
100) and a second session whose press at (181,88) at time 1000 is released at time 1050
before any tick. The end-touch callback of the second session is invoked with the
displacement (0,-151), taken against the last position of the first session, and the
squared swipe amount is 22801; no position of the second session differs from (181,88). -/
theorem second_session_reports_earlier_position :
    (run cfg320 twoSessions registeredState).map (fun s => s.calls)
      = some [CallbackCall.longTouch 1 181 88 false, CallbackCall.endTouch 2 100 0 (-151),
              CallbackCall.longTouch 1 181 88 false, CallbackCall.endTouch 2 50 0 (-151)] ∧
    (run cfg320 (twoSessions.take 4) registeredState).map
        (fun s => (s.ADS7846TouchActive, s.mTouchFirstPosition, s.mTouchActualPosition,
          s.mTouchLastPosition))
      = some (true, ⟨181, 88⟩, ⟨181, 88⟩, ⟨181, 239⟩) ∧
    (run cfg320 twoSessions registeredState).map getSwipeAmountSquared = some 22801 := by
  decide

/-! ## Memoisation of the transform -/

/-- With a non-zero `div`, `calibrate` returns the state in which each axis whose raw value
differs from the raw value last transformed holds the clamped quotient, each other axis is
kept, and the raw value last transformed is the current one. -/
theorem calibrate_eq (cfg : Header) (s : State) (hdiv : s.tp_matrix.div ≠ 0) :
    ∃ s1, calibrate cfg s = some s1 ∧
      s1.tp_matrix = s.tp_matrix ∧
      s1.mTouchActualPositionRaw = s.mTouchActualPositionRaw ∧
      s1.mTouchLastCalibratedPosition = s.mTouchActualPositionRaw ∧
      s1.mTouchActualPosition.x =
        (if s.mTouchActualPositionRaw.x ≠ s.mTouchLastCalibratedPosition.x then
          (calibrateUnmemoised cfg s.tp_matrix s.mTouchActualPositionRaw).x
         else s.mTouchActualPosition.x) ∧
      s1.mTouchActualPosition.y =
        (if s.mTouchActualPositionRaw.y ≠ s.mTouchLastCalibratedPosition.y then
          (calibrateUnmemoised cfg s.tp_matrix s.mTouchActualPositionRaw).y
         else s.mTouchActualPosition.y) := by
  have pe : ∀ p q : Position, p.x = q.x → p.y = q.y → p = q := by
    intro p q h1 h2
    cases p
    cases q
    simp only at h1 h2
    rw [h1, h2]
  unfold calibrate
  simp only [hdiv, if_false, ne_eq, ite_not]
  by_cases hx : s.mTouchActualPositionRaw.x = s.mTouchLastCalibratedPosition.x
  · rw [if_pos hx, if_pos hx]
    simp only [Option.some_bind]
    by_cases hy : s.mTouchActualPositionRaw.y = s.mTouchLastCalibratedPosition.y
    · rw [if_pos hy, if_pos hy]
      exact ⟨_, rfl, rfl, rfl, (pe _ _ hx hy).symm, rfl, rfl⟩
    · rw [if_neg hy, if_neg hy]
      simp only [hdiv, if_false]
      exact ⟨_, rfl, rfl, rfl, pe _ _ hx.symm rfl, rfl, rfl⟩
  · rw [if_neg hx, if_neg hx]
    simp only [Option.some_bind]
    by_cases hy : s.mTouchActualPositionRaw.y = s.mTouchLastCalibratedPosition.y
    · rw [if_pos hy, if_pos hy]
      exact ⟨_, rfl, rfl, rfl, pe _ _ rfl hy.symm, rfl, rfl⟩
    · rw [if_neg hy, if_neg hy]
      simp only [hdiv, if_false]
      exact ⟨_, rfl, rfl, rfl, rfl, rfl, rfl⟩

set_option maxRecDepth 100000 in
/-- C16 (as stated, refuted): from the state left by `init`, with the default matrix, the
raw sample (1221, 803) followed by the raw sample (1221, 2000) leaves the display position
(181, 239), while the transform of (1221, 2000) is (180, 239): the X axis is not recomputed
because the raw X did not change, although it depends on the raw Y. The same happens
through `rd_data` with the default matrix loaded by `doCalibration(true)`. -/
theorem calibrate_memo_stale_counterexample :
    (calibrateSamples cfg320 [(tInitalMatrix, ⟨1221, 803⟩), (tInitalMatrix, ⟨1221, 2000⟩)]
        (init (resetState blankRegisters))).map
        (fun s => (s.tp_matrix.div, s.mTouchActualPositionRaw, s.mTouchActualPosition))
      = some (1857905, ⟨1221, 2000⟩, ⟨181, 239⟩) ∧
    calibrateUnmemoised cfg320 tInitalMatrix ⟨1221, 2000⟩ = ⟨180, 239⟩ ∧
    ((rd_data cfg320 4 touchResp bootState).bind (rd_data cfg320 4 touchRespY)).map
        (fun s => (s.tp_matrix, s.mTouchActualPositionRaw, s.mTouchActualPosition))
      = some (tInitalMatrix, ⟨1221, 2000⟩, ⟨181, 239⟩) := by
  decide

/-- C16 (amended): for every state with `div != 0`, `calibrate` returns, and afterwards each
axis of the display position equals that axis of the unmemoised transform of the current raw
sample and the current matrix if the raw value of that axis differs from the raw value last
transformed, and is the display coordinate stored before otherwise; so the display position
equals the unmemoised transform whenever both raw values differ from the ones last
transformed. -/
theorem calibrate_memoised (cfg : Header) (s : State) (hdiv : s.tp_matrix.div ≠ 0) :
    ∃ s1, calibrate cfg s = some s1 ∧
      s1.mTouchActualPosition.x =
        (if s.mTouchActualPositionRaw.x ≠ s.mTouchLastCalibratedPosition.x then
          (calibrateUnmemoised cfg s.tp_matrix s.mTouchActualPositionRaw).x
         else s.mTouchActualPosition.x) ∧
      s1.mTouchActualPosition.y =
        (if s.mTouchActualPositionRaw.y ≠ s.mTouchLastCalibratedPosition.y then
          (calibrateUnmemoised cfg s.tp_matrix s.mTouchActualPositionRaw).y
         else s.mTouchActualPosition.y) ∧
      (s.mTouchActualPositionRaw.x ≠ s.mTouchLastCalibratedPosition.x →
        s.mTouchActualPositionRaw.y ≠ s.mTouchLastCalibratedPosition.y →
        s1.mTouchActualPosition
          = calibrateUnmemoised cfg s.tp_matrix s.mTouchActualPositionRaw) ∧
      s1.tp_matrix = s.tp_matrix ∧
      s1.mTouchActualPositionRaw = s.mTouchActualPositionRaw := by
  obtain ⟨s1, h1, h2, h3, -, h5, h6⟩ := calibrate_eq cfg s hdiv
  refine ⟨s1, h1, h5, h6, ?_, h2, h3⟩
  intro hx hy
  rw [if_pos hx] at h5
  rw [if_pos hy] at h6
  cases hp : s1.mTouchActualPosition with
  | mk px py =>
    rw [hp] at h5 h6
    simp only at h5 h6
    rw [h5, h6]

set_option maxRecDepth 100000 in
/-- C16 (witness): the first raw sample (1221, 803) after `init`, both axes new: the display
position is the transform (181, 88); the second sample (1221, 2000) keeps the X axis. -/
theorem calibrate_memoised_witness :
    (∃ s1, calibrate cfg320 { defaultState with mTouchActualPositionRaw := ⟨1221, 803⟩ } = some s1 ∧
      s1.mTouchActualPosition = ⟨181, 88⟩) ∧
    (∃ s1, calibrate cfg320
        { defaultState with
          mTouchActualPositionRaw := ⟨1221, 2000⟩
          mTouchLastCalibratedPosition := ⟨1221, 803⟩
          mTouchActualPosition := ⟨181, 88⟩ } = some s1 ∧
      s1.mTouchActualPosition.x = 181 ∧ s1.mTouchActualPosition.y = 239) := by
  constructor
  · obtain ⟨s1, h1, -, -, h4⟩ := calibrate_memoised cfg320
      { defaultState with mTouchActualPositionRaw := ⟨1221, 803⟩ } (by decide)
    exact ⟨s1, h1, (h4.1 (by decide) (by decide)).trans (by decide)⟩
  · obtain ⟨s1, h1, h2, h3, -⟩ := calibrate_memoised cfg320
      { defaultState with
        mTouchActualPositionRaw := ⟨1221, 2000⟩
        mTouchLastCalibratedPosition := ⟨1221, 803⟩
        mTouchActualPosition := ⟨181, 88⟩ } (by decide)
    exact ⟨s1, h1, h2.trans (by decide), h3.trans (by decide)⟩

/-! ## The oversampled raw position -/

/-- Every exchange returns a byte. -/
theorem SPI1_sendReceiveFast_lt (out : Nat) (bus : Spi) : (SPI1_sendReceiveFast out bus).1 < 256 :=
  Nat.mod_lt _ (by decide)

/-- A 12-bit reading assembled from two bytes is below 8192. -/
theorem reading12_lt (a b : Nat) (ha : a < 256) (hb : b < 256) :
    (a <<< 5) ||| (b >>> 3) < 8192 := by
  have h1 : a <<< 5 < 2 ^ 13 := by
    rw [Nat.shiftLeft_eq]
    omega
  have h2 : b >>> 3 < 2 ^ 13 := by
    rw [Nat.shiftRight_eq_div_pow]
    omega
  exact Nat.or_lt_two_pow h1 h2

/-- The invariant of the oversampling loop: after `k` complete pairs the counter is `2k`, the
X accumulator lies between `49k` and `4048k` and the Y accumulator between `101k` and
`8191k`; and with at most 255 pairs the accumulators never wrap. -/
theorem rd_dataLoop_bounds (cfg : Header) (i : Nat) :
    ∀ (k tXValue tYValue : Nat) (bus : Spi), k + i ≤ 255 →
      49 * k ≤ tXValue → tXValue ≤ 4048 * k → 101 * k ≤ tYValue → tYValue ≤ 8191 * k →
      (∃ k1, k ≤ k1 ∧ k1 ≤ k + i ∧
        (rd_dataLoop cfg i tXValue tYValue (2 * (k : Int)) bus).j = 2 * (k1 : Int) ∧
        49 * k1 ≤ (rd_dataLoop cfg i tXValue tYValue (2 * (k : Int)) bus).tXValue ∧
        (rd_dataLoop cfg i tXValue tYValue (2 * (k : Int)) bus).tXValue ≤ 4048 * k1 ∧
        101 * k1 ≤ (rd_dataLoop cfg i tXValue tYValue (2 * (k : Int)) bus).tYValue ∧
        (rd_dataLoop cfg i tXValue tYValue (2 * (k : Int)) bus).tYValue ≤ 8191 * k1) ∧
      rd_dataLoop cfg i tXValue tYValue (2 * (k : Int)) bus
        = rd_dataLoopExact cfg i tXValue tYValue (2 * (k : Int)) bus := by
  induction i with
  | zero =>
    intro k tXValue tYValue bus _ h1 h2 h3 h4
    exact ⟨⟨k, le_refl _, le_refl _, rfl, h1, h2, h3, h4⟩, rfl⟩
  | succ i ih =>
    intro k tXValue tYValue bus hk h1 h2 h3 h4
    simp only [rd_dataLoop, rd_dataLoopExact]
    split_ifs with hx hy
    · exact ⟨⟨k, le_refl _, by omega, rfl, h1, h2, h3, h4⟩, rfl⟩
    · exact ⟨⟨k, le_refl _, by omega, rfl, h1, h2, h3, h4⟩, rfl⟩
    · have bY := reading12_lt _ _
        (SPI1_sendReceiveFast_lt 0 (SPI1_sendReceiveFast
          (CMD_START ||| CMD_12BIT ||| CMD_DIFF ||| cfg.CMD_Y_POS)
          (SPI1_sendReceiveFast 0 (SPI1_sendReceiveFast 0 (SPI1_sendReceiveFast
            (CMD_START ||| CMD_12BIT ||| CMD_DIFF ||| cfg.CMD_X_POS) bus).2).2).2).2)
        (SPI1_sendReceiveFast_lt 0 (SPI1_sendReceiveFast 0 (SPI1_sendReceiveFast
          (CMD_START ||| CMD_12BIT ||| CMD_DIFF ||| cfg.CMD_Y_POS)
          (SPI1_sendReceiveFast 0 (SPI1_sendReceiveFast 0 (SPI1_sendReceiveFast
            (CMD_START ||| CMD_12BIT ||| CMD_DIFF ||| cfg.CMD_X_POS) bus).2).2).2).2).2)
      have ej : add32 (2 * (k : Int)) 2 = 2 * ((k + 1 : Nat) : Int) := by
        unfold add32
        rw [wrap32_of_fits]
        · push_cast
          ring
        · unfold fits32
          omega
      have ej2 : 2 * (k : Int) + 2 = 2 * ((k + 1 : Nat) : Int) := by
        push_cast
        ring
      rw [ej, ej2]
      rw [Nat.mod_eq_of_lt (by omega), Nat.mod_eq_of_lt (by omega)]
      have next : ∀ (A B : Nat) (b : Spi), 49 * (k + 1) ≤ A → A ≤ 4048 * (k + 1) →
          101 * (k + 1) ≤ B → B ≤ 8191 * (k + 1) →
          (∃ k1, k ≤ k1 ∧ k1 ≤ k + (i + 1) ∧
            (rd_dataLoop cfg i A B (2 * ((k + 1 : Nat) : Int)) b).j = 2 * (k1 : Int) ∧
            49 * k1 ≤ (rd_dataLoop cfg i A B (2 * ((k + 1 : Nat) : Int)) b).tXValue ∧
            (rd_dataLoop cfg i A B (2 * ((k + 1 : Nat) : Int)) b).tXValue ≤ 4048 * k1 ∧
            101 * k1 ≤ (rd_dataLoop cfg i A B (2 * ((k + 1 : Nat) : Int)) b).tYValue ∧
            (rd_dataLoop cfg i A B (2 * ((k + 1 : Nat) : Int)) b).tYValue ≤ 8191 * k1) ∧
          rd_dataLoop cfg i A B (2 * ((k + 1 : Nat) : Int)) b
            = rd_dataLoopExact cfg i A B (2 * ((k + 1 : Nat) : Int)) b := by
        intro A B b a1 a2 a3 a4
        obtain ⟨⟨k1, c1, c2, c3⟩, c4⟩ := ih (k + 1) A B b (by omega) a1 a2 a3 a4
        exact ⟨⟨k1, by omega, by omega, c3⟩, c4⟩
      exact next _ _ _ (by omega) (by omega) (by omega) (by omega)

/-- A pressure proxy lies between 0 and 510. -/
theorem rd_dataPressure_range (cfg : Header) (bus : Spi) :
    0 ≤ (rd_dataPressure cfg bus).1 ∧ (rd_dataPressure cfg bus).1 ≤ 510 := by
  unfold rd_dataPressure
  have h1 := SPI1_sendReceiveFast_lt 0
    (SPI1_sendReceiveFast (CMD_START ||| CMD_8BIT ||| CMD_DIFF ||| cfg.CMD_Z1_POS) bus).2
  simp only
  omega

/-- The pressure bound of `rd_data` in plain arithmetic: `p - (p >> 3)` is `p - p / 8`. -/
theorem pressure_bound_eq (p : Int) (h : 0 ≤ p ∧ p ≤ 510) : sub32 p (p >>> 3) = p - p / 8 := by
  have e : p >>> 3 = p / 8 := by
    obtain ⟨m, rfl⟩ := Int.eq_ofNat_of_zero_le h.1
    have e1 := Int.shiftRight_coe_nat m 3
    simp only [Nat.cast_ofNat] at e1
    rw [e1, Nat.shiftRight_eq_div_pow]
    norm_num
  rw [e]
  apply wrap32_of_fits
  unfold fits32
  omega

/-- What an accepted sample tells: the first pressure passed the threshold, the loop counted
all pairs, the second pressure and both averages passed their tests, and the state holds the
averages as raw position and the first pressure. -/
theorem rd_data_accepted (cfg : Header) (n : Int) (resp : Nat → Nat) (s s1 : State)
    (h : rd_data cfg n resp s = some s1) (ha : s1.ADS7846TouchActive = true) :
    rd_dataFirstPressure cfg resp ≥ cfg.MIN_REASONABLE_PRESSURE ∧
    (rd_dataOversampled cfg n resp).j = mul32 n 2 ∧
    (rd_dataOversampled cfg n resp).j ≠ 0 ∧
    rd_dataSecondPressure cfg n resp
      > sub32 (rd_dataFirstPressure cfg resp) (rd_dataFirstPressure cfg resp >>> 3) ∧
    (rd_dataOversampled cfg n resp).tXValue / toU32 (rd_dataOversampled cfg n resp).j ≥ 10 ∧
    (rd_dataOversampled cfg n resp).tYValue / toU32 (rd_dataOversampled cfg n resp).j ≥ 10 ∧
    s1.mTouchActualPositionRaw
      = ⟨toS32 ((rd_dataOversampled cfg n resp).tXValue
            / toU32 (rd_dataOversampled cfg n resp).j),
         toS32 ((rd_dataOversampled cfg n resp).tYValue
            / toU32 (rd_dataOversampled cfg n resp).j)⟩ ∧
    s1.mPressure = rd_dataFirstPressure cfg resp := by
  unfold rd_dataSecondPressure rd_dataOversampled rd_dataFirstPressure
  unfold rd_data at h
  simp only [] at h
  split_ifs at h with h1 h2 h3 h4
  · simp only [Option.map_eq_some'] at h
    obtain ⟨sc, hc, rfl⟩ := h
    have f := calibrate_frame cfg _ sc hc
    refine ⟨h1, h2, h3, h4.1, h4.2.1, h4.2.2, ?_, rfl⟩
    show sc.mTouchActualPositionRaw = _
    rw [f]
  · simp only [Option.some.injEq] at h
    rw [← h] at ha
    simp at ha
  · simp only [Option.some.injEq] at h
    rw [← h] at ha
    simp at ha
  · simp only [Option.some.injEq] at h
    rw [← h] at ha
    simp at ha

/-- The decision of `rd_data` once the first pressure passed, the loop counted all pairs and
both averages reach 10: with a non-zero `div` it returns, the touch is active exactly when
the second pressure exceeds the bound, and a rejected sample leaves the positions alone. -/
theorem rd_data_decision (cfg : Header) (n : Int) (resp : Nat → Nat) (s : State)
    (hdiv : s.tp_matrix.div ≠ 0)
    (hp : rd_dataFirstPressure cfg resp ≥ cfg.MIN_REASONABLE_PRESSURE)
    (hj : (rd_dataOversampled cfg n resp).j = mul32 n 2)
    (hj0 : (rd_dataOversampled cfg n resp).j ≠ 0)
    (hx : (rd_dataOversampled cfg n resp).tXValue / toU32 (rd_dataOversampled cfg n resp).j ≥ 10)
    (hy : (rd_dataOversampled cfg n resp).tYValue / toU32 (rd_dataOversampled cfg n resp).j ≥ 10) :
    ∃ s1, rd_data cfg n resp s = some s1 ∧
      (s1.ADS7846TouchActive = true ↔ rd_dataSecondPressure cfg n resp
        > sub32 (rd_dataFirstPressure cfg resp) (rd_dataFirstPressure cfg resp >>> 3)) ∧
      (s1.ADS7846TouchActive = false →
        s1.mTouchActualPositionRaw = s.mTouchActualPositionRaw ∧
        s1.mTouchActualPosition = s.mTouchActualPosition ∧ s1.mPressure = 0) := by
  unfold rd_dataSecondPressure rd_dataOversampled rd_dataFirstPressure at *
  have key : ∀ S : State, S.tp_matrix.div ≠ 0 → ∃ sc, calibrate cfg S = some sc := by
    intro S hS
    obtain ⟨sc, hc, -⟩ := calibrate_some cfg S hS
    exact ⟨sc, hc⟩
  unfold rd_data
  simp only []
  rw [if_pos hp, if_pos hj, if_neg hj0]
  split_ifs with hc
  · have hk : ∀ S : State, calibrate cfg S = none → S.tp_matrix.div ≠ 0 → False := by
      intro S h1 h2
      obtain ⟨sc, hsc⟩ := key S h2
      rw [hsc] at h1
      cases h1
    generalize hcal : calibrate cfg _ = oc
    cases oc with
    | none => exact absurd hdiv (fun hd => hk _ hcal hd)
    | some sc => exact ⟨_, rfl, ⟨fun _ => hc.1, fun _ => rfl⟩, fun hf => by simp at hf⟩
  · refine ⟨_, rfl, ⟨fun hf => by simp at hf, fun hgt => absurd ⟨hgt, hx, hy⟩ hc⟩, fun _ => ?_⟩
    exact ⟨rfl, rfl, rfl⟩

/-- The oversampling loop of `rd_data(n)` for `n` from 1 to 255, when it has counted all
pairs: the accumulators lie between `49n` and `4048n` resp. `101n` and `8191n`, the divisor is
`2n`, and the loop agrees with the loop on unbounded accumulators. -/
theorem rd_dataOversampled_complete (cfg : Header) (n : Int) (hn : 1 ≤ n ∧ n ≤ 255)
    (resp : Nat → Nat) (hj : (rd_dataOversampled cfg n resp).j = mul32 n 2) :
    toU32 (rd_dataOversampled cfg n resp).j = 2 * n.toNat ∧
    49 * n.toNat ≤ (rd_dataOversampled cfg n resp).tXValue ∧
    (rd_dataOversampled cfg n resp).tXValue ≤ 4048 * n.toNat ∧
    101 * n.toNat ≤ (rd_dataOversampled cfg n resp).tYValue ∧
    (rd_dataOversampled cfg n resp).tYValue ≤ 8191 * n.toNat ∧
    rd_dataOversampled cfg n resp
      = rd_dataLoopExact cfg n.toNat 0 0 0 (rd_dataPressure cfg ⟨resp, 0, []⟩).2 := by
  have hm : (n % 256).toNat = n.toNat := by omega
  have e0 : 2 * ((0 : Nat) : Int) = 0 := by simp
  have hb := rd_dataLoop_bounds cfg n.toNat 0 0 0 (rd_dataPressure cfg ⟨resp, 0, []⟩).2
    (by omega) (by omega) (by omega) (by omega) (by omega)
  rw [e0] at hb
  unfold rd_dataOversampled at hj ⊢
  rw [hm] at hj ⊢
  obtain ⟨⟨k1, -, -, c3, c4, c5, c6, c7⟩, c8⟩ := hb
  have h2 : mul32 n 2 = 2 * n := by
    unfold mul32 wrap32
    omega
  have hk : k1 = n.toNat := by
    rw [c3, h2] at hj
    omega
  subst hk
  refine ⟨?_, c4, c5, c6, c7, c8⟩
  rw [c3]
  unfold toU32
  omega

/-- C20: for an oversampling count from 1 to 255 and any response bytes, when `rd_data`
accepts the sample the recorded raw position satisfies `24 <= x <= 2024` and
`50 <= y <= 4095`, so both lie in `[0, 4095]`; and the 32-bit accumulators have not
overflowed: the loop agrees with the loop on unbounded accumulators, whose sums are at most
`4048 * 255` and `8191 * 255`. -/
theorem rd_data_raw_domain (cfg : Header) (n : Int) (hn : 1 ≤ n ∧ n ≤ 255) (resp : Nat → Nat)
    (s s1 : State) (h : rd_data cfg n resp s = some s1)
    (ha : s1.ADS7846TouchActive = true) :
    (24 ≤ s1.mTouchActualPositionRaw.x ∧ s1.mTouchActualPositionRaw.x ≤ 2024 ∧
      50 ≤ s1.mTouchActualPositionRaw.y ∧ s1.mTouchActualPositionRaw.y ≤ 4095) ∧
    (0 ≤ s1.mTouchActualPositionRaw.x ∧ s1.mTouchActualPositionRaw.x ≤ 4095 ∧
      0 ≤ s1.mTouchActualPositionRaw.y ∧ s1.mTouchActualPositionRaw.y ≤ 4095) ∧
    rd_dataOversampled cfg n resp
      = rd_dataLoopExact cfg n.toNat 0 0 0 (rd_dataPressure cfg ⟨resp, 0, []⟩).2 ∧
    (rd_dataLoopExact cfg n.toNat 0 0 0 (rd_dataPressure cfg ⟨resp, 0, []⟩).2).tXValue
      ≤ 4048 * 255 ∧
    (rd_dataLoopExact cfg n.toNat 0 0 0 (rd_dataPressure cfg ⟨resp, 0, []⟩).2).tYValue
      ≤ 8191 * 255 := by
  obtain ⟨-, a2, -, -, -, -, a7, -⟩ := rd_data_accepted cfg n resp s s1 h ha
  obtain ⟨b1, b2, b3, b4, b5, b6⟩ := rd_dataOversampled_complete cfg n hn resp a2
  have hpos : 0 < 2 * n.toNat := by omega
  have x1 : 24 ≤ (rd_dataOversampled cfg n resp).tXValue / (2 * n.toNat) :=
    (Nat.le_div_iff_mul_le hpos).mpr (by omega)
  have x2 : (rd_dataOversampled cfg n resp).tXValue / (2 * n.toNat) ≤ 2024 :=
    Nat.div_le_of_le_mul (by omega)
  have y1 : 50 ≤ (rd_dataOversampled cfg n resp).tYValue / (2 * n.toNat) :=
    (Nat.le_div_iff_mul_le hpos).mpr (by omega)
  have y2 : (rd_dataOversampled cfg n resp).tYValue / (2 * n.toNat) ≤ 4095 :=
    Nat.lt_succ_iff.mp ((Nat.div_lt_iff_lt_mul hpos).mpr (by omega))
  have ex : s1.mTouchActualPositionRaw.x
      = (((rd_dataOversampled cfg n resp).tXValue / (2 * n.toNat) : Nat) : Int) := by
    rw [a7, b1]
    show toS32 _ = _
    unfold toS32
    apply wrap32_of_fits
    unfold fits32
    omega
  have ey : s1.mTouchActualPositionRaw.y
      = (((rd_dataOversampled cfg n resp).tYValue / (2 * n.toNat) : Nat) : Int) := by
    rw [a7, b1]
    show toS32 _ = _
    unfold toS32
    apply wrap32_of_fits
    unfold fits32
    omega
  refine ⟨?_, ?_, b6, ?_, ?_⟩
  · rw [ex, ey]
    omega
  · rw [ex, ey]
    omega
  · rw [← b6]
    omega
  · rw [← b6]
    omega

set_option maxRecDepth 100000 in
/-- C20 (witness): `rd_data(4)` with every response byte 50 accepts the sample with the raw
position (1221, 803). -/
theorem rd_data_raw_domain_witness :
    ∃ s1, rd_data cfg320 4 touchResp bootState = some s1 ∧
      s1.mTouchActualPositionRaw = ⟨1221, 803⟩ ∧
      (24 ≤ s1.mTouchActualPositionRaw.x ∧ s1.mTouchActualPositionRaw.x ≤ 2024 ∧
        50 ≤ s1.mTouchActualPositionRaw.y ∧ s1.mTouchActualPositionRaw.y ≤ 4095) :=
  ⟨(rd_data cfg320 4 touchResp bootState).getD bootState, by decide, by decide,
   (rd_data_raw_domain cfg320 4 (by decide) touchResp bootState
      ((rd_data cfg320 4 touchResp bootState).getD bootState) (by decide) (by decide)).1⟩

/-! ## The second pressure check -/

set_option maxRecDepth 100000 in
/-- C12 (as stated, refuted): `rd_data(1)` with first pressure 16 and second pressure 14: the
first pressure passes the threshold 9, the pair is complete, both averages (1221 and 803)
reach the noise floor, and `8 * 14 >= 7 * 16`, yet the sample is not accepted, because 14 is
not greater than `16 - (16 >> 3) = 14`. -/
theorem rd_data_seven_eighths_counterexample :
    rd_dataFirstPressure cfg320 fadingResp = 16 ∧
    rd_dataSecondPressure cfg320 1 fadingResp = 14 ∧
    (rd_dataOversampled cfg320 1 fadingResp).j = 2 * 1 ∧
    (rd_dataOversampled cfg320 1 fadingResp).tXValue / 2 = 1221 ∧
    (rd_dataOversampled cfg320 1 fadingResp).tYValue / 2 = 803 ∧
    8 * rd_dataSecondPressure cfg320 1 fadingResp ≥ 7 * rd_dataFirstPressure cfg320 fadingResp ∧
    (rd_data cfg320 1 fadingResp bootState).map
        (fun s => (s.ADS7846TouchActive, s.mPressure, s.mTouchActualPositionRaw))
      = some (false, 0, ⟨0, 0⟩) := by
  decide

/-- C12 (amended): for an oversampling count `n` from 1 to 255, a non-zero `div` and
responses for which the first pressure proxy `p1` passes the threshold, the loop completes
all `n` pairs and both averages reach 10: `rd_data` returns, and it accepts the sample
(marks the touch active, records the averages as raw position and `p1` as pressure) if and
only if the second pressure proxy `p2` is greater than `p1 - (p1 >> 3)`, that is
`p2 > p1 - p1 / 8` with the integer quotient; a rejected sample leaves the raw and display
positions as they were and the pressure 0. -/
theorem rd_data_accepts_iff (cfg : Header) (n : Int) (hn : 1 ≤ n ∧ n ≤ 255) (resp : Nat → Nat)
    (s : State) (hdiv : s.tp_matrix.div ≠ 0)
    (hp : rd_dataFirstPressure cfg resp ≥ cfg.MIN_REASONABLE_PRESSURE)
    (hloop : (rd_dataOversampled cfg n resp).j = 2 * n)
    (hx : 10 ≤ (rd_dataOversampled cfg n resp).tXValue / (2 * n.toNat))
    (hy : 10 ≤ (rd_dataOversampled cfg n resp).tYValue / (2 * n.toNat)) :
    ∃ s1, rd_data cfg n resp s = some s1 ∧
      (s1.ADS7846TouchActive = true ↔
        rd_dataSecondPressure cfg n resp
          > rd_dataFirstPressure cfg resp - rd_dataFirstPressure cfg resp / 8) ∧
      (s1.ADS7846TouchActive = true →
        s1.mTouchActualPositionRaw
          = ⟨(((rd_dataOversampled cfg n resp).tXValue / (2 * n.toNat) : Nat) : Int),
             (((rd_dataOversampled cfg n resp).tYValue / (2 * n.toNat) : Nat) : Int)⟩ ∧
        s1.mPressure = rd_dataFirstPressure cfg resp) ∧
      (s1.ADS7846TouchActive = false →
        s1.mTouchActualPositionRaw = s.mTouchActualPositionRaw ∧
        s1.mTouchActualPosition = s.mTouchActualPosition ∧ s1.mPressure = 0) := by
  have h2 : mul32 n 2 = 2 * n := by
    unfold mul32 wrap32
    omega
  have hj : (rd_dataOversampled cfg n resp).j = mul32 n 2 := by rw [h2]; exact hloop
  obtain ⟨b1, b2, b3, b4, b5, -⟩ := rd_dataOversampled_complete cfg n hn resp hj
  have hj0 : (rd_dataOversampled cfg n resp).j ≠ 0 := by rw [hloop]; omega
  have hpe := pressure_bound_eq (rd_dataFirstPressure cfg resp)
    (rd_dataPressure_range cfg ⟨resp, 0, []⟩)
  obtain ⟨s1, g1, g2, g3⟩ := rd_data_decision cfg n resp s hdiv hp hj hj0
    (by rw [b1]; exact hx) (by rw [b1]; exact hy)
  rw [hpe] at g2
  refine ⟨s1, g1, g2, ?_, g3⟩
  intro ha
  obtain ⟨-, -, -, -, -, -, a7, a8⟩ := rd_data_accepted cfg n resp s s1 g1 ha
  refine ⟨?_, a8⟩
  rw [a7, b1]
  have tx : toS32 ((rd_dataOversampled cfg n resp).tXValue / (2 * n.toNat))
      = (((rd_dataOversampled cfg n resp).tXValue / (2 * n.toNat) : Nat) : Int) := by
    have := Nat.div_le_self (rd_dataOversampled cfg n resp).tXValue (2 * n.toNat)
    unfold toS32
    apply wrap32_of_fits
    unfold fits32
    omega
  have ty : toS32 ((rd_dataOversampled cfg n resp).tYValue / (2 * n.toNat))
      = (((rd_dataOversampled cfg n resp).tYValue / (2 * n.toNat) : Nat) : Int) := by
    have := Nat.div_le_self (rd_dataOversampled cfg n resp).tYValue (2 * n.toNat)
    unfold toS32
    apply wrap32_of_fits
    unfold fits32
    omega
  rw [tx, ty]

set_option maxRecDepth 100000 in
/-- C12 (witness): `rd_data(1)` with pressure 16 then 14 is rejected, and `rd_data(4)` with
pressure 127 both times is accepted with the raw position (1221, 803). -/
theorem rd_data_accepts_iff_witness :
    (∃ s1, rd_data cfg320 1 fadingResp bootState = some s1 ∧ ¬ s1.ADS7846TouchActive = true) ∧
    (∃ s1, rd_data cfg320 4 touchResp bootState = some s1 ∧ s1.ADS7846TouchActive = true ∧
      s1.mPressure = 127) := by
  constructor
  · obtain ⟨s1, h1, h2, -⟩ := rd_data_accepts_iff cfg320 1 (by decide) fadingResp bootState
      (by decide) (by decide) (by decide) (by decide) (by decide)
    exact ⟨s1, h1, fun ha => absurd (h2.1 ha) (by decide)⟩
  · obtain ⟨s1, h1, h2, h3, -⟩ := rd_data_accepts_iff cfg320 4 (by decide) touchResp bootState
      (by decide) (by decide) (by decide) (by decide) (by decide)
    have ha := h2.2 (by decide)
    exact ⟨s1, h1, ha, (h3 ha).2.trans (by decide)⟩

/-! ## Reading a single channel -/

/-- The readings seen from a bus that has done `c + w` exchanges are the readings seen after
`c` exchanges, shifted by one reading of `w` exchanges. -/
theorem readChannelReading_shift (use12Bit : Bool) (resp : Nat → Nat) (c : Nat) :
    readChannelReading use12Bit (fun j => resp (c + (if use12Bit then 3 else 2) + j))
      = fun k => readChannelReading use12Bit (fun j => resp (c + j)) (k + 1) := by
  funext k
  cases use12Bit
  · simp only [readChannelReading, Bool.false_eq_true, if_false]
    congr 2
    omega
  · simp only [readChannelReading, if_true]
    congr 4 <;> omega

/-- One round of the loop of `readChannel`. -/
theorem readChannelLoop_succ (use12Bit : Bool) (tMode channel i acc : Nat) (bus : Spi) :
    readChannelLoop use12Bit tMode channel (i + 1) acc bus
      = readChannelLoop use12Bit tMode channel i
          ((acc + readChannelReading use12Bit (fun j => bus.resp (bus.count + j)) 0) % 65536)
          ⟨bus.resp, bus.count + (if use12Bit then 3 else 2),
            bus.sent ++ readChannelBlock use12Bit tMode channel⟩ := by
  cases use12Bit <;>
    simp [readChannelLoop, SPI1_sendReceiveFast, readChannelReading, readChannelBlock,
      Nat.add_assoc]

/-- The loop of `readChannel`: the accumulator ends as the sum of the old accumulator and the
`i` readings, modulo `2^16`; `i` blocks of bytes have been shifted out. -/
theorem readChannelLoop_spec (use12Bit : Bool) (tMode channel : Nat) (i : Nat) :
    ∀ (acc : Nat) (bus : Spi), acc < 65536 →
      (readChannelLoop use12Bit tMode channel i acc bus).1
        = (acc + ((List.range i).map
            (readChannelReading use12Bit (fun j => bus.resp (bus.count + j)))).sum) % 65536 ∧
      (readChannelLoop use12Bit tMode channel i acc bus).2.sent
        = bus.sent ++ (List.replicate i (readChannelBlock use12Bit tMode channel)).flatten := by
  induction i with
  | zero =>
    intro acc bus hacc
    simp [readChannelLoop, Nat.mod_eq_of_lt hacc]
  | succ i ih =>
    intro acc bus hacc
    have hsum : ∀ f : Nat → Nat, ((List.range (i + 1)).map f).sum
        = f 0 + ((List.range i).map (fun k => f (k + 1))).sum := by
      intro f
      rw [List.range_succ_eq_map, List.map_cons, List.sum_cons, List.map_map]
      rfl
    rw [hsum, readChannelLoop_succ]
    obtain ⟨h1, h2⟩ := ih
      ((acc + readChannelReading use12Bit (fun j => bus.resp (bus.count + j)) 0) % 65536)
      ⟨bus.resp, bus.count + (if use12Bit then 3 else 2),
        bus.sent ++ readChannelBlock use12Bit tMode channel⟩
      (Nat.mod_lt _ (by decide))
    rw [h1, h2]
    simp only [readChannelReading_shift]
    constructor
    · omega
    · simp [List.replicate_succ]

set_option maxRecDepth 100000 in
/-- C15 (as stated, refuted): with a count of 256 and every response byte 100, `readChannel`
in 8-bit mode does no exchange and returns 0, while the average of 256 readings is 100 (the
loop counter has 8 bits); and with a count of 17 and full-scale 12-bit readings 4095 it
returns 239, because the 16-bit accumulator wraps at 65536. -/
theorem readChannel_count_counterexample :
    ((List.range 256).map (readChannelReading false hundredResp)).sum / 256 = 100 ∧
    (readChannel cfg320 7 false false 256 hundredResp defaultState).map
        (fun r => (r.1, r.2.spiSent)) = some (0, []) ∧
    ((List.range 17).map (readChannelReading true fullScaleResp)).sum / 17 = 4095 ∧
    (readChannel cfg320 7 true false 17 fullScaleResp defaultState).map (fun r => r.1)
      = some 239 := by
  decide

/-- C15 (amended): for every channel, resolution and mode and every count `n` from 1 to 255
whose `n` readings sum to less than 65536, `readChannel` returns the integer average
`floor((r_1 + ... + r_n) / n)` of the `n` readings obtained from the chip and performs
exactly `n` command/response exchanges: the bytes shifted out are `n` times the command
byte followed by one zero per response byte. -/
theorem readChannel_average (cfg : Header) (channel : Nat) (use12Bit useDiffMode : Bool)
    (n : Int) (hn : 1 ≤ n ∧ n ≤ 255) (resp : Nat → Nat) (s : State)
    (hsum : ((List.range n.toNat).map (readChannelReading use12Bit resp)).sum < 65536) :
    ∃ s1, readChannel cfg channel use12Bit useDiffMode n resp s
        = some (((List.range n.toNat).map (readChannelReading use12Bit resp)).sum / n.toNat, s1) ∧
      s1.spiSent = s.spiSent ++ (List.replicate n.toNat
        (readChannelBlock use12Bit (if useDiffMode then CMD_DIFF else CMD_SINGLE)
          (((channel <<< 4) % 256) &&& CHANNEL_MASK))).flatten := by
  have hm : (n % 256).toNat = n.toNat := by omega
  have hn0 : n ≠ 0 := by omega
  obtain ⟨h1, h2⟩ := readChannelLoop_spec use12Bit (if useDiffMode then CMD_DIFF else CMD_SINGLE)
    (((channel <<< 4) % 256) &&& CHANNEL_MASK) n.toNat 0 ⟨resp, 0, []⟩ (by decide)
  simp only [Nat.zero_add, List.nil_append] at h1 h2
  rw [Nat.mod_eq_of_lt hsum] at h1
  have hv : (Int.tdiv
      (((List.range n.toNat).map (readChannelReading use12Bit resp)).sum : Int) n % 65536).toNat
      = ((List.range n.toNat).map (readChannelReading use12Bit resp)).sum / n.toNat := by
    have e1 : n = (n.toNat : Int) := by omega
    have e2 : Int.tdiv (((List.range n.toNat).map (readChannelReading use12Bit resp)).sum : Int) n
        = ((((List.range n.toNat).map (readChannelReading use12Bit resp)).sum / n.toNat : Nat)
            : Int) := by
      rw [Int.tdiv_eq_ediv (by omega) (by omega)]
      conv_lhs => rw [e1]
      exact (Int.ofNat_ediv _ _).symm
    rw [e2]
    have hq : ((List.range n.toNat).map (readChannelReading use12Bit resp)).sum / n.toNat
        < 65536 := lt_of_le_of_lt (Nat.div_le_self _ _) hsum
    generalize ((List.range n.toNat).map (readChannelReading use12Bit resp)).sum / n.toNat = q
      at hq ⊢
    omega
  unfold readChannel
  simp only []
  rw [if_neg hn0, hm, h1, h2, hv]
  exact ⟨_, rfl, rfl⟩

set_option maxRecDepth 100000 in
/-- C15 (witness): three 8-bit readings of 100 on channel 7 average to 100, with three
command bytes; sixteen full-scale 12-bit readings average to 4095. -/
theorem readChannel_average_witness :
    (∃ s1, readChannel cfg320 7 false false 3 hundredResp defaultState = some (100, s1) ∧
      s1.spiSent = [252, 0, 252, 0, 252, 0]) ∧
    (∃ s1, readChannel cfg320 7 true false 16 fullScaleResp defaultState = some (4095, s1)) := by
  constructor
  · obtain ⟨s1, h1, h2⟩ := readChannel_average cfg320 7 false false 3 (by decide) hundredResp
      defaultState (by decide)
    have hv : ((List.range (Int.toNat 3)).map (readChannelReading false hundredResp)).sum
        / Int.toNat 3 = 100 := by decide
    rw [hv] at h1
    exact ⟨s1, h1, h2.trans (by decide)⟩
  · obtain ⟨s1, h1, -⟩ := readChannel_average cfg320 7 true false 16 (by decide) fullScaleResp
      defaultState (by decide)
    have hv : ((List.range (Int.toNat 16)).map (readChannelReading true fullScaleResp)).sum
        / Int.toNat 16 = 4095 := by decide
    rw [hv] at h1
    exact ⟨s1, h1⟩


/-! ## Callback invocations and validated presses -/

/-- The release part keeps both reaches: an invocation it adds sets the once-flag. -/
theorem touchReleased_reach (now : Nat) (s : State) :
    longTouchReach (touchReleased now s) = longTouchReach s ∧
    endTouchReach (touchReleased now s) = endTouchReach s := by
  cases s with
  | mk m raw lc act fst lst pr ac st sm pp lt lcb lh eh pcb ecb bk ba dp dl de ie sp cl =>
    cases lcb <;> cases ecb <;> cases lh <;> cases eh <;>
      simp [touchReleased, longTouchReach, endTouchReach, countLongTouch_append,
        countEndTouch_append, countLongTouch, countEndTouch]

/-- One handler raises each reach by at most one, and only when it is a validated press. -/
theorem step_reach (cfg : Header) (e : Event) (s s1 : State) (hs : step cfg e s = some s1) :
    longTouchReach s1 ≤ longTouchReach s + (if validatedPress cfg s e then 1 else 0) ∧
    endTouchReach s1 ≤ endTouchReach s + (if validatedPress cfg s e then 1 else 0) := by
  cases e with
  | edge tLevel resp now =>
    cases tLevel with
    | false =>
      have hs1 : EXTI1_IRQHandler cfg false resp now s = some s1 := hs
      obtain ⟨r, hr, hact, -, -, -, hE, hL, -, -, -, hc⟩ := press_fields cfg resp now s s1 hs1
      obtain ⟨-, kc, -, -, -, kL, kE, -⟩ := rd_data_keeps cfg _ resp s r hr
      have hv : validatedPress cfg s (Event.edge false resp now) = r.ADS7846TouchActive := by
        simp only [validatedPress, hs1, hact]
      rw [hv]
      unfold longTouchReach endTouchReach
      rw [hc, hE, hL, kc, kL, kE]
      constructor
      · split_ifs <;> simp_all
      · split_ifs <;> simp_all
    | true =>
      simp only [step, EXTI1_IRQHandler, Bool.not_true, Bool.false_eq_true, if_false,
        Option.some.injEq] at hs
      obtain ⟨h1, h2⟩ := touchReleased_reach now s
      rw [← hs, h1, h2]
      exact ⟨Nat.le_add_right _ _, Nat.le_add_right _ _⟩
  | periodicTick resp now =>
    simp only [step, callbackPeriodicTouch, rd_dataDefault, Option.map_eq_some'] at hs
    obtain ⟨r, hr, hs⟩ := hs
    obtain ⟨-, kc, -, -, -, kL, kE, -⟩ := rd_data_keeps cfg _ resp s r hr
    have hrL : longTouchReach r = longTouchReach s := by
      unfold longTouchReach
      rw [kc, kL]
    have hrE : endTouchReach r = endTouchReach s := by
      unfold endTouchReach
      rw [kc, kE]
    have key : longTouchReach s1 = longTouchReach r ∧ endTouchReach s1 = endTouchReach r := by
      rw [← hs]
      split_ifs
      · cases hp : r.mPeriodicTouchCallback <;>
          simp [longTouchReach, endTouchReach, countLongTouch_append, countEndTouch_append,
            countLongTouch, countEndTouch]
      · exact touchReleased_reach now { r with mPeriodicTouchCallback := none }
    rw [key.1, key.2, hrL, hrE]
    exact ⟨Nat.le_add_right _ _, Nat.le_add_right _ _⟩
  | longTouchTimeout =>
    have hs1 : callbackLongTouchTimeout s = some s1 := hs
    rcases callbackLongTouchTimeout_cases s s1 hs1 with ⟨_, rfl⟩ | ⟨hl, cb, -, rfl⟩
    · exact ⟨Nat.le_add_right _ _, Nat.le_add_right _ _⟩
    · simp [longTouchReach, endTouchReach, countLongTouch_append, countEndTouch_append,
        countLongTouch, countEndTouch, hl]

/-- One action raises each reach by at most one, and only when it is a validated press: the
registration methods touch neither the log nor the once-flags. -/
theorem act_reach (cfg : Header) (a : Action) (s s1 : State) (hs : act cfg a s = some s1) :
    longTouchReach s1 ≤ longTouchReach s + (if isValidatedPress cfg s a then 1 else 0) ∧
    endTouchReach s1 ≤ endTouchReach s + (if isValidatedPress cfg s a then 1 else 0) := by
  cases a with
  | event e => exact step_reach cfg e s s1 hs
  | registerLongTouch cb t =>
    simp only [act, Option.some.injEq] at hs
    rw [← hs]
    unfold registerLongTouchCallback
    split_ifs <;> exact ⟨Nat.le_add_right _ _, Nat.le_add_right _ _⟩
  | registerPeriodicTouch cb t =>
    simp only [act, Option.some.injEq] at hs
    rw [← hs]
    exact ⟨Nat.le_add_right _ _, Nat.le_add_right _ _⟩
  | registerEndTouch cb =>
    simp only [act, Option.some.injEq] at hs
    rw [← hs]
    exact ⟨Nat.le_add_right _ _, Nat.le_add_right _ _⟩
  | setPeriod t =>
    simp only [act, Option.some.injEq] at hs
    rw [← hs]
    exact ⟨Nat.le_add_right _ _, Nat.le_add_right _ _⟩

/-- Along every run of registrations and events, each reach grows by at most the number of
validated presses. -/
theorem runActions_reach (cfg : Header) (l : List Action) :
    ∀ s s1 : State, runActions cfg l s = some s1 →
      longTouchReach s1 ≤ longTouchReach s + countValidatedPresses cfg l s ∧
      endTouchReach s1 ≤ endTouchReach s + countValidatedPresses cfg l s := by
  induction l with
  | nil =>
    intro s s1 h
    simp only [runActions, Option.some.injEq] at h
    rw [← h]
    exact ⟨Nat.le_add_right _ _, Nat.le_add_right _ _⟩
  | cons a l ih =>
    intro s s1 h
    simp only [runActions, Option.bind_eq_some] at h
    obtain ⟨s2, h2, h3⟩ := h
    obtain ⟨a1, a2⟩ := act_reach cfg a s s2 h2
    obtain ⟨b1, b2⟩ := ih s2 s1 h3
    simp only [countValidatedPresses, h2]
    constructor <;> omega

/-- What holds of the counts: along every run of registrations, edges, ticks and timeouts
that returns, the long-touch invocations added to the log are at most the validated presses
of the run plus one, and none is in excess when the run starts with the long-touch once-flag
set; likewise the end-touch invocations. -/
theorem callbacks_bounded_by_presses (cfg : Header) (l : List Action) (s s1 : State)
    (h : runActions cfg l s = some s1) :
    countLongTouch s1.calls ≤ countLongTouch s.calls + countValidatedPresses cfg l s +
      (if s.mLongTouchCallbackHappened then 0 else 1) ∧
    countEndTouch s1.calls ≤ countEndTouch s.calls + countValidatedPresses cfg l s +
      (if s.mEndTouchCallbackHappened then 0 else 1) := by
  obtain ⟨h1, h2⟩ := runActions_reach cfg l s s1 h
  unfold longTouchReach at h1
  unfold endTouchReach at h2
  constructor <;> omega

/-- C21 (code bug): the counts of callback invocations are not bounded by the validated
presses. From the state after boot (both once-flags false, empty log) the long-touch and the
end-touch callback are registered, the line falls with a sample that `rd_data` rejects and
rises again: the run has no validated press, yet the release branch invokes the long-touch
callback (as a short touch at the stale first position) and the end-touch callback (with the
time since boot as duration), one invocation each. -/
theorem callbacks_fire_without_press :
    bootState.mLongTouchCallbackHappened = false ∧
    bootState.mEndTouchCallbackHappened = false ∧
    bootState.calls = [] ∧
    countValidatedPresses cfg320 lightTouch bootState = 0 ∧
    (runActions cfg320 lightTouch bootState).map (fun s => s.calls) =
      some [CallbackCall.longTouch 1 0 0 false, CallbackCall.endTouch 2 300 0 0] ∧
    (runActions cfg320 lightTouch bootState).map
      (fun s => (countLongTouch s.calls, countEndTouch s.calls)) = some (1, 1) := by
  set_option maxRecDepth 100000 in decide

end ADS7846
